import Mathlib

/-!
# Topograph (Valley) — the sequencer controller

A shallow embedding of `src/repos/Valley/src/Topograph/Topograph.cpp`.

* `float` values are rationals (`Rat`).  Where a sum decides an integer result
  (the momentary run level of line 271 and the six control values of lines
  320-331, which become bytes) it is rounded to single precision as the code
  does (`roundFloat`); tempo and swing, which are only handed on as real values,
  are kept exact.
* The metronome, the pattern generator, the one-shot timers and the Schmitt
  triggers are declared in headers that are not part of the sources
  (`Metronome.hpp`, `TopographPatternGenerator.hpp`, `Oneshot.hpp`,
  `dsp/digital.hpp`).  Each such object is represented by the sequence of
  member calls made on it so far, and the values its observers return are
  parameters of the development (`Deps`).  Every theorem therefore holds for
  every implementation of those classes.
* Enumeration-typed settings are kept as the integer they hold, since
  `fromJson` stores whatever integer the settings object carries.

The definitions end with an embedding of
`src/repos/Nohmad/src/StrangeAttractors.cpp`.
-/

/-! ## Identifiers -/

/-- Parameter ids, `enum ParamIds`. -/
inductive ParamIds
  | RESET_BUTTON_PARAM | RUN_BUTTON_PARAM | TEMPO_PARAM | MAPX_PARAM | MAPY_PARAM
  | CHAOS_PARAM | BD_DENS_PARAM | SN_DENS_PARAM | HH_DENS_PARAM | SWING_PARAM
  deriving DecidableEq, Repr

/-- Input ids, `enum InputIds`. -/
inductive InputIds
  | CLOCK_INPUT | RESET_INPUT | MAPX_CV | MAPY_CV | CHAOS_CV
  | BD_FILL_CV | SN_FILL_CV | HH_FILL_CV | SWING_CV | RUN_INPUT
  deriving DecidableEq, Repr

/-- Output ids, `enum OutputIds`. -/
inductive OutputIds
  | BD_OUTPUT | SN_OUTPUT | HH_OUTPUT | BD_ACC_OUTPUT | SN_ACC_OUTPUT | HH_ACC_OUTPUT
  deriving DecidableEq, Repr

/-- Light ids, `enum LightIds`. -/
inductive LightIds
  | RUNNING_LIGHT | RESET_LIGHT | BD_LIGHT | SN_LIGHT | HH_LIGHT
  deriving DecidableEq, Repr

/-- Pattern generator modes named by the controller (`PATTERN_HENRI`, ...). -/
inductive PatternGeneratorMode
  | PATTERN_HENRI | PATTERN_OLIVIER | PATTERN_EUCLIDEAN
  deriving DecidableEq, Repr

/-! ## Collaborating objects, as call histories -/

/-- A member call on a `Metronome`. -/
inductive MetronomeCall
  | create (tempo sampleRate division phase : Rat)
  | setTempo (tempo : Rat)
  | setSampleRate (sampleRate : Rat)
  | process
  | reset
  deriving DecidableEq, Repr

/-- A metronome: the calls made on it, oldest first. -/
abbrev Metronome := List MetronomeCall

/-- A member call on a `Oneshot`. -/
inductive OneshotCall
  | create (duration sampleRate : Rat)
  | trigger
  | process
  | setSampleRate (sampleRate : Rat)
  deriving DecidableEq, Repr

/-- A one-shot timer: the calls made on it, oldest first
(a default-constructed timer has the empty history). -/
abbrev Oneshot := List OneshotCall

/-- A member call on the `PatternGenerator`. -/
inductive PatternGeneratorCall
  | setPatternMode (mode : PatternGeneratorMode)
  | setAccentAltMode (alt : Bool)
  | reset
  | tick (numTicks : Nat)
  | setMapX (v : Nat)
  | setMapY (v : Nat)
  | setBDDensity (v : Nat)
  | setSDDensity (v : Nat)
  | setHHDensity (v : Nat)
  | setRandomness (v : Nat)
  | setEuclideanLength (channel : Nat) (v : Nat)
  deriving DecidableEq, Repr

/-- A pattern generator: the calls made on it, oldest first. -/
abbrev PatternGenerator := List PatternGeneratorCall

/-- A Schmitt trigger: the values passed to `process` so far, oldest first. -/
abbrev SchmittTrigger := List Rat

/-- What the absent classes and tables return; parameters of the development. -/
structure Deps where
  /-- the result of `SchmittTrigger::process(v)` on a trigger with the given history -/
  schmitt : SchmittTrigger → Rat → Bool
  /-- the result of `Metronome::hasTicked()` -/
  hasTicked : Metronome → Bool
  /-- the result of `Metronome::getElapsedTickTime()` -/
  getElapsedTickTime : Metronome → Rat
  /-- the result of `PatternGenerator::getPatternMode()` -/
  getPatternMode : PatternGenerator → PatternGeneratorMode
  /-- the result of `PatternGenerator::getDrumState(i)` -/
  getDrumState : PatternGenerator → Nat → Bool
  /-- the result of `Oneshot::getState()` -/
  getState : Oneshot → Int
  /-- the table `ticks_granularity[]`, read at an index -/
  ticks_granularity : Int → Nat
  /-- the text `sprintf("%.1f", tempo)` produces -/
  formatBPM : Rat → String

namespace Metronome

/-- The call `metro.setTempo(t)`. -/
def setTempo (m : Metronome) (t : Rat) : Metronome := m ++ [MetronomeCall.setTempo t]

/-- The call `metro.setSampleRate(sr)`. -/
def setSampleRate (m : Metronome) (sr : Rat) : Metronome := m ++ [MetronomeCall.setSampleRate sr]

/-- The call `metro.process()`. -/
def process (m : Metronome) : Metronome := m ++ [MetronomeCall.process]

/-- The call `metro.reset()`. -/
def reset (m : Metronome) : Metronome := m ++ [MetronomeCall.reset]

end Metronome

namespace Oneshot

/-- The constructor `Oneshot(duration, sampleRate)`. -/
def create (duration sampleRate : Rat) : Oneshot := [OneshotCall.create duration sampleRate]

/-- The call `trigger()`. -/
def trigger (o : Oneshot) : Oneshot := o ++ [OneshotCall.trigger]

/-- The call `process()`. -/
def process (o : Oneshot) : Oneshot := o ++ [OneshotCall.process]

/-- The call `setSampleRate(sr)`. -/
def setSampleRate (o : Oneshot) (sr : Rat) : Oneshot := o ++ [OneshotCall.setSampleRate sr]

end Oneshot

namespace PatternGenerator

/-- Any member call `grids.c(...)`. -/
def call (g : PatternGenerator) (c : PatternGeneratorCall) : PatternGenerator := g ++ [c]

end PatternGenerator

namespace SchmittTrigger

/-- Whether `t.process(v)` returns true. -/
def fires (d : Deps) (t : SchmittTrigger) (v : Rat) : Bool := d.schmitt t v

/-- The trigger after `t.process(v)`. -/
def process (t : SchmittTrigger) (v : Rat) : SchmittTrigger := t ++ [v]

end SchmittTrigger

/-! ## Numeric helpers -/

/-- Rack's `clamp(x, a, b)` (util/math.hpp): `x` limited to the interval `[a, b]`. -/
def clamp (x a b : Rat) : Rat := min (max x a) b

/-- Rack's `rescale(x, xMin, xMax, yMin, yMax)` (util/math.hpp). -/
def rescale (x xMin xMax yMin yMax : Rat) : Rat :=
  yMin + (x - xMin) / (xMax - xMin) * (yMax - yMin)

/-- Truncation toward zero: the integer between 0 and `q` that is less than 1
away from `q`. -/
def truncToInt (q : Rat) : Int := if 0 ≤ q then ⌊q⌋ else ⌈q⌉

/-- The cast `(uint8_t)(q)` of a `double`.  It is applied to `v * 255.0` for a
`float` `v` in [0, 1] only; that product is exact in `double` and lies in
[0, 255]. -/
def toUInt8 (q : Rat) : Nat := (truncToInt q % 256).toNat

/-- The integer nearest to `q`; when `q` lies half-way between two integers, the
even one (the IEEE 754 default rounding). -/
def roundNearestEven (q : Rat) : Int :=
  if q - ⌊q⌋ < 1 / 2 then ⌊q⌋
  else if 1 / 2 < q - ⌊q⌋ then ⌊q⌋ + 1
  else if ⌊q⌋ % 2 = 0 then ⌊q⌋ else ⌊q⌋ + 1

/-- The binary exponent of the `float` binade of `q`: `e` with
`2 ^ e <= |q| < 2 ^ (e + 1)`, and -126 for every smaller non-zero `q` (the
subnormal range).  For `q = 0` the exponent does not matter: 0 rounds to 0 on
every grid. -/
def floatExponent (q : Rat) : Int := max (Int.log 2 |q|) (-126)

/-- The `float` (IEEE 754 binary32, 24-bit significand) nearest to `q`, ties to
even: `q` rounded to a multiple of `2 ^ (e - 23)` for its exponent `e`.  A value
beyond the largest finite `float` stays finite here where the code holds an
infinity; every use below clamps the value to [0, 1] or converts it to `int`,
which gives the same result for both. -/
def roundFloat (q : Rat) : Rat :=
  roundNearestEven (q / 2 ^ (floatExponent q - 23)) * 2 ^ (floatExponent q - 23)

/-- The `float` sum `a + b`. -/
def floatAdd (a b : Rat) : Rat := roundFloat (a + b)

/-- The `float` quotient `a / b`. -/
def floatDiv (a b : Rat) : Rat := roundFloat (a / b)

/-- The `float` expression `knob + (cv / 10.f)` of lines 320-331. -/
def controlSum (knob cv : Rat) : Rat := floatAdd knob (floatDiv cv 10)

/-- The conversion of a `float` to `int` (32 bits): the fraction is discarded.
For a value whose truncation is not an `int` the C++ conversion is undefined; the
value taken here is the one the x86 conversion instruction delivers, the most
negative `int`. -/
def floatToInt (q : Rat) : Int :=
  if -2147483648 ≤ truncToInt q ∧ truncToInt q ≤ 2147483647 then truncToInt q
  else -2147483648

/-- The cast of a `json_int_t` to an enumeration type (32-bit unsigned underlying type). -/
def enumCast (v : Int) : Int := v % 4294967296

/-- The cast `(int)v` of a `json_int_t` (two's complement, 32 bits). -/
def intCast (v : Int) : Int := (v + 2147483648) % 4294967296 - 2147483648

/-! ## Settings enumerations, as the integers they hold -/

/-- Enumerator `HENRI` of `SequencerMode`. -/
def HENRI : Int := 0
/-- Enumerator `OLIVIER` of `SequencerMode`. -/
def OLIVIER : Int := 1
/-- Enumerator `EUCLIDEAN` of `SequencerMode`. -/
def EUCLIDEAN : Int := 2
/-- Enumerator `PULSE` of `TriggerOutputMode`. -/
def PULSE : Int := 0
/-- Enumerator `GATE` of `TriggerOutputMode`. -/
def GATE : Int := 1
/-- Enumerator `INDIVIDUAL_ACCENTS` of `AccOutputMode`. -/
def INDIVIDUAL_ACCENTS : Int := 0
/-- Enumerator `ACC_CLK_RST` of `AccOutputMode`. -/
def ACC_CLK_RST : Int := 1
/-- Enumerator `EXTCLOCK_RES_4_PPQN` of `ExtClockResolution`. -/
def EXTCLOCK_RES_4_PPQN : Int := 0
/-- Enumerator `EXTCLOCK_RES_8_PPQN` of `ExtClockResolution`. -/
def EXTCLOCK_RES_8_PPQN : Int := 1
/-- Enumerator `EXTCLOCK_RES_24_PPQN` of `ExtClockResolution`. -/
def EXTCLOCK_RES_24_PPQN : Int := 2
/-- Enumerator `CHAOS` of `ChaosKnobMode`. -/
def CHAOS : Int := 0
/-- Enumerator `SWING` of `ChaosKnobMode`. -/
def SWING : Int := 1
/-- Enumerator `TOGGLE` of `RunMode`. -/
def TOGGLE : Int := 0
/-- Enumerator `MOMENTARY` of `RunMode`. -/
def MOMENTARY : Int := 1

/-! ## The module state -/

/-- The members of `struct Topograph` (with the engine-owned `lights` and `outputs`). -/
structure Topograph where
  metro : Metronome
  grids : PatternGenerator
  numTicks : Nat
  clockTrig : SchmittTrigger
  resetTrig : SchmittTrigger
  resetButtonTrig : SchmittTrigger
  runButtonTrig : SchmittTrigger
  runInputTrig : SchmittTrigger
  initExtReset : Bool
  running : Int
  extClock : Bool
  advStep : Bool
  seqStep : Int
  swing : Rat
  swingHighTempo : Rat
  swingLowTempo : Rat
  elapsedTicks : Int
  tempoParam : Rat
  tempo : Rat
  mapX : Rat
  mapY : Rat
  chaos : Rat
  BDFill : Rat
  SNFill : Rat
  HHFill : Rat
  state : Nat
  drumLED : Fin 3 → Oneshot
  BDLed : Oneshot
  SNLed : Oneshot
  HHLed : Oneshot
  resetLed : Oneshot
  runningLed : Oneshot
  drumTriggers : Fin 6 → Oneshot
  gateState : Fin 6 → Bool
  sequencerMode : Int
  triggerOutputMode : Int
  accOutputMode : Int
  extClockResolution : Int
  chaosKnobMode : Int
  runMode : Int
  panelStyle : Int
  clockBPM : String
  mapXText : String
  mapYText : String
  chaosText : String
  textVisible : Int
  lights : LightIds → Rat
  outputs : OutputIds → Rat

/-- The values the engine presents to one call of `step()`: `params[..].value`
and `inputs[..].value`. -/
structure Sample where
  params : ParamIds → Rat
  inputs : InputIds → Rat

namespace Topograph

open ParamIds InputIds OutputIds LightIds PatternGeneratorMode

/-- The table `drumLEDIds[3]`. -/
def drumLEDIds : Fin 3 → LightIds
  | 0 => BD_LIGHT
  | 1 => SN_LIGHT
  | 2 => HH_LIGHT

/-- The table `outIDs[6]`. -/
def outIDs : Fin 6 → OutputIds
  | 0 => BD_OUTPUT
  | 1 => SN_OUTPUT
  | 2 => HH_OUTPUT
  | 3 => BD_ACC_OUTPUT
  | 4 => SN_ACC_OUTPUT
  | 5 => HH_ACC_OUTPUT

/-- The constructor `Topograph()`; `sr` is `engineGetSampleRate()`. -/
def construct (d : Deps) (sr : Rat) : Topograph where
  metro := [MetronomeCall.create 120 sr 24 0]
  grids := []
  numTicks := d.ticks_granularity 2
  clockTrig := []
  resetTrig := []
  resetButtonTrig := []
  runButtonTrig := []
  runInputTrig := []
  initExtReset := true
  running := 0
  extClock := false
  advStep := false
  seqStep := 0
  swing := 1 / 2
  swingHighTempo := 0
  swingLowTempo := 0
  elapsedTicks := 0
  tempoParam := 0
  tempo := 120
  mapX := 0
  mapY := 0
  chaos := 0
  BDFill := 0
  SNFill := 0
  HHFill := 0
  state := 0
  drumLED := fun _ => Oneshot.create (1 / 10) sr
  BDLed := Oneshot.create (1 / 10) sr
  SNLed := Oneshot.create (1 / 10) sr
  HHLed := Oneshot.create (1 / 10) sr
  resetLed := Oneshot.create (1 / 10) sr
  runningLed := []
  drumTriggers := fun _ => Oneshot.create (1 / 1000) sr
  gateState := fun _ => false
  sequencerMode := HENRI
  triggerOutputMode := PULSE
  accOutputMode := INDIVIDUAL_ACCENTS
  extClockResolution := EXTCLOCK_RES_24_PPQN
  chaosKnobMode := CHAOS
  runMode := TOGGLE
  panelStyle := 0
  clockBPM := ""
  mapXText := "Map X"
  mapYText := "Map Y"
  chaosText := "Chaos"
  textVisible := 1
  lights := fun _ => 0
  outputs := fun _ => 0

/-! ## Settings persistence -/

end Topograph

/-- A JSON value as the settings code sees it: an integer, or any value that is
not an integer (for which `json_integer_value` returns 0). -/
inductive Json
  | integer (v : Int)
  | other
  deriving DecidableEq, Repr

/-- A JSON object: its members, each key at most once in objects built by
`json_object_set_new`. -/
abbrev JsonObject := List (String × Json)

/-- The empty object `json_object()`. -/
def json_object : JsonObject := []

/-- The value `json_integer(v)`. -/
def json_integer (v : Int) : Json := Json.integer v

/-- The call `json_integer_value(j)`. -/
def json_integer_value : Json → Int
  | Json.integer v => v
  | Json.other => 0

/-- The call `json_object_get(o, key)`: the member, or nothing (`NULL`). -/
def json_object_get (o : JsonObject) (key : String) : Option Json := o.lookup key

/-- The call `json_object_set_new(o, key, v)`: the member `key` now has value `v`. -/
def json_object_set_new (o : JsonObject) (key : String) (v : Json) : JsonObject :=
  o.filter (fun kv => kv.1 != key) ++ [(key, v)]

namespace Topograph

open ParamIds InputIds OutputIds LightIds PatternGeneratorMode

/-- The method `Topograph::toJson()`. -/
def toJson (s : Topograph) : JsonObject :=
  let rootJ := json_object
  let rootJ := json_object_set_new rootJ "sequencerMode" (json_integer s.sequencerMode)
  let rootJ := json_object_set_new rootJ "triggerOutputMode" (json_integer s.triggerOutputMode)
  let rootJ := json_object_set_new rootJ "accOutputMode" (json_integer s.accOutputMode)
  let rootJ := json_object_set_new rootJ "extClockResolution" (json_integer s.extClockResolution)
  let rootJ := json_object_set_new rootJ "chaosKnobMode" (json_integer s.chaosKnobMode)
  let rootJ := json_object_set_new rootJ "runMode" (json_integer s.runMode)
  let rootJ := json_object_set_new rootJ "panelStyle" (json_integer s.panelStyle)
  rootJ

/-- The block of `fromJson` for the key "sequencerMode" (the `switch` has no default). -/
def fromJsonSequencerMode (rootJ : JsonObject) (s : Topograph) : Topograph :=
  match json_object_get rootJ "sequencerMode" with
  | some sequencerModeJ =>
    have s1 : Topograph :=
      { s with sequencerMode := enumCast (json_integer_value sequencerModeJ) }
    if s1.sequencerMode = HENRI then
      { s1 with grids := s1.grids.call (PatternGeneratorCall.setPatternMode PATTERN_HENRI) }
    else if s1.sequencerMode = OLIVIER then
      { s1 with grids := s1.grids.call (PatternGeneratorCall.setPatternMode PATTERN_OLIVIER) }
    else if s1.sequencerMode = EUCLIDEAN then
      { s1 with grids := s1.grids.call (PatternGeneratorCall.setPatternMode PATTERN_EUCLIDEAN) }
    else s1
  | none => s

/-- The block of `fromJson` for the key "triggerOutputMode". -/
def fromJsonTriggerOutputMode (rootJ : JsonObject) (s : Topograph) : Topograph :=
  match json_object_get rootJ "triggerOutputMode" with
  | some triggerOutputModeJ =>
    { s with triggerOutputMode := enumCast (json_integer_value triggerOutputModeJ) }
  | none => s

/-- The block of `fromJson` for the key "accOutputMode" (the `switch` has no default). -/
def fromJsonAccOutputMode (rootJ : JsonObject) (s : Topograph) : Topograph :=
  match json_object_get rootJ "accOutputMode" with
  | some accOutputModeJ =>
    have s1 : Topograph :=
      { s with accOutputMode := enumCast (json_integer_value accOutputModeJ) }
    if s1.accOutputMode = INDIVIDUAL_ACCENTS then
      { s1 with grids := s1.grids.call (PatternGeneratorCall.setAccentAltMode false) }
    else if s1.accOutputMode = ACC_CLK_RST then
      { s1 with grids := s1.grids.call (PatternGeneratorCall.setAccentAltMode true) }
    else s1
  | none => s

/-- The block of `fromJson` for the key "extClockResolution". -/
def fromJsonExtClockResolution (rootJ : JsonObject) (s : Topograph) : Topograph :=
  match json_object_get rootJ "extClockResolution" with
  | some extClockResolutionJ =>
    { s with extClockResolution := enumCast (json_integer_value extClockResolutionJ),
             grids := s.grids.call PatternGeneratorCall.reset }
  | none => s

/-- The block of `fromJson` for the key "chaosKnobMode". -/
def fromJsonChaosKnobMode (rootJ : JsonObject) (s : Topograph) : Topograph :=
  match json_object_get rootJ "chaosKnobMode" with
  | some chaosKnobModeJ =>
    { s with chaosKnobMode := enumCast (json_integer_value chaosKnobModeJ) }
  | none => s

/-- The block of `fromJson` for the key "runMode". -/
def fromJsonRunMode (rootJ : JsonObject) (s : Topograph) : Topograph :=
  match json_object_get rootJ "runMode" with
  | some runModeJ => { s with runMode := enumCast (json_integer_value runModeJ) }
  | none => s

/-- The block of `fromJson` for the key "panelStyle". -/
def fromJsonPanelStyle (rootJ : JsonObject) (s : Topograph) : Topograph :=
  match json_object_get rootJ "panelStyle" with
  | some panelStyleJ => { s with panelStyle := intCast (json_integer_value panelStyleJ) }
  | none => s

/-- The method `Topograph::fromJson(rootJ)`: the seven blocks in source order. -/
def fromJson (s : Topograph) (rootJ : JsonObject) : Topograph :=
  fromJsonPanelStyle rootJ
    (fromJsonRunMode rootJ
      (fromJsonChaosKnobMode rootJ
        (fromJsonExtClockResolution rootJ
          (fromJsonAccOutputMode rootJ
            (fromJsonTriggerOutputMode rootJ
              (fromJsonSequencerMode rootJ s))))))

/-! ## The per-sample update

`step()` is split at its blank lines into phases; within a phase the successive
assignments are successive record updates `s1`, `s2`, ... of the state. -/

/-- The index values of the loops `for(int i = 0; i < 6; ++i)`. -/
def voices : List (Fin 6) := [0, 1, 2, 3, 4, 5]

/-- The index values of the loops `for(int i = 0; i < 3; ++i)`. -/
def leds : List (Fin 3) := [0, 1, 2]

/-- The value `running ? 1.0 : 0.0`. -/
def runningLightValue (running : Int) : Rat := if running ≠ 0 then 1 else 0

/-- Whether the condition of the run `if` (lines 262-263) holds: the run-button
trigger or, when that one does not fire, the run-input trigger fires. -/
def runEvent (d : Deps) (x : Sample) (s : Topograph) : Bool :=
  SchmittTrigger.fires d s.runButtonTrig (x.params RUN_BUTTON_PARAM) ||
    SchmittTrigger.fires d s.runInputTrig (x.inputs RUN_INPUT)

/-- Lines 261-276 of `step()`: run handling.  The second operand of `||` is
evaluated (and its trigger processed) only when the first is false. -/
def stepRun (d : Deps) (x : Sample) (s : Topograph) : Topograph :=
  if s.runMode = TOGGLE then
    have s1 : Topograph :=
      { s with runButtonTrig := s.runButtonTrig.process (x.params RUN_BUTTON_PARAM) }
    have s2 : Topograph :=
      if SchmittTrigger.fires d s.runButtonTrig (x.params RUN_BUTTON_PARAM) then s1
      else { s1 with runInputTrig := s1.runInputTrig.process (x.inputs RUN_INPUT) }
    if runEvent d x s then
      if s2.runMode = TOGGLE then
        have s3 : Topograph := { s2 with running := if s2.running = 0 then 1 else 0 }
        { s3 with
          lights := Function.update s3.lights RUNNING_LIGHT (runningLightValue s3.running) }
      else s2
    else s2
  else
    have s1 : Topograph :=
      { s with
        running := floatToInt (floatAdd (x.params RUN_BUTTON_PARAM) (x.inputs RUN_INPUT)) }
    have s2 : Topograph := { s1 with
      lights := Function.update s1.lights RUNNING_LIGHT (runningLightValue s1.running) }
    if s2.running = 0 then { s2 with metro := s2.metro.reset } else s2

/-- Whether the condition of the reset `if` (lines 278-279) holds on state `s`. -/
def resetEvent (d : Deps) (x : Sample) (s : Topograph) : Bool :=
  SchmittTrigger.fires d s.resetButtonTrig (x.params RESET_BUTTON_PARAM) ||
    SchmittTrigger.fires d s.resetTrig (x.inputs RESET_INPUT)

/-- Lines 278-285 of `step()`: reset handling. -/
def stepReset (d : Deps) (x : Sample) (s : Topograph) : Topograph :=
  have s1 : Topograph := { s with
    resetButtonTrig := s.resetButtonTrig.process (x.params RESET_BUTTON_PARAM) }
  have s2 : Topograph :=
    if SchmittTrigger.fires d s.resetButtonTrig (x.params RESET_BUTTON_PARAM) then s1
    else { s1 with resetTrig := s1.resetTrig.process (x.inputs RESET_INPUT) }
  if resetEvent d x s then
    { s2 with grids := s2.grids.call PatternGeneratorCall.reset,
              metro := s2.metro.reset,
              resetLed := s2.resetLed.trigger,
              seqStep := 0,
              elapsedTicks := 0 }
  else s2

/-- Lines 288-301 of `step()`: clock, tempo and swing. -/
def stepTempo (d : Deps) (x : Sample) (s : Topograph) : Topograph :=
  have s1 : Topograph := { s with tempoParam := x.params TEMPO_PARAM }
  have s2 : Topograph := { s1 with tempo := rescale s1.tempoParam (1 / 100) 1 40 240 }
  have s3 : Topograph := { s2 with clockBPM := d.formatBPM s2.tempo }
  have s4 : Topograph := { s3 with
    swing := clamp (x.params SWING_PARAM + x.inputs SWING_CV / 10) 0 (9 / 10) }
  have s5 : Topograph := { s4 with swingHighTempo := s4.tempo / (1 - s4.swing) }
  have s6 : Topograph := { s5 with swingLowTempo := s5.tempo / (1 + s5.swing) }
  if s6.elapsedTicks < 6 then
    { s6 with metro := s6.metro.setTempo s6.swingLowTempo }
  else
    { s6 with metro := s6.metro.setTempo s6.swingHighTempo }

/-- Lines 304-318 of `step()`: external clock select. -/
def stepClockSelect (d : Deps) (s : Topograph) : Topograph :=
  if s.tempoParam < 1 / 100 then
    have s1 : Topograph := { s with clockBPM := "Ext." }
    have s2 : Topograph :=
      if s1.initExtReset then
        { s1 with grids := s1.grids.call PatternGeneratorCall.reset, initExtReset := false }
      else s1
    { s2 with numTicks := d.ticks_granularity s2.extClockResolution, extClock := true }
  else
    { s with initExtReset := true,
             numTicks := d.ticks_granularity 2,
             extClock := false,
             metro := s.metro.process }

/-- The text `std::to_string(((uint8_t)(v * 255.0) >> 3) + 1)`. -/
def lengthText (v : Rat) : String := toString ((toUInt8 (v * 255) >>> 3) + 1)

/-- Lines 320-341 of `step()`: the six controls and the three display texts. -/
def stepControls (d : Deps) (x : Sample) (s : Topograph) : Topograph :=
  have s1 : Topograph :=
    { s with mapX := clamp (controlSum (x.params MAPX_PARAM) (x.inputs MAPX_CV)) 0 1 }
  have s2 : Topograph :=
    { s1 with mapY := clamp (controlSum (x.params MAPY_PARAM) (x.inputs MAPY_CV)) 0 1 }
  have s3 : Topograph :=
    { s2 with BDFill := clamp (controlSum (x.params BD_DENS_PARAM) (x.inputs BD_FILL_CV)) 0 1 }
  have s4 : Topograph :=
    { s3 with SNFill := clamp (controlSum (x.params SN_DENS_PARAM) (x.inputs SN_FILL_CV)) 0 1 }
  have s5 : Topograph :=
    { s4 with HHFill := clamp (controlSum (x.params HH_DENS_PARAM) (x.inputs HH_FILL_CV)) 0 1 }
  have s6 : Topograph :=
    { s5 with chaos := clamp (controlSum (x.params CHAOS_PARAM) (x.inputs CHAOS_CV)) 0 1 }
  if d.getPatternMode s6.grids = PATTERN_EUCLIDEAN then
    { s6 with mapXText := "1 Len: " ++ lengthText s6.mapX,
              mapYText := "2 Len: " ++ lengthText s6.mapY,
              chaosText := "3 Len: " ++ lengthText s6.chaos }
  else
    { s6 with mapXText := "Map X", mapYText := "Map Y", chaosText := "Chaos" }

/-- Lines 358-367 of `step()`: the nine setter calls on the pattern generator. -/
def pushControls (s : Topograph) : PatternGenerator :=
  ((((((((s.grids.call (PatternGeneratorCall.setMapX (toUInt8 (s.mapX * 255)))).call
    (PatternGeneratorCall.setMapY (toUInt8 (s.mapY * 255)))).call
    (PatternGeneratorCall.setBDDensity (toUInt8 (s.BDFill * 255)))).call
    (PatternGeneratorCall.setSDDensity (toUInt8 (s.SNFill * 255)))).call
    (PatternGeneratorCall.setHHDensity (toUInt8 (s.HHFill * 255)))).call
    (PatternGeneratorCall.setRandomness (toUInt8 (s.chaos * 255)))).call
    (PatternGeneratorCall.setEuclideanLength 0 (toUInt8 (s.mapX * 255)))).call
    (PatternGeneratorCall.setEuclideanLength 1 (toUInt8 (s.mapY * 255)))).call
    (PatternGeneratorCall.setEuclideanLength 2 (toUInt8 (s.chaos * 255)))

/-- Lines 343-368 of `step()`: the `if(running)` block. -/
def stepRunning (d : Deps) (x : Sample) (s : Topograph) : Topograph :=
  if s.running ≠ 0 then
    have s1 : Topograph :=
      if s.extClock then
        have s0 : Topograph := { s with clockTrig := s.clockTrig.process (x.inputs CLOCK_INPUT) }
        if SchmittTrigger.fires d s.clockTrig (x.inputs CLOCK_INPUT) then
          { s0 with advStep := true }
        else s0
      else if d.hasTicked s.metro then
        { s with advStep := true, elapsedTicks := Int.tmod (s.elapsedTicks + 1) 12 }
      else
        { s with advStep := false }
    { s1 with grids := pushControls s1 }
  else s

/-- Lines 373-379 of `step()`: the body of the arming loop for voice `i`. -/
def armVoice (d : Deps) (s : Topograph) (i : Fin 6) : Topograph :=
  if d.getDrumState s.grids i.val then
    have s1 : Topograph :=
      { s with drumTriggers := Function.update s.drumTriggers i (s.drumTriggers i).trigger }
    have s2 : Topograph := { s1 with gateState := Function.update s1.gateState i true }
    if h : i.val < 3 then
      { s2 with
        drumLED := Function.update s2.drumLED ⟨i.val, h⟩ (s2.drumLED ⟨i.val, h⟩).trigger }
    else s2
  else s

/-- Lines 370-386 of `step()`: the `if(advStep)` block. -/
def stepAdvance (d : Deps) (s : Topograph) : Topograph :=
  if s.advStep then
    have s1 : Topograph := { s with grids := s.grids.call (PatternGeneratorCall.tick s.numTicks) }
    have s2 : Topograph := voices.foldl (armVoice d) s1
    have s3 : Topograph := { s2 with seqStep := s2.seqStep + 1 }
    have s4 : Topograph := if s3.seqStep ≥ 32 then { s3 with seqStep := 0 } else s3
    { s4 with advStep := false }
  else s

/-- The body of the PULSE loop of `updateOutputs()` for voice `i`. -/
def pulseOutput (d : Deps) (s : Topograph) (i : Fin 6) : Topograph :=
  have s1 : Topograph :=
    { s with drumTriggers := Function.update s.drumTriggers i (s.drumTriggers i).process }
  if d.getState (s1.drumTriggers i) ≠ 0 then
    { s1 with outputs := Function.update s1.outputs (outIDs i) 10 }
  else
    { s1 with outputs := Function.update s1.outputs (outIDs i) 0 }

/-- The body of the GATE loop of `updateOutputs()` for voice `i`. -/
def gateOutput (d : Deps) (s : Topograph) (i : Fin 6) : Topograph :=
  if d.getElapsedTickTime s.metro < 1 / 2 ∧ s.gateState i = true then
    { s with outputs := Function.update s.outputs (outIDs i) 10 }
  else
    { s with outputs := Function.update s.outputs (outIDs i) 0,
             gateState := Function.update s.gateState i false }

/-- The method `Topograph::updateOutputs()`. -/
def updateOutputs (d : Deps) (s : Topograph) : Topograph :=
  if s.triggerOutputMode = PULSE then voices.foldl (pulseOutput d) s
  else voices.foldl (gateOutput d) s

/-- The body of the loop of `updateUI()` for LED `i`. -/
def ledUpdate (d : Deps) (s : Topograph) (i : Fin 3) : Topograph :=
  have s1 : Topograph := { s with drumLED := Function.update s.drumLED i (s.drumLED i).process }
  if d.getState (s1.drumLED i) = 1 then
    { s1 with lights := Function.update s1.lights (drumLEDIds i) 1 }
  else
    { s1 with lights := Function.update s1.lights (drumLEDIds i) 0 }

/-- The method `Topograph::updateUI()`. -/
def updateUI (d : Deps) (s : Topograph) : Topograph :=
  have s1 : Topograph := { s with resetLed := s.resetLed.process }
  have s2 : Topograph := leds.foldl (ledUpdate d) s1
  if d.getState s2.resetLed = 1 then
    { s2 with lights := Function.update s2.lights RESET_LIGHT 1 }
  else
    { s2 with lights := Function.update s2.lights RESET_LIGHT 0 }

/-- Lines 261-368 of `step()`: everything before the `if(advStep)` block. -/
def stepControl (d : Deps) (x : Sample) (s : Topograph) : Topograph :=
  stepRunning d x
    (stepControls d x (stepClockSelect d (stepTempo d x (stepReset d x (stepRun d x s)))))

/-- The method `Topograph::step()`. -/
def step (d : Deps) (x : Sample) (s : Topograph) : Topograph :=
  updateUI d (updateOutputs d (stepAdvance d (stepControl d x s)))

/-- The method `Topograph::onSampleRateChange()`; `sr` is `engineGetSampleRate()`. -/
def onSampleRateChange (sr : Rat) (s : Topograph) : Topograph :=
  have s1 : Topograph := { s with metro := s.metro.setSampleRate sr }
  have s2 : Topograph := leds.foldl
    (fun t i => { t with
      drumLED := Function.update t.drumLED i ((t.drumLED i).setSampleRate sr) }) s1
  have s3 : Topograph := { s2 with resetLed := s2.resetLed.setSampleRate sr }
  voices.foldl
    (fun t i => { t with
      drumTriggers := Function.update t.drumTriggers i ((t.drumTriggers i).setSampleRate sr) }) s3

/-! ## The context menu -/

/-- The method `TopographPanelStyleItem::onAction`. -/
def panelStyleAction (panelStyle : Int) (s : Topograph) : Topograph :=
  { s with panelStyle := panelStyle }

/-- The method `TopographSequencerModeItem::onAction`. -/
def sequencerModeAction (sequencerMode : Int) (s : Topograph) : Topograph :=
  have s1 : Topograph := { s with sequencerMode := sequencerMode }
  if sequencerMode = HENRI then
    { s1 with grids := s1.grids.call (PatternGeneratorCall.setPatternMode PATTERN_HENRI) }
  else if sequencerMode = OLIVIER then
    { s1 with grids := s1.grids.call (PatternGeneratorCall.setPatternMode PATTERN_OLIVIER) }
  else if sequencerMode = EUCLIDEAN then
    { s1 with grids := s1.grids.call (PatternGeneratorCall.setPatternMode PATTERN_EUCLIDEAN) }
  else s1

/-- The method `TopographTriggerOutputModeItem::onAction`. -/
def triggerOutputModeAction (triggerOutputMode : Int) (s : Topograph) : Topograph :=
  { s with triggerOutputMode := triggerOutputMode }

/-- The method `TopographAccOutputModeItem::onAction`. -/
def accOutputModeAction (accOutputMode : Int) (s : Topograph) : Topograph :=
  have s1 : Topograph := { s with accOutputMode := accOutputMode }
  if accOutputMode = INDIVIDUAL_ACCENTS then
    { s1 with grids := s1.grids.call (PatternGeneratorCall.setAccentAltMode false) }
  else if accOutputMode = ACC_CLK_RST then
    { s1 with grids := s1.grids.call (PatternGeneratorCall.setAccentAltMode true) }
  else s1

/-- The method `TopographClockResolutionItem::onAction`. -/
def clockResolutionAction (extClockResolution : Int) (s : Topograph) : Topograph :=
  { s with extClockResolution := extClockResolution,
           grids := s.grids.call PatternGeneratorCall.reset }

/-- The method `TopographRunModeItem::onAction`. -/
def runModeAction (runMode : Int) (s : Topograph) : Topograph :=
  { s with runMode := runMode }

/-- The fourteen items `TopographWidget::appendContextMenu` builds. -/
inductive MenuItem
  | dark | light
  | henri | olivier | euclidean
  | pulse | gate
  | individualAccents | accentClockReset
  | res4 | res8 | res24
  | toggle | momentary
  deriving DecidableEq, Repr

/-- The action of a context-menu item, with the value `appendContextMenu` gave it. -/
def MenuItem.onAction : MenuItem → Topograph → Topograph
  | MenuItem.dark => panelStyleAction 0
  | MenuItem.light => panelStyleAction 1
  | MenuItem.henri => sequencerModeAction HENRI
  | MenuItem.olivier => sequencerModeAction OLIVIER
  | MenuItem.euclidean => sequencerModeAction EUCLIDEAN
  | MenuItem.pulse => triggerOutputModeAction PULSE
  | MenuItem.gate => triggerOutputModeAction GATE
  | MenuItem.individualAccents => accOutputModeAction INDIVIDUAL_ACCENTS
  | MenuItem.accentClockReset => accOutputModeAction ACC_CLK_RST
  | MenuItem.res4 => clockResolutionAction EXTCLOCK_RES_4_PPQN
  | MenuItem.res8 => clockResolutionAction EXTCLOCK_RES_8_PPQN
  | MenuItem.res24 => clockResolutionAction EXTCLOCK_RES_24_PPQN
  | MenuItem.toggle => runModeAction TOGGLE
  | MenuItem.momentary => runModeAction MOMENTARY

/-! ## Vocabulary of the properties -/

/-- The states a module can be in: a constructed module, after any number of
samples, settings loads, sample-rate changes and context-menu actions. -/
inductive Reachable (d : Deps) : Topograph → Prop
  | construct (sr : Rat) : Reachable d (construct d sr)
  | step (x : Sample) (s : Topograph) : Reachable d s → Reachable d (step d x s)
  | fromJson (rootJ : JsonObject) (s : Topograph) : Reachable d s → Reachable d (fromJson s rootJ)
  | onSampleRateChange (sr : Rat) (s : Topograph) :
      Reachable d s → Reachable d (onSampleRateChange sr s)
  | onAction (item : MenuItem) (s : Topograph) : Reachable d s → Reachable d (item.onAction s)

/-- The voice whose output is `o` (the inverse of the table `outIDs`). -/
def outVoice : OutputIds → Fin 6
  | BD_OUTPUT => 0
  | SN_OUTPUT => 1
  | HH_OUTPUT => 2
  | BD_ACC_OUTPUT => 3
  | SN_ACC_OUTPUT => 4
  | HH_ACC_OUTPUT => 5

/-- The voice LED shown by a light (the inverse of the table `drumLEDIds`), if any. -/
def lightLed : LightIds → Option (Fin 3)
  | BD_LIGHT => some 0
  | SN_LIGHT => some 1
  | HH_LIGHT => some 2
  | _ => none

/-- The calls made on a metronome between an earlier history and a later one. -/
def newCalls {α : Type} (before after : List α) : List α := after.drop before.length

/-- The tempi passed by the `setTempo` calls in a list of metronome calls. -/
def setTempoArgs (calls : List MetronomeCall) : List Rat :=
  calls.filterMap (fun c => match c with
    | MetronomeCall.setTempo t => some t
    | _ => none)

/-- The number of `tick` calls in a pattern generator history. -/
def tickCount (g : PatternGenerator) : Nat :=
  g.countP (fun c => match c with
    | PatternGeneratorCall.tick _ => true
    | _ => false)

/-- The number of `trigger` calls in a one-shot history. -/
def triggerCount (o : Oneshot) : Nat := o.count OneshotCall.trigger

/-- The sample rate a one-shot timer was last given, by its constructor or by
`setSampleRate`; nothing for a timer that was given none. -/
def oneshotRate (o : Oneshot) : Option Rat :=
  o.foldl (fun r c => match c with
    | OneshotCall.create _ sr => some sr
    | OneshotCall.setSampleRate sr => some sr
    | _ => r) none

/-- The sample rate a metronome was last given. -/
def metronomeRate (m : Metronome) : Option Rat :=
  m.foldl (fun r c => match c with
    | MetronomeCall.create _ sr _ _ => some sr
    | MetronomeCall.setSampleRate sr => some sr
    | _ => r) none

/-- The seven persisted settings hold valid values: each enumeration-typed
setting is one of its enumerators and `panelStyle` is an `int`. -/
def ValidSettings (s : Topograph) : Prop :=
  (s.sequencerMode = HENRI ∨ s.sequencerMode = OLIVIER ∨ s.sequencerMode = EUCLIDEAN) ∧
  (s.triggerOutputMode = PULSE ∨ s.triggerOutputMode = GATE) ∧
  (s.accOutputMode = INDIVIDUAL_ACCENTS ∨ s.accOutputMode = ACC_CLK_RST) ∧
  (s.extClockResolution = EXTCLOCK_RES_4_PPQN ∨ s.extClockResolution = EXTCLOCK_RES_8_PPQN ∨
    s.extClockResolution = EXTCLOCK_RES_24_PPQN) ∧
  (s.chaosKnobMode = CHAOS ∨ s.chaosKnobMode = SWING) ∧
  (s.runMode = TOGGLE ∨ s.runMode = MOMENTARY) ∧
  (-2147483648 ≤ s.panelStyle ∧ s.panelStyle < 2147483648)

/-- State `t` differs from `s` at most in the seven settings and the pattern
generator history. -/
def SettingsOnly (s t : Topograph) : Prop :=
  t = { s with
        sequencerMode := t.sequencerMode
        triggerOutputMode := t.triggerOutputMode
        accOutputMode := t.accOutputMode
        extClockResolution := t.extClockResolution
        chaosKnobMode := t.chaosKnobMode
        runMode := t.runMode
        panelStyle := t.panelStyle
        grids := t.grids }

/-- A run of samples in external-clock position without clock pulses: in every
sample the tempo knob is 0 and the clock-input trigger, when it is processed
(the sequencer is running after run handling), does not fire. -/
def QuietExternal (d : Deps) : Topograph → List Sample → Prop
  | _, [] => True
  | s, x :: xs =>
    x.params TEMPO_PARAM = 0 ∧
    ((stepRun d x s).running ≠ 0 →
      SchmittTrigger.fires d s.clockTrig (x.inputs CLOCK_INPUT) = false) ∧
    QuietExternal d (step d x s) xs

/-- No step advance in any sample of a run: the pattern generator gets no `tick`,
no drum-trigger and no drum-LED one-shot gets a `trigger`, and `seqStep` is
zeroed by a reset event and otherwise kept. -/
def NoAdvance (d : Deps) : Topograph → List Sample → Prop
  | _, [] => True
  | s, x :: xs =>
    tickCount (step d x s).grids = tickCount s.grids ∧
    (∀ i, triggerCount ((step d x s).drumTriggers i) = triggerCount (s.drumTriggers i)) ∧
    (∀ k, triggerCount ((step d x s).drumLED k) = triggerCount (s.drumLED k)) ∧
    (step d x s).seqStep = (if resetEvent d x s = true then 0 else s.seqStep) ∧
    NoAdvance d (step d x s) xs

/-- The byte of a control: `floor(255 * clamp(s, 0, 1))` for the `float` sum `s`
of the knob value and a tenth of the CV voltage. -/
def controlByte (knob cv : Rat) : Nat := ⌊255 * clamp (controlSum knob cv) 0 1⌋.toNat

/-- The nine setter calls with the bytes of the six controls of a sample. -/
def controlCalls (x : Sample) : List PatternGeneratorCall :=
  [PatternGeneratorCall.setMapX (controlByte (x.params MAPX_PARAM) (x.inputs MAPX_CV)),
   PatternGeneratorCall.setMapY (controlByte (x.params MAPY_PARAM) (x.inputs MAPY_CV)),
   PatternGeneratorCall.setBDDensity (controlByte (x.params BD_DENS_PARAM) (x.inputs BD_FILL_CV)),
   PatternGeneratorCall.setSDDensity (controlByte (x.params SN_DENS_PARAM) (x.inputs SN_FILL_CV)),
   PatternGeneratorCall.setHHDensity (controlByte (x.params HH_DENS_PARAM) (x.inputs HH_FILL_CV)),
   PatternGeneratorCall.setRandomness (controlByte (x.params CHAOS_PARAM) (x.inputs CHAOS_CV)),
   PatternGeneratorCall.setEuclideanLength 0
     (controlByte (x.params MAPX_PARAM) (x.inputs MAPX_CV)),
   PatternGeneratorCall.setEuclideanLength 1
     (controlByte (x.params MAPY_PARAM) (x.inputs MAPY_CV)),
   PatternGeneratorCall.setEuclideanLength 2
     (controlByte (x.params CHAOS_PARAM) (x.inputs CHAOS_CV))]

/-- The Euclidean length described for a clamped control value `v`:
`(floor(255 * v) >> 3) + 1`. -/
def euclideanLength (v : Rat) : Nat := (⌊255 * v⌋.toNat >>> 3) + 1

/-- The number of `process` calls in a one-shot history. -/
def processCount (o : Oneshot) : Nat := o.count OneshotCall.process

/-- The number of `process` calls in a metronome history. -/
def metroProcessCount (m : Metronome) : Nat := m.count MetronomeCall.process

/-- The number of `reset` calls in a pattern generator history. -/
def resetCount (g : PatternGenerator) : Nat := g.count PatternGeneratorCall.reset

/-- The step-advance condition of a sample: the sequencer is running after run
handling and either the tempo knob is below 0.01 and the clock-input trigger
fires, or the tempo knob is at least 0.01 and the metronome, after the calls of
this sample, reports a tick. -/
def AdvanceCondition (d : Deps) (x : Sample) (s : Topograph) : Prop :=
  (stepRun d x s).running ≠ 0 ∧
    ((x.params TEMPO_PARAM < 1 / 100 ∧
        SchmittTrigger.fires d s.clockTrig (x.inputs CLOCK_INPUT) = true) ∨
      (1 / 100 ≤ x.params TEMPO_PARAM ∧ d.hasTicked (step d x s).metro = true))

/-- Whether a sample enters external-clock mode: its tempo knob is below 0.01
and it is the first sample (`prev` is nothing) or the tempo knob of the previous
sample (`prev`) was at least 0.01. -/
def entersExternal (prev : Option Rat) (knob : Rat) : Bool :=
  decide (knob < 1 / 100) &&
    (match prev with
      | none => true
      | some p => decide (1 / 100 ≤ p))

/-- Over a run of samples, the number of pattern-generator resets made in each
sample is one for a reset event plus one exactly when the sample enters
external-clock mode. -/
def ImplicitResetOnEntry (d : Deps) : Option Rat → Topograph → List Sample → Prop
  | _, _, [] => True
  | prev, s, x :: xs =>
    resetCount (newCalls s.grids (step d x s).grids) =
      (if resetEvent d x s = true then 1 else 0) +
      (if entersExternal prev (x.params TEMPO_PARAM) = true then 1 else 0) ∧
    ImplicitResetOnEntry d (some (x.params TEMPO_PARAM)) (step d x s) xs

/-- A settings object whose member "extClockResolution", if present, reads as
one of the three enumerated resolutions. -/
def ResolutionInRange (rootJ : JsonObject) : Prop :=
  ∀ j, json_object_get rootJ "extClockResolution" = some j →
    json_integer_value j = EXTCLOCK_RES_4_PPQN ∨ json_integer_value j = EXTCLOCK_RES_8_PPQN ∨
      json_integer_value j = EXTCLOCK_RES_24_PPQN

/-- The states reachable when every loaded settings object has its
"extClockResolution" in range. -/
inductive ReachableInRange (d : Deps) : Topograph → Prop
  | construct (sr : Rat) : ReachableInRange d (construct d sr)
  | step (x : Sample) (s : Topograph) : ReachableInRange d s → ReachableInRange d (step d x s)
  | fromJson (rootJ : JsonObject) (s : Topograph) :
      ResolutionInRange rootJ → ReachableInRange d s → ReachableInRange d (fromJson s rootJ)
  | onSampleRateChange (sr : Rat) (s : Topograph) :
      ReachableInRange d s → ReachableInRange d (onSampleRateChange sr s)
  | onAction (item : MenuItem) (s : Topograph) :
      ReachableInRange d s → ReachableInRange d (item.onAction s)

end Topograph

/-! ## A reference instance of the collaborators

Used to evaluate the controller on concrete samples.  The Schmitt trigger is
Rack's (`dsp/digital.hpp`, thresholds 0 and 1); the metronome never ticks, the
pattern generator reports no hit, and the one-shots report state 0. -/

/-- The states of Rack's `SchmittTrigger`. -/
inductive SchmittState
  | UNKNOWN | LOW | HIGH
  deriving DecidableEq, Repr

/-- The state change of Rack's `SchmittTrigger::process(v)`. -/
def SchmittState.next : SchmittState → Rat → SchmittState
  | SchmittState.LOW, v => if 1 ≤ v then SchmittState.HIGH else SchmittState.LOW
  | SchmittState.HIGH, v => if v ≤ 0 then SchmittState.LOW else SchmittState.HIGH
  | SchmittState.UNKNOWN, v =>
    if 1 ≤ v then SchmittState.HIGH
    else if v ≤ 0 then SchmittState.LOW
    else SchmittState.UNKNOWN

/-- The state of Rack's `SchmittTrigger` after a history of processed values. -/
def SchmittState.after (t : SchmittTrigger) : SchmittState :=
  t.foldl SchmittState.next SchmittState.UNKNOWN

/-- The reference collaborators. -/
def refDeps : Deps where
  schmitt := fun t v => decide (SchmittState.after t = SchmittState.LOW) && decide (1 ≤ v)
  hasTicked := fun _ => false
  getElapsedTickTime := fun _ => 0
  getPatternMode := fun _ => PatternGeneratorMode.PATTERN_HENRI
  getDrumState := fun _ _ => false
  getState := fun _ => 0
  ticks_granularity := fun i => if i = 0 then 6 else if i = 1 then 3 else if i = 2 then 1 else 0
  formatBPM := fun _ => ""

/-- A sample with every parameter and input at 0. -/
def idleSample : Sample where
  params := fun _ => 0
  inputs := fun _ => 0

/-- A sample with the run button held (value 1) and everything else at 0. -/
def runPressSample : Sample where
  params := fun p =>
    match p with
    | ParamIds.RUN_BUTTON_PARAM => 1
    | _ => 0
  inputs := fun _ => 0

/-- A sample with the run input at 1 and everything else at 0 (the run button
is not pressed). -/
def runGateSample : Sample where
  params := fun _ => 0
  inputs := fun i =>
    match i with
    | InputIds.RUN_INPUT => 1
    | _ => 0

/-- A sample with the map X knob at 0.5, the map X CV at -3 V and everything
else at 0. -/
def mapXSample : Sample where
  params := fun p =>
    match p with
    | ParamIds.MAPX_PARAM => 1 / 2
    | _ => 0
  inputs := fun i =>
    match i with
    | InputIds.MAPX_CV => -3
    | _ => 0

/-- A sample with the run button at `1 - 2^-24` (the largest `float` below 1),
the run input at `2^-25` and everything else at 0. -/
def nearOneSample : Sample where
  params := fun p =>
    match p with
    | ParamIds.RUN_BUTTON_PARAM => 16777215 / 16777216
    | _ => 0
  inputs := fun i =>
    match i with
    | InputIds.RUN_INPUT => 1 / 33554432
    | _ => 0

/-- A sample with the run input at 3000000000 V (a `float`) and everything else
at 0. -/
def overRangeSample : Sample where
  params := fun _ => 0
  inputs := fun i =>
    match i with
    | InputIds.RUN_INPUT => 3000000000
    | _ => 0

/-- A sample with the reset input and the clock input both at 1 and everything
else at 0 (so the tempo knob selects the external clock). -/
def resetAndClockSample : Sample where
  params := fun _ => 0
  inputs := fun i =>
    match i with
    | InputIds.RESET_INPUT => 1
    | InputIds.CLOCK_INPUT => 1
    | _ => 0

/-- A module constructed at 44100 Hz, then one idle sample: stopped, toggle run
mode, all triggers low. -/
def stoppedState : Topograph :=
  Topograph.step refDeps idleSample (Topograph.construct refDeps 44100)

/-- A module constructed at 44100 Hz, then one idle sample, then one sample
with the run button pressed: running, external clock, all triggers low. -/
def runningExternalState : Topograph :=
  Topograph.step refDeps runPressSample
    (Topograph.step refDeps idleSample (Topograph.construct refDeps 44100))

/-- A module constructed at 44100 Hz and switched to GATE trigger-output mode by
the context menu. -/
def gateModeState : Topograph :=
  Topograph.MenuItem.gate.onAction (Topograph.construct refDeps 44100)

/-- A module constructed at 44100 Hz and switched to momentary run mode by the
context menu. -/
def momentaryState : Topograph :=
  Topograph.MenuItem.momentary.onAction (Topograph.construct refDeps 44100)

/-- A settings object whose only member is "extClockResolution" with value 5. -/
def resolutionFiveJson : JsonObject :=
  json_object_set_new json_object "extClockResolution" (json_integer 5)

/-- A module constructed at 44100 Hz that has loaded `resolutionFiveJson`. -/
def resolutionFiveState : Topograph :=
  Topograph.fromJson (Topograph.construct refDeps 44100) resolutionFiveJson


/-! ## StrangeAttractors (Nohmad)

A shallow embedding of `src/repos/Nohmad/src/StrangeAttractors.cpp`; `float`
values are exact rationals. -/

/-- Rack's `clampf(x, min, max)` (util.hpp): `x` limited to the interval `[min, max]`. -/
def clampf (x lo hi : Rat) : Rat := max (min x hi) lo

/-- Rack's `Output`: the voltage and whether a cable is plugged in. -/
structure Output where
  value : Rat
  active : Bool

/-- The members of `struct LorenzAttractor`. -/
structure LorenzAttractor where
  sigma : Rat
  beta : Rat
  rho : Rat
  pitch : Rat
  x : Rat
  y : Rat
  z : Rat

namespace LorenzAttractor

/-- The constant `DEFAULT_SIGNMA_VALUE`. -/
def DEFAULT_SIGNMA_VALUE : Rat := 10
/-- The constant `DEFAULT_BETA_VALUE`. -/
def DEFAULT_BETA_VALUE : Rat := 8 / 3
/-- The constant `DEFAULT_RHO_VALUE`. -/
def DEFAULT_RHO_VALUE : Rat := 28
/-- The constant `DEFAULT_PITCH_VALUE`. -/
def DEFAULT_PITCH_VALUE : Rat := 1 / 2

/-- The constructor `LorenzAttractor()`. -/
def construct : LorenzAttractor where
  sigma := DEFAULT_SIGNMA_VALUE
  beta := DEFAULT_BETA_VALUE
  rho := DEFAULT_RHO_VALUE
  pitch := DEFAULT_PITCH_VALUE
  x := 1
  y := 1
  z := 1

/-- The method `LorenzAttractor::process(dt)`. -/
def process (a : LorenzAttractor) (dt : Rat) : LorenzAttractor :=
  have dx : Rat := a.sigma * (a.y - a.x)
  have dy : Rat := a.x * (a.rho - a.z) - a.y
  have dz : Rat := (a.x * a.y) - (a.beta * a.z)
  have a1 : LorenzAttractor := { a with x := a.x + dx * dt * a.pitch * 375 }
  have a2 : LorenzAttractor := { a1 with y := a1.y + dy * dt * a1.pitch * 375 }
  { a2 with z := a2.z + dz * dt * a2.pitch * 375 }

end LorenzAttractor

/-- The members of `struct RosslerAttractor`. -/
structure RosslerAttractor where
  a : Rat
  b : Rat
  c : Rat
  pitch : Rat
  x : Rat
  y : Rat
  z : Rat

namespace RosslerAttractor

/-- The constant `DEFAULT_A_VALUE`. -/
def DEFAULT_A_VALUE : Rat := 2 / 10
/-- The constant `DEFAULT_B_VALUE`. -/
def DEFAULT_B_VALUE : Rat := 2 / 10
/-- The constant `DEFAULT_C_VALUE`. -/
def DEFAULT_C_VALUE : Rat := 57 / 10
/-- The constant `DEFAULT_PITCH_VALUE`. -/
def DEFAULT_PITCH_VALUE : Rat := 1 / 2

/-- The constructor `RosslerAttractor()`. -/
def construct : RosslerAttractor where
  a := DEFAULT_A_VALUE
  b := DEFAULT_B_VALUE
  c := DEFAULT_C_VALUE
  pitch := DEFAULT_PITCH_VALUE
  x := 1
  y := 1
  z := 1

/-- The method `RosslerAttractor::process(dt)`. -/
def process (r : RosslerAttractor) (dt : Rat) : RosslerAttractor :=
  have dx : Rat := -r.y - r.z
  have dy : Rat := r.x + (r.a * r.y)
  have dz : Rat := r.b + r.z * (r.x - r.c)
  have r1 : RosslerAttractor := { r with x := r.x + dx * dt * r.pitch * 2910 }
  have r2 : RosslerAttractor := { r1 with y := r1.y + dy * dt * r1.pitch * 2910 }
  { r2 with z := r2.z + dz * dt * r2.pitch * 2910 }

end RosslerAttractor

/-- Parameter ids, `StrangeAttractors::ParamIds`. -/
inductive StrangeAttractors.ParamIds
  | LORENZ_SIGMA_PARAM | LORENZ_BETA_PARAM | LORENZ_RHO_PARAM | LORENZ_PITCH_PARAM
  | ROSSLER_A_PARAM | ROSSLER_B_PARAM | ROSSLER_C_PARAM | ROSSLER_PITCH_PARAM
  deriving DecidableEq, Repr

/-- Input ids, `StrangeAttractors::InputIds`. -/
inductive StrangeAttractors.InputIds
  | LORENZ_SIGMA_INPUT | LORENZ_BETA_INPUT | LORENZ_RHO_INPUT | LORENZ_PITCH_INPUT
  | ROSSLER_A_INPUT | ROSSLER_B_INPUT | ROSSLER_C_INPUT | ROSSLER_PITCH_INPUT
  deriving DecidableEq, Repr

/-- Output ids, `StrangeAttractors::OutputIds`. -/
inductive StrangeAttractors.OutputIds
  | LORENZ_X_OUTPUT | LORENZ_Y_OUTPUT | ROSSLER_X_OUTPUT | ROSSLER_Y_OUTPUT
  deriving DecidableEq, Repr

/-- The members of `struct StrangeAttractors`, with the engine-owned `params`,
`inputs` and `outputs`. -/
structure StrangeAttractors where
  params : StrangeAttractors.ParamIds → Rat
  inputs : StrangeAttractors.InputIds → Rat
  outputs : StrangeAttractors.OutputIds → Output
  lorenz : LorenzAttractor
  rossler : RosslerAttractor

namespace StrangeAttractors

open ParamIds InputIds OutputIds

/-- The constant `LORENZ_SIGMA_PARAM_MIN`. -/
def LORENZ_SIGMA_PARAM_MIN : Rat := 3
/-- The constant `LORENZ_SIGMA_PARAM_MAX`. -/
def LORENZ_SIGMA_PARAM_MAX : Rat := 30
/-- The constant `LORENZ_BETA_PARAM_MIN`. -/
def LORENZ_BETA_PARAM_MIN : Rat := 1 / 2
/-- The constant `LORENZ_BETA_PARAM_MAX`. -/
def LORENZ_BETA_PARAM_MAX : Rat := 3
/-- The constant `LORENZ_RHO_PARAM_MIN`. -/
def LORENZ_RHO_PARAM_MIN : Rat := 13
/-- The constant `LORENZ_RHO_PARAM_MAX`. -/
def LORENZ_RHO_PARAM_MAX : Rat := 80
/-- The constant `LORENZ_PITCH_PARAM_MIN`. -/
def LORENZ_PITCH_PARAM_MIN : Rat := 1 / 1000
/-- The constant `LORENZ_PITCH_PARAM_MAX`. -/
def LORENZ_PITCH_PARAM_MAX : Rat := 1
/-- The constant `ROSSLER_A_PARAM_MIN`. -/
def ROSSLER_A_PARAM_MIN : Rat := 0
/-- The constant `ROSSLER_A_PARAM_MAX`. -/
def ROSSLER_A_PARAM_MAX : Rat := 2 / 10
/-- The constant `ROSSLER_B_PARAM_MIN`. -/
def ROSSLER_B_PARAM_MIN : Rat := 1 / 10
/-- The constant `ROSSLER_B_PARAM_MAX`. -/
def ROSSLER_B_PARAM_MAX : Rat := 1
/-- The constant `ROSSLER_C_PARAM_MIN`. -/
def ROSSLER_C_PARAM_MIN : Rat := 3
/-- The constant `ROSSLER_C_PARAM_MAX`. -/
def ROSSLER_C_PARAM_MAX : Rat := 12
/-- The constant `ROSSLER_PITCH_PARAM_MIN`. -/
def ROSSLER_PITCH_PARAM_MIN : Rat := 1 / 1000
/-- The constant `ROSSLER_PITCH_PARAM_MAX`. -/
def ROSSLER_PITCH_PARAM_MAX : Rat := 1

/-- The constructor `StrangeAttractors()`: nothing plugged in, all values 0. -/
def construct : StrangeAttractors where
  params := fun _ => 0
  inputs := fun _ => 0
  outputs := fun _ => { value := 0, active := false }
  lorenz := LorenzAttractor.construct
  rossler := RosslerAttractor.construct

/-- The assignment `outputs[o].value = v`. -/
def setOutputValue (m : StrangeAttractors) (o : OutputIds) (v : Rat) : StrangeAttractors :=
  { m with outputs := Function.update m.outputs o { m.outputs o with value := v } }

/-- The first `if` of `StrangeAttractors::step()` (the Lorenz block); `sr` is
`engineGetSampleRate()`. -/
def stepLorenz (sr : Rat) (m : StrangeAttractors) : StrangeAttractors :=
  if (m.outputs LORENZ_X_OUTPUT).active || (m.outputs LORENZ_Y_OUTPUT).active then
    have m1 : StrangeAttractors := { m with lorenz := { m.lorenz with
      sigma := clampf (m.params LORENZ_SIGMA_PARAM + m.inputs LORENZ_SIGMA_INPUT * (1 / 10))
        LORENZ_SIGMA_PARAM_MIN LORENZ_SIGMA_PARAM_MAX } }
    have m2 : StrangeAttractors := { m1 with lorenz := { m1.lorenz with
      beta := clampf (m1.params LORENZ_BETA_PARAM + m1.inputs LORENZ_BETA_INPUT * (1 / 10))
        LORENZ_BETA_PARAM_MIN LORENZ_BETA_PARAM_MAX } }
    have m3 : StrangeAttractors := { m2 with lorenz := { m2.lorenz with
      rho := clampf (m2.params LORENZ_RHO_PARAM + m2.inputs LORENZ_RHO_INPUT * (1 / 10))
        LORENZ_RHO_PARAM_MIN LORENZ_RHO_PARAM_MAX } }
    have m4 : StrangeAttractors := { m3 with lorenz := { m3.lorenz with
      pitch := clampf (m3.params LORENZ_PITCH_PARAM + m3.inputs LORENZ_PITCH_INPUT * (1 / 10))
        LORENZ_PITCH_PARAM_MIN LORENZ_PITCH_PARAM_MAX } }
    have m5 : StrangeAttractors := { m4 with lorenz := m4.lorenz.process (1 / sr) }
    have m6 : StrangeAttractors :=
      setOutputValue m5 LORENZ_X_OUTPUT (5 * (44 / 1000) * m5.lorenz.x)
    setOutputValue m6 LORENZ_Y_OUTPUT (5 * (328 / 10000) * m6.lorenz.y)
  else m

/-- The second `if` of `StrangeAttractors::step()` (the Rossler block). -/
def stepRossler (sr : Rat) (m : StrangeAttractors) : StrangeAttractors :=
  if (m.outputs ROSSLER_X_OUTPUT).active || (m.outputs ROSSLER_Y_OUTPUT).active then
    have m1 : StrangeAttractors := { m with rossler := { m.rossler with
      a := clampf (m.params ROSSLER_A_PARAM + m.inputs ROSSLER_A_INPUT * (1 / 10))
        ROSSLER_A_PARAM_MIN ROSSLER_A_PARAM_MAX } }
    have m2 : StrangeAttractors := { m1 with rossler := { m1.rossler with
      b := clampf (m1.params ROSSLER_B_PARAM + m1.inputs ROSSLER_B_INPUT * (1 / 10))
        ROSSLER_B_PARAM_MIN ROSSLER_B_PARAM_MAX } }
    have m3 : StrangeAttractors := { m2 with rossler := { m2.rossler with
      c := clampf (m2.params ROSSLER_C_PARAM + m2.inputs ROSSLER_C_INPUT * (1 / 10))
        ROSSLER_C_PARAM_MIN ROSSLER_C_PARAM_MAX } }
    have m4 : StrangeAttractors := { m3 with rossler := { m3.rossler with
      pitch := clampf (m3.params ROSSLER_PITCH_PARAM + m3.inputs ROSSLER_PITCH_INPUT * (1 / 10))
        ROSSLER_PITCH_PARAM_MIN ROSSLER_PITCH_PARAM_MAX } }
    have m5 : StrangeAttractors := { m4 with rossler := m4.rossler.process (1 / sr) }
    have m6 : StrangeAttractors :=
      setOutputValue m5 ROSSLER_X_OUTPUT (5 * (54 / 1000) * m5.rossler.x)
    setOutputValue m6 ROSSLER_Y_OUTPUT (5 * (569 / 10000) * m6.rossler.y)
  else m

/-- The method `StrangeAttractors::step()`. -/
def step (sr : Rat) (m : StrangeAttractors) : StrangeAttractors :=
  stepRossler sr (stepLorenz sr m)

/-- A module whose Rossler outputs are plugged in and whose Lorenz outputs are not. -/
def rosslerOnly : StrangeAttractors :=
  { construct with outputs := fun o =>
      match o with
      | ROSSLER_X_OUTPUT => { value := 0, active := true }
      | ROSSLER_Y_OUTPUT => { value := 0, active := true }
      | _ => { value := 0, active := false } }

end StrangeAttractors

/-! ## Rounding to single precision -/

/-- The rounded value is within one half of the argument, and even at a tie. -/
theorem roundNearestEven_spec (q : Rat) :
    |q - roundNearestEven q| < 1 / 2 ∨
      (|q - roundNearestEven q| = 1 / 2 ∧ roundNearestEven q % 2 = 0) := by
  have h1 : (⌊q⌋ : Rat) ≤ q := Int.floor_le q
  have h2 : q < ⌊q⌋ + 1 := Int.lt_floor_add_one q
  unfold roundNearestEven
  split_ifs with ha hb hc
  · left; rw [abs_lt]; constructor <;> linarith
  · left; push_cast; rw [abs_lt]; constructor <;> linarith
  · right
    have he : q - ⌊q⌋ = 1 / 2 := le_antisymm (not_lt.mp hb) (not_lt.mp ha)
    exact ⟨by rw [he]; norm_num, hc⟩
  · right
    have he : q - ⌊q⌋ = 1 / 2 := le_antisymm (not_lt.mp hb) (not_lt.mp ha)
    refine ⟨?_, by omega⟩
    push_cast
    have : q - (⌊q⌋ + 1) = -(1 / 2) := by linarith
    rw [this]; norm_num

/-- The specification determines the rounded value. -/
theorem roundNearestEven_unique (q : Rat) (n : Int)
    (h : |q - n| < 1 / 2 ∨ (|q - n| = 1 / 2 ∧ n % 2 = 0)) : roundNearestEven q = n := by
  have hs := roundNearestEven_spec q
  generalize roundNearestEven q = m at hs
  have hn : |q - n| ≤ 1 / 2 := by rcases h with h | h; exact h.le; exact h.1.le
  have hm : |q - m| ≤ 1 / 2 := by rcases hs with h | h; exact h.le; exact h.1.le
  rw [abs_le] at hn hm
  have hd1 : ((m : Rat) - n) ≤ 1 := by linarith
  have hd2 : ((n : Rat) - m) ≤ 1 := by linarith
  have hd1i : m - n ≤ 1 := by exact_mod_cast hd1
  have hd2i : n - m ≤ 1 := by exact_mod_cast hd2
  by_contra hne
  have hcases : m = n + 1 ∨ n = m + 1 := by omega
  rcases hcases with hc | hc
  · have hmq : (m : Rat) = n + 1 := by exact_mod_cast hc
    have e1 : q - n = 1 / 2 := by linarith
    have e2 : q - m = -(1 / 2) := by linarith
    rcases h with h | h
    · have h3 := abs_lt.mp h; linarith [h3.1, h3.2]
    · rcases hs with hs | hs
      · have h3 := abs_lt.mp hs; linarith [h3.1, h3.2]
      · omega
  · have hmq : (n : Rat) = m + 1 := by exact_mod_cast hc
    have e1 : q - m = 1 / 2 := by linarith
    have e2 : q - n = -(1 / 2) := by linarith
    rcases h with h | h
    · have h3 := abs_lt.mp h; linarith [h3.1, h3.2]
    · rcases hs with hs | hs
      · have h3 := abs_lt.mp hs; linarith [h3.1, h3.2]
      · omega

theorem roundNearestEven_intCast (n : Int) : roundNearestEven n = n :=
  roundNearestEven_unique _ n (Or.inl (by simp))

theorem roundNearestEven_neg (q : Rat) : roundNearestEven (-q) = -roundNearestEven q := by
  apply roundNearestEven_unique
  have e : -q - ((-roundNearestEven q : Int) : Rat) = -(q - roundNearestEven q) := by
    push_cast; ring
  rw [e, abs_neg]
  rcases roundNearestEven_spec q with h | h
  · exact Or.inl h
  · exact Or.inr ⟨h.1, by omega⟩

theorem roundNearestEven_mono {a b : Rat} (h : a ≤ b) :
    roundNearestEven a ≤ roundNearestEven b := by
  by_contra hlt
  have hlt2 : roundNearestEven b + 1 ≤ roundNearestEven a := by omega
  have hq : ((roundNearestEven b : Rat) + 1) ≤ roundNearestEven a := by exact_mod_cast hlt2
  have ha : |a - roundNearestEven a| ≤ 1 / 2 := by
    rcases roundNearestEven_spec a with h | h; exact h.le; exact h.1.le
  have hb : |b - roundNearestEven b| ≤ 1 / 2 := by
    rcases roundNearestEven_spec b with h | h; exact h.le; exact h.1.le
  rw [abs_le] at ha hb
  have hab : a = b := by linarith
  rw [hab] at hlt
  exact hlt le_rfl

theorem roundNearestEven_le (q : Rat) : (roundNearestEven q : Rat) ≤ q + 1 / 2 := by
  have ha : |q - roundNearestEven q| ≤ 1 / 2 := by
    rcases roundNearestEven_spec q with h | h; exact h.le; exact h.1.le
  rw [abs_le] at ha; linarith

theorem le_roundNearestEven (q : Rat) : q - 1 / 2 ≤ roundNearestEven q := by
  have ha : |q - roundNearestEven q| ≤ 1 / 2 := by
    rcases roundNearestEven_spec q with h | h; exact h.le; exact h.1.le
  rw [abs_le] at ha; linarith

theorem floatExponent_neg (q : Rat) : floatExponent (-q) = floatExponent q := by
  simp [floatExponent]

theorem floatExponent_ge (q : Rat) : -126 ≤ floatExponent q := le_max_right _ _

theorem floatExponent_mono {a b : Rat} (ha : 0 < |a|) (h : |a| ≤ |b|) :
    floatExponent a ≤ floatExponent b :=
  max_le_max (Int.log_mono_right ha h) le_rfl

theorem abs_lt_floatExponent (q : Rat) : |q| < 2 ^ (floatExponent q + 1) := by
  have h1 := Int.lt_zpow_succ_log_self (b := 2) (by norm_num) |q|
  have h2 : (2 : Rat) ^ (Int.log 2 |q| + 1) ≤ 2 ^ (floatExponent q + 1) :=
    zpow_le_zpow_right₀ (by norm_num) (by unfold floatExponent; omega)
  exact lt_of_lt_of_le (by exact_mod_cast h1) h2

theorem floatExponent_le_abs (q : Rat) (h0 : q ≠ 0) (h : -126 < floatExponent q) :
    2 ^ floatExponent q ≤ |q| := by
  have hlog : floatExponent q = Int.log 2 |q| := by
    unfold floatExponent at h ⊢; omega
  have hq : 0 < |q| := abs_pos.mpr h0
  rw [hlog]
  have := Int.zpow_log_le_self (b := 2) (by norm_num) hq
  exact_mod_cast this

/-- The exponent of a value that lies in a normal binade. -/
theorem floatExponent_eq (q : Rat) (e : Int) (he : -126 ≤ e) (h1 : 2 ^ e ≤ |q|)
    (h2 : |q| < 2 ^ (e + 1)) : floatExponent q = e := by
  have hq : 0 < |q| := lt_of_lt_of_le (zpow_pos (by norm_num) e) h1
  have a1 : e ≤ Int.log 2 |q| :=
    (Int.zpow_le_iff_le_log (b := 2) (by norm_num) hq).mp (by exact_mod_cast h1)
  have a2 : Int.log 2 |q| < e + 1 :=
    (Int.lt_zpow_iff_log_lt (b := 2) (by norm_num) hq).mp (by exact_mod_cast h2)
  unfold floatExponent; omega

theorem roundFloat_zero : roundFloat 0 = 0 := by
  simp [roundFloat, roundNearestEven]

theorem roundFloat_neg (q : Rat) : roundFloat (-q) = -roundFloat q := by
  unfold roundFloat
  rw [floatExponent_neg, neg_div, roundNearestEven_neg]
  push_cast; ring

/-- Rounding on a fixed grid of spacing `2 ^ k` is monotone. -/
theorem roundGrid_mono (k : Int) {a b : Rat} (h : a ≤ b) :
    (roundNearestEven (a / 2 ^ k) : Rat) * 2 ^ k ≤ roundNearestEven (b / 2 ^ k) * 2 ^ k := by
  have hk : (0 : Rat) < 2 ^ k := zpow_pos (by norm_num) k
  have hm : roundNearestEven (a / 2 ^ k) ≤ roundNearestEven (b / 2 ^ k) :=
    roundNearestEven_mono (div_le_div_of_nonneg_right h hk.le)
  have hq : (roundNearestEven (a / 2 ^ k) : Rat) ≤ roundNearestEven (b / 2 ^ k) := by
    exact_mod_cast hm
  exact mul_le_mul_of_nonneg_right hq hk.le

/-- A power of two is a point of every finer grid. -/
theorem roundGrid_zpow (k e : Int) (h : k ≤ e) :
    (roundNearestEven ((2 : Rat) ^ e / 2 ^ k) : Rat) * 2 ^ k = 2 ^ e := by
  have h2 : (2 : Rat) ≠ 0 := by norm_num
  have e1 : (2 : Rat) ^ e / 2 ^ k = (((2 : Int) ^ (e - k).toNat : Int) : Rat) := by
    rw [← zpow_sub₀ h2]
    push_cast
    rw [← zpow_natCast]
    congr 1
    omega
  rw [e1, roundNearestEven_intCast, ← e1]
  field_simp

theorem roundFloat_zpow (e : Int) (he : -126 ≤ e) : roundFloat (2 ^ e) = 2 ^ e := by
  have hp : (0 : Rat) < 2 ^ e := zpow_pos (by norm_num) e
  have hx : floatExponent (2 ^ e) = e := by
    apply floatExponent_eq _ _ he
    · rw [abs_of_pos hp]
    · rw [abs_of_pos hp]; exact zpow_lt_zpow_right₀ (by norm_num) (by omega)
  unfold roundFloat
  rw [hx]
  exact roundGrid_zpow _ _ (by omega)

theorem roundFloat_one : roundFloat 1 = 1 := by
  simpa using roundFloat_zpow 0 (by norm_num)

theorem roundFloat_nonneg {q : Rat} (h : 0 ≤ q) : 0 ≤ roundFloat q := by
  unfold roundFloat
  have hk : (0 : Rat) < 2 ^ (floatExponent q - 23) := zpow_pos (by norm_num) _
  have h0 : roundNearestEven 0 ≤ roundNearestEven (q / 2 ^ (floatExponent q - 23)) :=
    roundNearestEven_mono (div_nonneg h hk.le)
  have h1 : roundNearestEven 0 = 0 := by simpa using roundNearestEven_intCast 0
  rw [h1] at h0
  have h2 : (0 : Rat) ≤ roundNearestEven (q / 2 ^ (floatExponent q - 23)) := by exact_mod_cast h0
  exact mul_nonneg h2 hk.le

theorem roundFloat_mono_of_nonneg {a b : Rat} (ha : 0 ≤ a) (h : a ≤ b) :
    roundFloat a ≤ roundFloat b := by
  rcases eq_or_lt_of_le ha with h0 | hpos
  · rw [← h0, roundFloat_zero]; exact roundFloat_nonneg (le_trans ha h)
  have hb : 0 < b := lt_of_lt_of_le hpos h
  have hab : |a| ≤ |b| := by rw [abs_of_pos hpos, abs_of_pos hb]; exact h
  have hexp := floatExponent_mono (by rw [abs_of_pos hpos]; exact hpos) hab
  rcases eq_or_lt_of_le hexp with he | hlt
  · unfold roundFloat; rw [he]; exact roundGrid_mono _ h
  · have hb1 : (2 : Rat) ^ floatExponent b ≤ b := by
      have := floatExponent_le_abs b (ne_of_gt hb) (by have := floatExponent_ge a; omega)
      rwa [abs_of_pos hb] at this
    have ha1 : a ≤ 2 ^ floatExponent b := by
      have h1 := abs_lt_floatExponent a
      rw [abs_of_pos hpos] at h1
      exact le_trans h1.le (zpow_le_zpow_right₀ (by norm_num) (by omega))
    calc roundFloat a
        ≤ roundNearestEven ((2 : Rat) ^ floatExponent b / 2 ^ (floatExponent a - 23)) *
            2 ^ (floatExponent a - 23) := roundGrid_mono _ ha1
      _ = 2 ^ floatExponent b := roundGrid_zpow _ _ (by omega)
      _ = roundNearestEven ((2 : Rat) ^ floatExponent b / 2 ^ (floatExponent b - 23)) *
            2 ^ (floatExponent b - 23) := (roundGrid_zpow _ _ (by omega)).symm
      _ ≤ roundFloat b := roundGrid_mono _ hb1

/-- Rounding to single precision is monotone. -/
theorem roundFloat_mono {a b : Rat} (h : a ≤ b) : roundFloat a ≤ roundFloat b := by
  rcases le_or_lt 0 a with ha | ha
  · exact roundFloat_mono_of_nonneg ha h
  rcases le_or_lt 0 b with hb | hb
  · have h1 : roundFloat a ≤ 0 := by
      have := roundFloat_nonneg (q := -a) (by linarith)
      rw [roundFloat_neg] at this; linarith
    exact le_trans h1 (roundFloat_nonneg hb)
  · have := roundFloat_mono_of_nonneg (a := -b) (b := -a) (by linarith) (by linarith)
    rw [roundFloat_neg, roundFloat_neg] at this
    linarith

/-- Evaluation of `roundFloat` in a normal binade. -/
theorem roundFloat_eval (q : Rat) (e n : Int) (he : -126 ≤ e) (h1 : 2 ^ e ≤ |q|)
    (h2 : |q| < 2 ^ (e + 1))
    (hn : |q / 2 ^ (e - 23) - n| < 1 / 2 ∨ (|q / 2 ^ (e - 23) - n| = 1 / 2 ∧ n % 2 = 0)) :
    roundFloat q = n * 2 ^ (e - 23) := by
  unfold roundFloat
  rw [floatExponent_eq q e he h1 h2, roundNearestEven_unique _ n hn]

/-! ## Closed forms of the phases of `step()`

Each phase is rewritten as one record update whose fields carry the case
distinctions; the later proofs read single fields off these forms. -/

namespace Topograph

open ParamIds InputIds OutputIds LightIds PatternGeneratorMode

theorem stepRun_eq (d : Deps) (x : Sample) (s : Topograph) :
    stepRun d x s =
      { s with
        runButtonTrig :=
          if s.runMode = TOGGLE then s.runButtonTrig.process (x.params RUN_BUTTON_PARAM)
          else s.runButtonTrig
        runInputTrig :=
          if s.runMode = TOGGLE ∧
              SchmittTrigger.fires d s.runButtonTrig (x.params RUN_BUTTON_PARAM) = false then
            s.runInputTrig.process (x.inputs RUN_INPUT)
          else s.runInputTrig
        running :=
          if s.runMode = TOGGLE then
            if runEvent d x s = true then (if s.running = 0 then 1 else 0) else s.running
          else floatToInt (floatAdd (x.params RUN_BUTTON_PARAM) (x.inputs RUN_INPUT))
        lights :=
          if s.runMode = TOGGLE then
            if runEvent d x s = true then
              Function.update s.lights RUNNING_LIGHT
                (runningLightValue (if s.running = 0 then 1 else 0))
            else s.lights
          else
            Function.update s.lights RUNNING_LIGHT
              (runningLightValue
                (floatToInt (floatAdd (x.params RUN_BUTTON_PARAM) (x.inputs RUN_INPUT))))
        metro :=
          if ¬ s.runMode = TOGGLE ∧
              floatToInt (floatAdd (x.params RUN_BUTTON_PARAM) (x.inputs RUN_INPUT)) = 0 then
            s.metro.reset
          else s.metro } := by
  simp only [stepRun]
  split_ifs <;> simp_all

theorem stepReset_eq (d : Deps) (x : Sample) (s : Topograph) :
    stepReset d x s =
      { s with
        resetButtonTrig := s.resetButtonTrig.process (x.params RESET_BUTTON_PARAM)
        resetTrig :=
          if SchmittTrigger.fires d s.resetButtonTrig (x.params RESET_BUTTON_PARAM) = false then
            s.resetTrig.process (x.inputs RESET_INPUT)
          else s.resetTrig
        grids :=
          if resetEvent d x s = true then s.grids.call PatternGeneratorCall.reset else s.grids
        metro := if resetEvent d x s = true then s.metro.reset else s.metro
        resetLed := if resetEvent d x s = true then s.resetLed.trigger else s.resetLed
        seqStep := if resetEvent d x s = true then 0 else s.seqStep
        elapsedTicks := if resetEvent d x s = true then 0 else s.elapsedTicks } := by
  simp only [stepReset]
  split_ifs <;> simp_all

theorem stepTempo_eq (d : Deps) (x : Sample) (s : Topograph) :
    stepTempo d x s =
      { s with
        tempoParam := x.params TEMPO_PARAM
        tempo := rescale (x.params TEMPO_PARAM) (1 / 100) 1 40 240
        clockBPM := d.formatBPM (rescale (x.params TEMPO_PARAM) (1 / 100) 1 40 240)
        swing := clamp (x.params SWING_PARAM + x.inputs SWING_CV / 10) 0 (9 / 10)
        swingHighTempo := rescale (x.params TEMPO_PARAM) (1 / 100) 1 40 240 /
          (1 - clamp (x.params SWING_PARAM + x.inputs SWING_CV / 10) 0 (9 / 10))
        swingLowTempo := rescale (x.params TEMPO_PARAM) (1 / 100) 1 40 240 /
          (1 + clamp (x.params SWING_PARAM + x.inputs SWING_CV / 10) 0 (9 / 10))
        metro := s.metro.setTempo
          (if s.elapsedTicks < 6 then
            rescale (x.params TEMPO_PARAM) (1 / 100) 1 40 240 /
              (1 + clamp (x.params SWING_PARAM + x.inputs SWING_CV / 10) 0 (9 / 10))
          else
            rescale (x.params TEMPO_PARAM) (1 / 100) 1 40 240 /
              (1 - clamp (x.params SWING_PARAM + x.inputs SWING_CV / 10) 0 (9 / 10))) } := by
  simp only [stepTempo]
  split_ifs <;> rfl

theorem stepClockSelect_eq (d : Deps) (s : Topograph) :
    stepClockSelect d s =
      { s with
        clockBPM := if s.tempoParam < 1 / 100 then "Ext." else s.clockBPM
        grids :=
          if s.tempoParam < 1 / 100 ∧ s.initExtReset = true then
            s.grids.call PatternGeneratorCall.reset
          else s.grids
        initExtReset := if s.tempoParam < 1 / 100 then false else true
        numTicks :=
          if s.tempoParam < 1 / 100 then d.ticks_granularity s.extClockResolution
          else d.ticks_granularity 2
        extClock := if s.tempoParam < 1 / 100 then true else false
        metro := if s.tempoParam < 1 / 100 then s.metro else s.metro.process } := by
  cases s
  simp only [stepClockSelect]
  split_ifs <;> first | rfl | (exfalso; tauto) | simp_all

theorem stepControls_eq (d : Deps) (x : Sample) (s : Topograph) :
    stepControls d x s =
      { s with
        mapX := clamp (controlSum (x.params MAPX_PARAM) (x.inputs MAPX_CV)) 0 1
        mapY := clamp (controlSum (x.params MAPY_PARAM) (x.inputs MAPY_CV)) 0 1
        BDFill := clamp (controlSum (x.params BD_DENS_PARAM) (x.inputs BD_FILL_CV)) 0 1
        SNFill := clamp (controlSum (x.params SN_DENS_PARAM) (x.inputs SN_FILL_CV)) 0 1
        HHFill := clamp (controlSum (x.params HH_DENS_PARAM) (x.inputs HH_FILL_CV)) 0 1
        chaos := clamp (controlSum (x.params CHAOS_PARAM) (x.inputs CHAOS_CV)) 0 1
        mapXText :=
          if d.getPatternMode s.grids = PATTERN_EUCLIDEAN then
            "1 Len: " ++
              lengthText (clamp (controlSum (x.params MAPX_PARAM) (x.inputs MAPX_CV)) 0 1)
          else "Map X"
        mapYText :=
          if d.getPatternMode s.grids = PATTERN_EUCLIDEAN then
            "2 Len: " ++
              lengthText (clamp (controlSum (x.params MAPY_PARAM) (x.inputs MAPY_CV)) 0 1)
          else "Map Y"
        chaosText :=
          if d.getPatternMode s.grids = PATTERN_EUCLIDEAN then
            "3 Len: " ++
              lengthText (clamp (controlSum (x.params CHAOS_PARAM) (x.inputs CHAOS_CV)) 0 1)
          else "Chaos" } := by
  simp only [stepControls]
  split_ifs <;> rfl

theorem stepRunning_eq (d : Deps) (x : Sample) (s : Topograph) :
    stepRunning d x s =
      { s with
        clockTrig :=
          if s.running ≠ 0 ∧ s.extClock = true then s.clockTrig.process (x.inputs CLOCK_INPUT)
          else s.clockTrig
        advStep :=
          if s.running ≠ 0 then
            if s.extClock = true then
              if SchmittTrigger.fires d s.clockTrig (x.inputs CLOCK_INPUT) = true then true
              else s.advStep
            else d.hasTicked s.metro
          else s.advStep
        elapsedTicks :=
          if s.running ≠ 0 ∧ s.extClock = false ∧ d.hasTicked s.metro = true then
            Int.tmod (s.elapsedTicks + 1) 12
          else s.elapsedTicks
        grids := if s.running ≠ 0 then pushControls s else s.grids } := by
  cases s
  simp only [stepRunning, pushControls]
  split_ifs <;> simp_all

theorem armVoice_eq (d : Deps) (s : Topograph) (i : Fin 6) :
    armVoice d s i =
      { s with
        drumTriggers := fun j =>
          if j = i ∧ d.getDrumState s.grids i.val = true then (s.drumTriggers j).trigger
          else s.drumTriggers j
        gateState := fun j =>
          if j = i ∧ d.getDrumState s.grids i.val = true then true else s.gateState j
        drumLED := fun k =>
          if k.val = i.val ∧ d.getDrumState s.grids i.val = true then (s.drumLED k).trigger
          else s.drumLED k } := by
  simp only [armVoice]
  by_cases hh : d.getDrumState s.grids i.val = true
  · by_cases h3 : i.val < 3
    · simp only [hh, h3, if_true, dif_pos, and_true]
      congr 1
      · funext k
        by_cases hk : k.val = i.val
        · have : k = ⟨i.val, h3⟩ := Fin.ext hk
          subst this; simp
        · have : k ≠ ⟨i.val, h3⟩ := fun h => hk (by rw [h])
          simp [Function.update, this, hk]
      · funext j; by_cases hj : j = i <;> simp [Function.update, hj]
      · funext j; by_cases hj : j = i <;> simp [Function.update, hj]
    · simp only [hh, h3, if_true, dif_neg, and_true, not_false_eq_true]
      congr 1
      · funext k
        have : k.val ≠ i.val := by omega
        simp [this]
      · funext j; by_cases hj : j = i <;> simp [Function.update, hj]
      · funext j; by_cases hj : j = i <;> simp [Function.update, hj]
  · simp [hh]

theorem armLoop_eq (d : Deps) (s : Topograph) :
    voices.foldl (armVoice d) s =
      { s with
        drumTriggers := fun j =>
          if d.getDrumState s.grids j.val = true then (s.drumTriggers j).trigger
          else s.drumTriggers j
        gateState := fun j =>
          if d.getDrumState s.grids j.val = true then true else s.gateState j
        drumLED := fun k =>
          if d.getDrumState s.grids k.val = true then (s.drumLED k).trigger
          else s.drumLED k } := by
  simp only [voices, List.foldl, armVoice_eq]
  have h1 : ((1 : Fin 6) : ℕ) = 1 := rfl
  have h2 : ((2 : Fin 6) : ℕ) = 2 := rfl
  have h3 : ((3 : Fin 6) : ℕ) = 3 := rfl
  have h4 : ((4 : Fin 6) : ℕ) = 4 := rfl
  have h5 : ((5 : Fin 6) : ℕ) = 5 := rfl
  congr 1
  · funext k; fin_cases k <;> simp [h1, h2, h3, h4, h5]
  · funext k; fin_cases k <;> simp [h1, h2, h3, h4, h5, Fin.ext_iff]
  · funext k; fin_cases k <;> simp [h1, h2, h3, h4, h5, Fin.ext_iff]

theorem stepAdvance_eq (d : Deps) (s : Topograph) :
    stepAdvance d s =
      { s with
        grids :=
          if s.advStep = true then s.grids.call (PatternGeneratorCall.tick s.numTicks)
          else s.grids
        drumTriggers := fun j =>
          if s.advStep = true ∧
              d.getDrumState (s.grids.call (PatternGeneratorCall.tick s.numTicks)) j.val = true then
            (s.drumTriggers j).trigger
          else s.drumTriggers j
        gateState := fun j =>
          if s.advStep = true ∧
              d.getDrumState (s.grids.call (PatternGeneratorCall.tick s.numTicks)) j.val = true then
            true
          else s.gateState j
        drumLED := fun k =>
          if s.advStep = true ∧
              d.getDrumState (s.grids.call (PatternGeneratorCall.tick s.numTicks)) k.val = true then
            (s.drumLED k).trigger
          else s.drumLED k
        seqStep :=
          if s.advStep = true then (if s.seqStep + 1 ≥ 32 then 0 else s.seqStep + 1)
          else s.seqStep
        advStep := false } := by
  cases s
  simp only [stepAdvance, armLoop_eq]
  split_ifs <;> simp_all

theorem pulseLoop_eq (d : Deps) (s : Topograph) :
    voices.foldl (pulseOutput d) s =
      { s with
        drumTriggers := fun j => (s.drumTriggers j).process
        outputs := fun o =>
          if d.getState (s.drumTriggers (outVoice o)).process ≠ 0 then 10 else 0 } := by
  have hb : ∀ (t : Topograph) (i : Fin 6), pulseOutput d t i =
      { t with
        drumTriggers := Function.update t.drumTriggers i (t.drumTriggers i).process
        outputs := Function.update t.outputs (outIDs i)
          (if d.getState (t.drumTriggers i).process ≠ 0 then 10 else 0) } := by
    intro t i
    simp only [pulseOutput, Function.update_same]
    split_ifs <;> rfl
  simp only [voices, List.foldl, hb]
  congr 1
  · funext k; fin_cases k <;> simp [Function.update]
  · funext o; cases o <;> simp [Function.update, outIDs, outVoice]

theorem gateLoop_eq (d : Deps) (s : Topograph) :
    voices.foldl (gateOutput d) s =
      { s with
        outputs := fun o =>
          if d.getElapsedTickTime s.metro < 1 / 2 ∧ s.gateState (outVoice o) = true then 10
          else 0
        gateState := fun j =>
          if d.getElapsedTickTime s.metro < 1 / 2 ∧ s.gateState j = true then s.gateState j
          else false } := by
  have hb : ∀ (t : Topograph) (i : Fin 6), gateOutput d t i =
      { t with
        outputs := Function.update t.outputs (outIDs i)
          (if d.getElapsedTickTime t.metro < 1 / 2 ∧ t.gateState i = true then 10 else 0)
        gateState := Function.update t.gateState i
          (if d.getElapsedTickTime t.metro < 1 / 2 ∧ t.gateState i = true then t.gateState i
          else false) } := by
    intro t i
    simp only [gateOutput]
    split_ifs <;> simp
  simp only [voices, List.foldl, hb]
  congr 1
  · funext k; fin_cases k <;> simp [Function.update]
  · funext o; cases o <;> simp [Function.update, outIDs, outVoice]

theorem updateOutputs_eq (d : Deps) (s : Topograph) :
    updateOutputs d s =
      { s with
        drumTriggers := fun j =>
          if s.triggerOutputMode = PULSE then (s.drumTriggers j).process else s.drumTriggers j
        outputs := fun o =>
          if s.triggerOutputMode = PULSE then
            if d.getState (s.drumTriggers (outVoice o)).process ≠ 0 then 10 else 0
          else if d.getElapsedTickTime s.metro < 1 / 2 ∧ s.gateState (outVoice o) = true then 10
          else 0
        gateState := fun j =>
          if s.triggerOutputMode = PULSE then s.gateState j
          else if d.getElapsedTickTime s.metro < 1 / 2 ∧ s.gateState j = true then s.gateState j
          else false } := by
  simp only [updateOutputs, pulseLoop_eq, gateLoop_eq]
  split_ifs with h <;> simp only [h, if_true, if_false]

theorem ledLoop_eq (d : Deps) (s : Topograph) :
    leds.foldl (ledUpdate d) s =
      { s with
        drumLED := fun k => (s.drumLED k).process
        lights := fun l =>
          match lightLed l with
          | some k => if d.getState (s.drumLED k).process = 1 then 1 else 0
          | none => s.lights l } := by
  have hb : ∀ (t : Topograph) (i : Fin 3), ledUpdate d t i =
      { t with
        drumLED := Function.update t.drumLED i (t.drumLED i).process
        lights := Function.update t.lights (drumLEDIds i)
          (if d.getState (t.drumLED i).process = 1 then 1 else 0) } := by
    intro t i
    simp only [ledUpdate, Function.update_same]
    split_ifs <;> rfl
  simp only [leds, List.foldl, hb]
  congr 1
  · funext k; fin_cases k <;> simp [Function.update]
  · funext l; cases l <;> simp [Function.update, drumLEDIds, lightLed]

theorem updateUI_eq (d : Deps) (s : Topograph) :
    updateUI d s =
      { s with
        resetLed := s.resetLed.process
        drumLED := fun k => (s.drumLED k).process
        lights := fun l =>
          if l = RESET_LIGHT then (if d.getState s.resetLed.process = 1 then 1 else 0)
          else
            match lightLed l with
            | some k => if d.getState (s.drumLED k).process = 1 then 1 else 0
            | none => s.lights l } := by
  simp only [updateUI, ledLoop_eq]
  split_ifs with h <;> congr 1 <;> funext l <;> cases l <;> simp [Function.update, lightLed, h]

theorem onSampleRateChange_eq (sr : Rat) (s : Topograph) :
    onSampleRateChange sr s =
      { s with
        metro := s.metro.setSampleRate sr
        drumLED := fun k => (s.drumLED k).setSampleRate sr
        resetLed := s.resetLed.setSampleRate sr
        drumTriggers := fun j => (s.drumTriggers j).setSampleRate sr } := by
  simp only [onSampleRateChange, leds, voices, List.foldl]
  congr 1
  · funext k; fin_cases k <;> simp [Function.update]
  · funext k; fin_cases k <;> simp [Function.update]

/-! ## Single fields after `step()` -/

theorem step_seqStep (d : Deps) (x : Sample) (s : Topograph) :
    (step d x s).seqStep =
      if (stepControl d x s).advStep = true then
        (if (stepControl d x s).seqStep + 1 ≥ 32 then 0 else (stepControl d x s).seqStep + 1)
      else (stepControl d x s).seqStep := by
  simp only [step, updateUI_eq, updateOutputs_eq, stepAdvance_eq]

theorem stepControl_seqStep (d : Deps) (x : Sample) (s : Topograph) :
    (stepControl d x s).seqStep = if resetEvent d x s = true then 0 else s.seqStep := by
  simp only [stepControl, stepRunning_eq, stepControls_eq, stepClockSelect_eq, stepTempo_eq,
    stepReset_eq, stepRun_eq, resetEvent]

theorem step_resetLed (d : Deps) (x : Sample) (s : Topograph) :
    (step d x s).resetLed =
      (if resetEvent d x s = true then s.resetLed.trigger else s.resetLed).process := by
  simp only [step, stepControl, updateUI_eq, updateOutputs_eq, stepAdvance_eq,
    stepRunning_eq, stepControls_eq, stepClockSelect_eq, stepTempo_eq,
    stepReset_eq, stepRun_eq, resetEvent]

theorem step_advStep (d : Deps) (x : Sample) (s : Topograph) : (step d x s).advStep = false := by
  simp only [step, updateUI_eq, updateOutputs_eq, stepAdvance_eq]

theorem stepControl_running (d : Deps) (x : Sample) (s : Topograph) :
    (stepControl d x s).running = (stepRun d x s).running := by
  simp only [stepControl, stepRunning_eq, stepControls_eq, stepClockSelect_eq, stepTempo_eq,
    stepReset_eq]

theorem stepControl_advStep (d : Deps) (x : Sample) (s : Topograph) :
    (stepControl d x s).advStep =
      if (stepRun d x s).running ≠ 0 then
        if x.params TEMPO_PARAM < 1 / 100 then
          if SchmittTrigger.fires d s.clockTrig (x.inputs CLOCK_INPUT) = true then true
          else s.advStep
        else d.hasTicked (stepControl d x s).metro
      else s.advStep := by
  simp only [stepControl, stepRunning_eq, stepControls_eq, stepClockSelect_eq, stepTempo_eq,
    stepReset_eq, stepRun_eq, resetEvent, runEvent]
  by_cases ht : x.params TEMPO_PARAM < 1 / 100 <;>
    simp only [ht, if_true, if_false, eq_self_iff_true, Bool.false_eq_true]

theorem SettingsOnly.trans {s t u : Topograph} (h1 : SettingsOnly s t) (h2 : SettingsOnly t u) :
    SettingsOnly s u := by
  unfold SettingsOnly at *
  rw [h2, h1]

theorem fromJson_settingsOnly (s : Topograph) (rootJ : JsonObject) :
    SettingsOnly s (fromJson s rootJ) := by
  have h1 : ∀ t : Topograph, SettingsOnly t (fromJsonSequencerMode rootJ t) := by
    intro t; simp only [SettingsOnly, fromJsonSequencerMode]; split <;> [split_ifs <;> rfl; rfl]
  have h2 : ∀ t : Topograph, SettingsOnly t (fromJsonTriggerOutputMode rootJ t) := by
    intro t; simp only [SettingsOnly, fromJsonTriggerOutputMode]; split <;> rfl
  have h3 : ∀ t : Topograph, SettingsOnly t (fromJsonAccOutputMode rootJ t) := by
    intro t; simp only [SettingsOnly, fromJsonAccOutputMode]; split <;> [split_ifs <;> rfl; rfl]
  have h4 : ∀ t : Topograph, SettingsOnly t (fromJsonExtClockResolution rootJ t) := by
    intro t; simp only [SettingsOnly, fromJsonExtClockResolution]; split <;> rfl
  have h5 : ∀ t : Topograph, SettingsOnly t (fromJsonChaosKnobMode rootJ t) := by
    intro t; simp only [SettingsOnly, fromJsonChaosKnobMode]; split <;> rfl
  have h6 : ∀ t : Topograph, SettingsOnly t (fromJsonRunMode rootJ t) := by
    intro t; simp only [SettingsOnly, fromJsonRunMode]; split <;> rfl
  have h7 : ∀ t : Topograph, SettingsOnly t (fromJsonPanelStyle rootJ t) := by
    intro t; simp only [SettingsOnly, fromJsonPanelStyle]; split <;> rfl
  unfold fromJson
  exact (((((((h1 s).trans (h2 _)).trans (h3 _)).trans (h4 _)).trans (h5 _)).trans (h6 _)).trans
    (h7 _))

theorem onAction_settingsOnly (item : MenuItem) (s : Topograph) :
    SettingsOnly s (item.onAction s) := by
  cases item <;>
    simp only [SettingsOnly, MenuItem.onAction, panelStyleAction, sequencerModeAction,
      triggerOutputModeAction, accOutputModeAction, clockResolutionAction, runModeAction] <;>
    rfl

theorem SettingsOnly.advStep {s t : Topograph} (h : SettingsOnly s t) : t.advStep = s.advStep := by
  unfold SettingsOnly at h; rw [h]

theorem reachable_advStep (d : Deps) (s : Topograph) (h : Reachable d s) : s.advStep = false := by
  induction h with
  | construct sr => rfl
  | step x s _ _ => exact step_advStep d x s
  | fromJson rootJ s _ ih => rw [(fromJson_settingsOnly s rootJ).advStep]; exact ih
  | onSampleRateChange sr s _ ih => rw [onSampleRateChange_eq]; exact ih
  | onAction item s _ ih => rw [(onAction_settingsOnly item s).advStep]; exact ih

theorem runningExternal_resetEvent :
    resetEvent refDeps resetAndClockSample runningExternalState = true := by
  norm_num [runningExternalState, step, stepControl, updateUI_eq, updateOutputs_eq,
    stepAdvance_eq, stepRunning_eq, stepControls_eq, stepClockSelect_eq, stepTempo_eq,
    stepReset_eq, stepRun_eq, resetEvent, runEvent, construct, refDeps, idleSample,
    runPressSample, resetAndClockSample, SchmittTrigger.fires, SchmittTrigger.process,
    SchmittState.after, SchmittState.next, TOGGLE]

theorem runningExternal_advStep :
    (stepControl refDeps resetAndClockSample runningExternalState).advStep = true := by
  rw [stepControl_advStep]
  norm_num [runningExternalState, step, stepControl, updateUI_eq, updateOutputs_eq,
    stepAdvance_eq, stepRunning_eq, stepControls_eq, stepClockSelect_eq, stepTempo_eq,
    stepReset_eq, stepRun_eq, resetEvent, runEvent, construct, refDeps, idleSample,
    runPressSample, resetAndClockSample, SchmittTrigger.fires, SchmittTrigger.process,
    SchmittState.after, SchmittState.next, TOGGLE]

theorem tickCount_call (g : PatternGenerator) (c : PatternGeneratorCall) :
    tickCount (g.call c) =
      tickCount g + (match c with
        | PatternGeneratorCall.tick _ => 1
        | _ => 0) := by
  cases c <;> simp [tickCount, PatternGenerator.call, List.countP_append]

theorem triggerCount_process (o : Oneshot) : triggerCount o.process = triggerCount o := by
  simp [triggerCount, Oneshot.process, List.count_append]

theorem triggerCount_trigger (o : Oneshot) : triggerCount o.trigger = triggerCount o + 1 := by
  simp [triggerCount, Oneshot.trigger, List.count_append]

theorem stepControl_tickCount (d : Deps) (x : Sample) (s : Topograph) :
    tickCount (stepControl d x s).grids = tickCount s.grids := by
  simp only [stepControl, stepRunning_eq, stepControls_eq, stepClockSelect_eq, stepTempo_eq,
    stepReset_eq, stepRun_eq, pushControls]
  split_ifs <;> simp only [tickCount_call, add_zero]

theorem step_grids (d : Deps) (x : Sample) (s : Topograph) :
    (step d x s).grids =
      if (stepControl d x s).advStep = true then
        (stepControl d x s).grids.call (PatternGeneratorCall.tick (stepControl d x s).numTicks)
      else (stepControl d x s).grids := by
  simp only [step, updateUI_eq, updateOutputs_eq, stepAdvance_eq]

theorem stepControl_frame (d : Deps) (x : Sample) (s : Topograph) :
    (stepControl d x s).drumTriggers = s.drumTriggers ∧
    (stepControl d x s).drumLED = s.drumLED ∧
    (stepControl d x s).gateState = s.gateState ∧
    (stepControl d x s).triggerOutputMode = s.triggerOutputMode ∧
    (stepControl d x s).runMode = s.runMode ∧
    (stepControl d x s).extClockResolution = s.extClockResolution := by
  simp only [stepControl, stepRunning_eq, stepControls_eq, stepClockSelect_eq, stepTempo_eq,
    stepReset_eq, stepRun_eq, and_self]

theorem step_drumTriggers (d : Deps) (x : Sample) (s : Topograph) (j : Fin 6) :
    (step d x s).drumTriggers j =
      if s.triggerOutputMode = PULSE then
        (if (stepControl d x s).advStep = true ∧
            d.getDrumState (step d x s).grids j.val = true then
          (s.drumTriggers j).trigger else s.drumTriggers j).process
      else
        (if (stepControl d x s).advStep = true ∧
            d.getDrumState (step d x s).grids j.val = true then
          (s.drumTriggers j).trigger else s.drumTriggers j) := by
  obtain ⟨h1, -, -, h4, -, -⟩ := stepControl_frame d x s
  rw [step_grids]
  simp only [step, updateUI_eq, updateOutputs_eq, stepAdvance_eq, h1, h4]
  split_ifs <;> simp_all

theorem step_drumLED (d : Deps) (x : Sample) (s : Topograph) (k : Fin 3) :
    (step d x s).drumLED k =
      (if (stepControl d x s).advStep = true ∧
          d.getDrumState (step d x s).grids k.val = true then
        (s.drumLED k).trigger else s.drumLED k).process := by
  obtain ⟨-, h2, -, -, -, -⟩ := stepControl_frame d x s
  rw [step_grids]
  simp only [step, updateUI_eq, updateOutputs_eq, stepAdvance_eq, h2]
  split_ifs <;> simp_all

theorem step_metro (d : Deps) (x : Sample) (s : Topograph) :
    (step d x s).metro = (stepControl d x s).metro := by
  simp only [step, updateUI_eq, updateOutputs_eq, stepAdvance_eq]

theorem stepControl_elapsed_after_reset (d : Deps) (x : Sample) (s : Topograph) :
    (stepReset d x (stepRun d x s)).elapsedTicks =
      if resetEvent d x s = true then 0 else s.elapsedTicks := by
  simp only [stepReset_eq, stepRun_eq, resetEvent]

theorem stepControl_metro (d : Deps) (x : Sample) (s : Topograph) :
    (stepControl d x s).metro =
      s.metro ++
        ((if ¬ s.runMode = TOGGLE ∧
              floatToInt (floatAdd (x.params RUN_BUTTON_PARAM) (x.inputs RUN_INPUT)) = 0 then
            [MetronomeCall.reset] else []) ++
          (if resetEvent d x s = true then [MetronomeCall.reset] else []) ++
          [MetronomeCall.setTempo
            (if (stepReset d x (stepRun d x s)).elapsedTicks < 6 then
              rescale (x.params TEMPO_PARAM) (1 / 100) 1 40 240 /
                (1 + clamp (x.params SWING_PARAM + x.inputs SWING_CV / 10) 0 (9 / 10))
            else
              rescale (x.params TEMPO_PARAM) (1 / 100) 1 40 240 /
                (1 - clamp (x.params SWING_PARAM + x.inputs SWING_CV / 10) 0 (9 / 10)))] ++
          (if x.params TEMPO_PARAM < 1 / 100 then [] else [MetronomeCall.process])) := by
  simp only [stepControl, stepRunning_eq, stepControls_eq, stepClockSelect_eq, stepTempo_eq,
    stepReset_eq, stepRun_eq, resetEvent, Metronome.reset, Metronome.setTempo,
    Metronome.process]
  split_ifs <;> simp only [List.append_assoc, List.append_nil, List.nil_append]

theorem step_tempo_swing (d : Deps) (x : Sample) (s : Topograph) :
    (step d x s).tempo = rescale (x.params TEMPO_PARAM) (1 / 100) 1 40 240 ∧
    (step d x s).swing = clamp (x.params SWING_PARAM + x.inputs SWING_CV / 10) 0 (9 / 10) := by
  simp only [step, stepControl, updateUI_eq, updateOutputs_eq, stepAdvance_eq, stepRunning_eq,
    stepControls_eq, stepClockSelect_eq, stepTempo_eq, and_self]

theorem newCalls_append {α : Type} (l m : List α) : newCalls l (l ++ m) = m := by
  simp [newCalls]

theorem step_run_fields (d : Deps) (x : Sample) (s : Topograph) :
    (step d x s).running = (stepRun d x s).running ∧
    (step d x s).lights RUNNING_LIGHT = (stepRun d x s).lights RUNNING_LIGHT ∧
    (step d x s).runButtonTrig = (stepRun d x s).runButtonTrig ∧
    (step d x s).runInputTrig = (stepRun d x s).runInputTrig ∧
    (step d x s).runMode = s.runMode := by
  simp only [step, stepControl, updateUI_eq, updateOutputs_eq, stepAdvance_eq, stepRunning_eq,
    stepControls_eq, stepClockSelect_eq, stepTempo_eq, stepReset_eq, lightLed, true_and]
  simp [stepRun_eq]

theorem SettingsOnly.run_fields {s t : Topograph} (h : SettingsOnly s t) :
    t.running = s.running ∧ t.lights = s.lights := by
  unfold SettingsOnly at h; rw [h]; exact ⟨rfl, rfl⟩

theorem stepRun_light (d : Deps) (x : Sample) (s : Topograph)
    (h : s.lights RUNNING_LIGHT = runningLightValue s.running) :
    (stepRun d x s).lights RUNNING_LIGHT = runningLightValue (stepRun d x s).running := by
  simp only [stepRun_eq]
  split_ifs <;> simp [h]

theorem reachable_runningLight (d : Deps) (s : Topograph) (h : Reachable d s) :
    s.lights RUNNING_LIGHT = runningLightValue s.running := by
  induction h with
  | construct sr => simp [construct, runningLightValue]
  | step x s _ ih =>
    obtain ⟨h1, h2, -⟩ := step_run_fields d x s
    rw [h1, h2]; exact stepRun_light d x s ih
  | fromJson rootJ s _ ih =>
    obtain ⟨h1, h2⟩ := (fromJson_settingsOnly s rootJ).run_fields
    rw [h1, h2]; exact ih
  | onSampleRateChange sr s _ ih => rw [onSampleRateChange_eq]; exact ih
  | onAction item s _ ih =>
    obtain ⟨h1, h2⟩ := (onAction_settingsOnly item s).run_fields
    rw [h1, h2]; exact ih

theorem truncToInt_zero : truncToInt 0 = 0 := by
  simp [truncToInt]

theorem step_gateState (d : Deps) (x : Sample) (s : Topograph) (j : Fin 6) :
    (step d x s).gateState j =
      (updateOutputs d (stepAdvance d (stepControl d x s))).gateState j ∧
    (stepAdvance d (stepControl d x s)).gateState j =
      (if (stepControl d x s).advStep = true ∧
          d.getDrumState (step d x s).grids j.val = true then true
        else s.gateState j) := by
  obtain ⟨-, -, h3, -, -, -⟩ := stepControl_frame d x s
  rw [step_grids]
  simp only [step, updateUI_eq, stepAdvance_eq, h3, true_and]
  split_ifs <;> simp_all

theorem fromJsonSequencerMode_eq (rootJ : JsonObject) (t : Topograph) :
    fromJsonSequencerMode rootJ t =
      { t with
        sequencerMode := (match json_object_get rootJ "sequencerMode" with
          | some j => enumCast (json_integer_value j)
          | none => t.sequencerMode)
        grids := (match json_object_get rootJ "sequencerMode" with
          | some j =>
            if enumCast (json_integer_value j) = HENRI then
              t.grids.call (PatternGeneratorCall.setPatternMode PATTERN_HENRI)
            else if enumCast (json_integer_value j) = OLIVIER then
              t.grids.call (PatternGeneratorCall.setPatternMode PATTERN_OLIVIER)
            else if enumCast (json_integer_value j) = EUCLIDEAN then
              t.grids.call (PatternGeneratorCall.setPatternMode PATTERN_EUCLIDEAN)
            else t.grids
          | none => t.grids) } := by
  simp only [fromJsonSequencerMode]; split <;> [split_ifs <;> rfl; rfl]

theorem fromJsonTriggerOutputMode_eq (rootJ : JsonObject) (t : Topograph) :
    fromJsonTriggerOutputMode rootJ t =
      { t with
        triggerOutputMode := (match json_object_get rootJ "triggerOutputMode" with
          | some j => enumCast (json_integer_value j)
          | none => t.triggerOutputMode) } := by
  simp only [fromJsonTriggerOutputMode]; split <;> rfl

theorem fromJsonAccOutputMode_eq (rootJ : JsonObject) (t : Topograph) :
    fromJsonAccOutputMode rootJ t =
      { t with
        accOutputMode := (match json_object_get rootJ "accOutputMode" with
          | some j => enumCast (json_integer_value j)
          | none => t.accOutputMode)
        grids := (match json_object_get rootJ "accOutputMode" with
          | some j =>
            if enumCast (json_integer_value j) = INDIVIDUAL_ACCENTS then
              t.grids.call (PatternGeneratorCall.setAccentAltMode false)
            else if enumCast (json_integer_value j) = ACC_CLK_RST then
              t.grids.call (PatternGeneratorCall.setAccentAltMode true)
            else t.grids
          | none => t.grids) } := by
  simp only [fromJsonAccOutputMode]; split <;> [split_ifs <;> rfl; rfl]

theorem fromJsonExtClockResolution_eq (rootJ : JsonObject) (t : Topograph) :
    fromJsonExtClockResolution rootJ t =
      { t with
        extClockResolution := (match json_object_get rootJ "extClockResolution" with
          | some j => enumCast (json_integer_value j)
          | none => t.extClockResolution)
        grids := (match json_object_get rootJ "extClockResolution" with
          | some _ => t.grids.call PatternGeneratorCall.reset
          | none => t.grids) } := by
  simp only [fromJsonExtClockResolution]; split <;> rfl

theorem fromJsonChaosKnobMode_eq (rootJ : JsonObject) (t : Topograph) :
    fromJsonChaosKnobMode rootJ t =
      { t with
        chaosKnobMode := (match json_object_get rootJ "chaosKnobMode" with
          | some j => enumCast (json_integer_value j)
          | none => t.chaosKnobMode) } := by
  simp only [fromJsonChaosKnobMode]; split <;> rfl

theorem fromJsonRunMode_eq (rootJ : JsonObject) (t : Topograph) :
    fromJsonRunMode rootJ t =
      { t with
        runMode := (match json_object_get rootJ "runMode" with
          | some j => enumCast (json_integer_value j)
          | none => t.runMode) } := by
  simp only [fromJsonRunMode]; split <;> rfl

theorem fromJsonPanelStyle_eq (rootJ : JsonObject) (t : Topograph) :
    fromJsonPanelStyle rootJ t =
      { t with
        panelStyle := (match json_object_get rootJ "panelStyle" with
          | some j => intCast (json_integer_value j)
          | none => t.panelStyle) } := by
  simp only [fromJsonPanelStyle]; split <;> rfl

theorem fromJson_fields (s : Topograph) (rootJ : JsonObject) :
    (fromJson s rootJ).sequencerMode =
      (match json_object_get rootJ "sequencerMode" with
        | some j => enumCast (json_integer_value j)
        | none => s.sequencerMode) ∧
    (fromJson s rootJ).triggerOutputMode =
      (match json_object_get rootJ "triggerOutputMode" with
        | some j => enumCast (json_integer_value j)
        | none => s.triggerOutputMode) ∧
    (fromJson s rootJ).accOutputMode =
      (match json_object_get rootJ "accOutputMode" with
        | some j => enumCast (json_integer_value j)
        | none => s.accOutputMode) ∧
    (fromJson s rootJ).extClockResolution =
      (match json_object_get rootJ "extClockResolution" with
        | some j => enumCast (json_integer_value j)
        | none => s.extClockResolution) ∧
    (fromJson s rootJ).chaosKnobMode =
      (match json_object_get rootJ "chaosKnobMode" with
        | some j => enumCast (json_integer_value j)
        | none => s.chaosKnobMode) ∧
    (fromJson s rootJ).runMode =
      (match json_object_get rootJ "runMode" with
        | some j => enumCast (json_integer_value j)
        | none => s.runMode) ∧
    (fromJson s rootJ).panelStyle =
      (match json_object_get rootJ "panelStyle" with
        | some j => intCast (json_integer_value j)
        | none => s.panelStyle) := by
  simp only [fromJson, fromJsonPanelStyle_eq, fromJsonRunMode_eq, fromJsonChaosKnobMode_eq,
    fromJsonExtClockResolution_eq, fromJsonAccOutputMode_eq, fromJsonTriggerOutputMode_eq,
    fromJsonSequencerMode_eq, and_self]

end Topograph

theorem json_object_get_set_new (o : JsonObject) (k : String) (v : Json) (k' : String) :
    json_object_get (json_object_set_new o k v) k' =
      if k' = k then some v else json_object_get o k' := by
  unfold json_object_get json_object_set_new
  induction o with
  | nil =>
    by_cases h : k' = k
    · subst h; simp [List.lookup]
    · have e : (k' == k) = false := by simpa using h
      simp [List.lookup, e, h]
  | cons a t ih =>
    obtain ⟨a1, a2⟩ := a
    by_cases ha : a1 = k
    · have e2 : (a1 != k) = false := by simp [ha]
      by_cases h : k' = k
      · simp only [List.filter_cons, e2, h, if_true] at ih ⊢
        exact ih
      · have e1 : (k' == a1) = false := by rw [ha]; simpa using h
        simp only [List.filter_cons, e2, h, if_false, List.lookup_cons, e1] at ih ⊢
        exact ih
    · have e2 : (a1 != k) = true := by simpa using ha
      by_cases h3 : k' = a1
      · have e1 : (k' == a1) = true := by simp [h3]
        have hk : ¬ k' = k := by rw [h3]; exact ha
        simp only [List.filter_cons, e2, if_true, List.cons_append, List.lookup_cons, e1, hk,
          if_false]
      · have e1 : (k' == a1) = false := by simpa using h3
        simp only [List.filter_cons, e2, if_true, List.cons_append, List.lookup_cons, e1]
        exact ih

theorem enumCast_of_range (v : Int) (h0 : 0 ≤ v) (h1 : v < 4294967296) : enumCast v = v := by
  unfold enumCast; omega

theorem intCast_of_range (v : Int) (h0 : -2147483648 ≤ v) (h1 : v < 2147483648) :
    intCast v = v := by
  unfold intCast; omega

namespace Topograph

open ParamIds InputIds OutputIds LightIds PatternGeneratorMode

theorem toJson_get (m : Topograph) :
    json_object_get (toJson m) "sequencerMode" = some (Json.integer m.sequencerMode) ∧
    json_object_get (toJson m) "triggerOutputMode" = some (Json.integer m.triggerOutputMode) ∧
    json_object_get (toJson m) "accOutputMode" = some (Json.integer m.accOutputMode) ∧
    json_object_get (toJson m) "extClockResolution" = some (Json.integer m.extClockResolution) ∧
    json_object_get (toJson m) "chaosKnobMode" = some (Json.integer m.chaosKnobMode) ∧
    json_object_get (toJson m) "runMode" = some (Json.integer m.runMode) ∧
    json_object_get (toJson m) "panelStyle" = some (Json.integer m.panelStyle) := by
  simp [toJson, json_object_get_set_new, json_integer]


/-! ## Control bytes and pattern-generator calls -/

theorem clamp_unit (v : Rat) : 0 ≤ clamp v 0 1 ∧ clamp v 0 1 ≤ 1 := by
  unfold clamp
  exact ⟨le_min (le_max_right _ _) (by norm_num), min_le_right _ _⟩

theorem toUInt8_of_range (q : Rat) (h0 : 0 ≤ q) (h1 : q ≤ 255) : toUInt8 q = ⌊q⌋.toNat := by
  have hf0 : 0 ≤ ⌊q⌋ := Int.floor_nonneg.mpr h0
  have hf1 : ⌊q⌋ ≤ 255 := by
    have : ⌊q⌋ ≤ ⌊(255 : Rat)⌋ := Int.floor_le_floor h1
    simpa using this
  unfold toUInt8 truncToInt
  rw [if_pos h0, Int.emod_eq_of_lt hf0 (by omega)]

theorem toUInt8_clamp (knob cv : Rat) :
    toUInt8 (clamp (controlSum knob cv) 0 1 * 255) = controlByte knob cv := by
  obtain ⟨h0, h1⟩ := clamp_unit (controlSum knob cv)
  rw [toUInt8_of_range _ (by positivity) (by linarith), controlByte, mul_comm]

theorem pushControls_stepControls (d : Deps) (x : Sample) (t : Topograph) :
    pushControls (stepControls d x t) = t.grids ++ controlCalls x := by
  simp only [pushControls, stepControls_eq, toUInt8_clamp, controlCalls, PatternGenerator.call,
    List.append_assoc, List.singleton_append, List.cons_append, List.nil_append]

theorem stepControl_grids (d : Deps) (x : Sample) (s : Topograph) :
    (stepControl d x s).grids =
      s.grids ++
        ((if resetEvent d x s = true then [PatternGeneratorCall.reset] else []) ++
          (if x.params TEMPO_PARAM < 1 / 100 ∧ s.initExtReset = true then
            [PatternGeneratorCall.reset] else []) ++
          (if (stepRun d x s).running ≠ 0 then controlCalls x else [])) := by
  have hp := pushControls_stepControls d x
    (stepClockSelect d (stepTempo d x (stepReset d x (stepRun d x s))))
  have hrun : (stepControls d x
      (stepClockSelect d (stepTempo d x (stepReset d x (stepRun d x s))))).running =
      (stepRun d x s).running := by
    simp only [stepControls_eq, stepClockSelect_eq, stepTempo_eq, stepReset_eq]
  have hg : (stepClockSelect d (stepTempo d x (stepReset d x (stepRun d x s)))).grids =
      s.grids ++
        ((if resetEvent d x s = true then [PatternGeneratorCall.reset] else []) ++
          (if x.params TEMPO_PARAM < 1 / 100 ∧ s.initExtReset = true then
            [PatternGeneratorCall.reset] else [])) := by
    simp only [stepClockSelect_eq, stepTempo_eq, stepReset_eq, stepRun_eq, resetEvent,
      PatternGenerator.call]
    split_ifs <;> simp
  have hcg : (stepControls d x
      (stepClockSelect d (stepTempo d x (stepReset d x (stepRun d x s))))).grids =
      (stepClockSelect d (stepTempo d x (stepReset d x (stepRun d x s)))).grids := by
    simp only [stepControls_eq]
  unfold stepControl
  rw [stepRunning_eq]
  show (if _ then _ else _) = _
  rw [hrun, hp, hcg, hg]
  split_ifs <;> simp

theorem step_grids_calls (d : Deps) (x : Sample) (s : Topograph) :
    newCalls s.grids (step d x s).grids =
      (if resetEvent d x s = true then [PatternGeneratorCall.reset] else []) ++
        (if x.params TEMPO_PARAM < 1 / 100 ∧ s.initExtReset = true then
          [PatternGeneratorCall.reset] else []) ++
        (if (stepRun d x s).running ≠ 0 then controlCalls x else []) ++
        (if (stepControl d x s).advStep = true then
          [PatternGeneratorCall.tick (stepControl d x s).numTicks] else []) := by
  rw [step_grids, stepControl_grids]
  split_ifs <;> simp [newCalls, PatternGenerator.call]

theorem controlByte_le (knob cv : Rat) : controlByte knob cv ≤ 255 := by
  obtain ⟨h0, h1⟩ := clamp_unit (controlSum knob cv)
  have hf : ⌊255 * clamp (controlSum knob cv) 0 1⌋ ≤ ⌊(255 : Rat)⌋ :=
    Int.floor_le_floor (by linarith)
  have hf2 : ⌊255 * clamp (controlSum knob cv) 0 1⌋ ≤ 255 := by simpa using hf
  unfold controlByte
  omega

theorem controlByte_mono (knob cv knob2 cv2 : Rat)
    (h : controlSum knob cv ≤ controlSum knob2 cv2) :
    controlByte knob cv ≤ controlByte knob2 cv2 := by
  have hc : clamp (controlSum knob cv) 0 1 ≤ clamp (controlSum knob2 cv2) 0 1 := by
    unfold clamp
    exact min_le_min (max_le_max h le_rfl) le_rfl
  have hf : ⌊255 * clamp (controlSum knob cv) 0 1⌋ ≤
      ⌊255 * clamp (controlSum knob2 cv2) 0 1⌋ :=
    Int.floor_le_floor (by linarith)
  unfold controlByte
  exact Int.toNat_le_toNat hf

/-- The `float` sum of a control is monotone in the knob value and in the CV
voltage. -/
theorem controlSum_mono {knob cv knob2 cv2 : Rat} (hk : knob ≤ knob2) (hc : cv ≤ cv2) :
    controlSum knob cv ≤ controlSum knob2 cv2 := by
  unfold controlSum floatAdd floatDiv
  have h1 : roundFloat (cv / 10) ≤ roundFloat (cv2 / 10) :=
    roundFloat_mono (div_le_div_of_nonneg_right hc (by norm_num))
  exact roundFloat_mono (add_le_add hk h1)

/-- The `float` sum of knob 0.5 and CV -3 V is `3355443 / 2^24`, just below 0.2. -/
theorem controlSum_half_minus_three : controlSum (1 / 2) (-3) = 3355443 / 16777216 := by
  have h1 : roundFloat (-3 / 10) = -5033165 / 16777216 := by
    rw [roundFloat_eval (-3 / 10) (-2) (-10066330) (by norm_num) (by norm_num [abs_of_neg])
      (by norm_num [abs_of_neg]) (Or.inl (by norm_num [abs_lt]))]
    norm_num
  unfold controlSum floatAdd floatDiv
  rw [h1]
  rw [roundFloat_eval (1 / 2 + -5033165 / 16777216) (-3) 13421772 (by norm_num)
    (by norm_num [abs_of_pos]) (by norm_num [abs_of_pos]) (Or.inl (by norm_num [abs_lt]))]
  norm_num

theorem lengthText_clamp (v : Rat) :
    lengthText (clamp v 0 1) = toString (euclideanLength (clamp v 0 1)) := by
  obtain ⟨h0, h1⟩ := clamp_unit v
  unfold lengthText euclideanLength
  rw [toUInt8_of_range _ (by positivity) (by linarith), mul_comm]

theorem step_texts (d : Deps) (x : Sample) (s : Topograph) :
    (step d x s).mapXText =
      (if d.getPatternMode
          (stepClockSelect d (stepTempo d x (stepReset d x (stepRun d x s)))).grids =
            PATTERN_EUCLIDEAN then
        "1 Len: " ++ lengthText (clamp (controlSum (x.params MAPX_PARAM) (x.inputs MAPX_CV)) 0 1)
      else "Map X") ∧
    (step d x s).mapYText =
      (if d.getPatternMode
          (stepClockSelect d (stepTempo d x (stepReset d x (stepRun d x s)))).grids =
            PATTERN_EUCLIDEAN then
        "2 Len: " ++ lengthText (clamp (controlSum (x.params MAPY_PARAM) (x.inputs MAPY_CV)) 0 1)
      else "Map Y") ∧
    (step d x s).chaosText =
      (if d.getPatternMode
          (stepClockSelect d (stepTempo d x (stepReset d x (stepRun d x s)))).grids =
            PATTERN_EUCLIDEAN then
        "3 Len: " ++ lengthText (clamp (controlSum (x.params CHAOS_PARAM) (x.inputs CHAOS_CV)) 0 1)
      else "Chaos") ∧
    (step d x s).mapX = clamp (controlSum (x.params MAPX_PARAM) (x.inputs MAPX_CV)) 0 1 ∧
    (step d x s).mapY = clamp (controlSum (x.params MAPY_PARAM) (x.inputs MAPY_CV)) 0 1 ∧
    (step d x s).chaos = clamp (controlSum (x.params CHAOS_PARAM) (x.inputs CHAOS_CV)) 0 1 := by
  simp only [step, stepControl, updateUI_eq, updateOutputs_eq, stepAdvance_eq, stepRunning_eq,
    stepControls_eq, and_self]

theorem euclideanLength_range (v : Rat) (h1 : v ≤ 1) :
    1 ≤ euclideanLength v ∧ euclideanLength v ≤ 32 := by
  have hf : ⌊255 * v⌋ ≤ ⌊(255 : Rat)⌋ := Int.floor_le_floor (by linarith)
  have hf2 : ⌊255 * v⌋ ≤ 255 := by simpa using hf
  unfold euclideanLength
  rw [Nat.shiftRight_eq_div_pow]
  constructor
  · omega
  · have : ⌊255 * v⌋.toNat ≤ 255 := by omega
    omega

/-! ## Counters and the step advance -/

theorem step_elapsedTicks (d : Deps) (x : Sample) (s : Topograph) :
    (step d x s).elapsedTicks =
      if (stepRun d x s).running ≠ 0 ∧ ¬ x.params TEMPO_PARAM < 1 / 100 ∧
          d.hasTicked (step d x s).metro = true then
        Int.tmod ((if resetEvent d x s = true then 0 else s.elapsedTicks) + 1) 12
      else (if resetEvent d x s = true then 0 else s.elapsedTicks) := by
  rw [step_metro]
  simp only [step, stepControl, updateUI_eq, updateOutputs_eq, stepAdvance_eq, stepRunning_eq,
    stepControls_eq, stepClockSelect_eq, stepTempo_eq, stepReset_eq, stepRun_eq, resetEvent,
    runEvent]
  by_cases ht : x.params TEMPO_PARAM < 1 / 100 <;>
    simp only [ht, if_true, if_false, Bool.true_eq_false, Bool.false_eq_true, and_false,
      false_and, not_true_eq_false, not_false_eq_true, true_and, and_true, eq_self_iff_true]

theorem SettingsOnly.counters {s t : Topograph} (h : SettingsOnly s t) :
    t.seqStep = s.seqStep ∧ t.elapsedTicks = s.elapsedTicks ∧
    t.initExtReset = s.initExtReset := by
  unfold SettingsOnly at h; rw [h]; exact ⟨rfl, rfl, rfl⟩

theorem step_counters_range (d : Deps) (x : Sample) (s : Topograph)
    (hs : 0 ≤ s.seqStep ∧ s.seqStep ≤ 31)
    (he : 0 ≤ s.elapsedTicks ∧ s.elapsedTicks ≤ 11) :
    (0 ≤ (step d x s).seqStep ∧ (step d x s).seqStep ≤ 31) ∧
    (0 ≤ (step d x s).elapsedTicks ∧ (step d x s).elapsedTicks ≤ 11) := by
  constructor
  · rw [step_seqStep, stepControl_seqStep]
    split_ifs <;> omega
  · rw [step_elapsedTicks]
    have hm : ∀ e : Int, 0 ≤ e → e ≤ 11 →
        0 ≤ Int.tmod (e + 1) 12 ∧ Int.tmod (e + 1) 12 ≤ 11 := by
      intro e h0 h1
      rw [Int.tmod_eq_emod (by omega) (by omega)]
      omega
    split_ifs
    · exact hm 0 le_rfl (by omega)
    · exact hm _ he.1 he.2
    · omega
    · exact he

theorem reachable_counters (d : Deps) (s : Topograph) (h : Reachable d s) :
    (0 ≤ s.seqStep ∧ s.seqStep ≤ 31) ∧
    (0 ≤ s.elapsedTicks ∧ s.elapsedTicks ≤ 11) := by
  induction h with
  | construct sr => simp [construct]
  | step x s _ ih => exact step_counters_range d x s ih.1 ih.2
  | fromJson rootJ s _ ih =>
    obtain ⟨h1, h2, -⟩ := (fromJson_settingsOnly s rootJ).counters
    rw [h1, h2]; exact ih
  | onSampleRateChange sr s _ ih => rw [onSampleRateChange_eq]; exact ih
  | onAction item s _ ih =>
    obtain ⟨h1, h2, -⟩ := (onAction_settingsOnly item s).counters
    rw [h1, h2]; exact ih

theorem advStep_iff (d : Deps) (x : Sample) (s : Topograph) (ha : s.advStep = false) :
    (stepControl d x s).advStep = true ↔ AdvanceCondition d x s := by
  unfold AdvanceCondition
  rw [stepControl_advStep, ha, step_metro]
  by_cases hr : (stepRun d x s).running = 0
  · simp [hr]
  · by_cases ht : x.params TEMPO_PARAM < 1 / 100
    · have hn : ¬ (1 / 100 ≤ x.params TEMPO_PARAM) := not_le.mpr ht
      simp only [ne_eq, hr, not_false_eq_true, if_true, ht, true_and, hn, false_and, or_false]
      by_cases hf : SchmittTrigger.fires d s.clockTrig (x.inputs CLOCK_INPUT) = true <;> simp [hf]
    · have hn : 1 / 100 ≤ x.params TEMPO_PARAM := not_lt.mp ht
      simp only [ne_eq, hr, not_false_eq_true, if_true, ht, if_false, false_and, hn, true_and,
        false_or]

theorem metroProcessCount_calls (d : Deps) (x : Sample) (s : Topograph) :
    metroProcessCount (newCalls s.metro (step d x s).metro) =
      if x.params TEMPO_PARAM < 1 / 100 then 0 else 1 := by
  rw [step_metro, stepControl_metro, newCalls_append]
  unfold metroProcessCount
  split_ifs <;> simp

theorem stepAdvance_drumTriggers (d : Deps) (x : Sample) (s : Topograph) (j : Fin 6) :
    (stepAdvance d (stepControl d x s)).drumTriggers j =
      (if (stepControl d x s).advStep = true ∧
          d.getDrumState (step d x s).grids j.val = true then (s.drumTriggers j).trigger
        else s.drumTriggers j) := by
  obtain ⟨h1, -, -, -, -, -⟩ := stepControl_frame d x s
  rw [step_grids]
  simp only [stepAdvance_eq, h1]
  split_ifs <;> simp_all

theorem armVoice_accent (d : Deps) (t : Topograph) (i : Fin 6) (h : 3 ≤ i.val) :
    (armVoice d t i).drumLED = t.drumLED := by
  rw [armVoice_eq]
  funext k
  have hk : ¬ k.val = i.val := by omega
  simp [hk]

theorem step_initExtReset (d : Deps) (x : Sample) (s : Topograph) :
    (step d x s).initExtReset = (if x.params TEMPO_PARAM < 1 / 100 then false else true) := by
  simp only [step, stepControl, updateUI_eq, updateOutputs_eq, stepAdvance_eq, stepRunning_eq,
    stepControls_eq, stepClockSelect_eq, stepTempo_eq]

theorem resetCount_calls (d : Deps) (x : Sample) (s : Topograph) :
    resetCount (newCalls s.grids (step d x s).grids) =
      (if resetEvent d x s = true then 1 else 0) +
      (if x.params TEMPO_PARAM < 1 / 100 ∧ s.initExtReset = true then 1 else 0) := by
  rw [step_grids_calls]
  unfold resetCount controlCalls
  split_ifs <;> simp

theorem implicitReset_run (d : Deps) (xs : List Sample) :
    ∀ (prev : Option Rat) (s : Topograph),
      s.initExtReset =
        (match prev with
          | none => true
          | some p => decide (1 / 100 ≤ p)) →
      ImplicitResetOnEntry d prev s xs := by
  induction xs with
  | nil => intro _ _ _; trivial
  | cons x xs ih =>
    intro prev s hinit
    refine ⟨?_, ih (some (x.params TEMPO_PARAM)) (step d x s) ?_⟩
    · rw [resetCount_calls, hinit]
      unfold entersExternal
      congr 1
      cases prev <;> by_cases ht : x.params TEMPO_PARAM < 1 / 100 <;> simp [ht]
    · rw [step_initExtReset]
      by_cases ht : x.params TEMPO_PARAM < 1 / 100
      · rw [if_pos ht]
        exact (decide_eq_false (not_le.mpr ht)).symm
      · rw [if_neg ht]
        exact (decide_eq_true (not_lt.mp ht)).symm

/-! ## `process()` calls on the one-shots -/

theorem processCount_drumTriggers (d : Deps) (x : Sample) (s : Topograph) (i : Fin 6) :
    processCount (newCalls (s.drumTriggers i) ((step d x s).drumTriggers i)) =
      if s.triggerOutputMode = PULSE then 1 else 0 := by
  rw [step_drumTriggers]
  unfold processCount newCalls Oneshot.process Oneshot.trigger
  split_ifs <;> simp

theorem processCount_drumLED (d : Deps) (x : Sample) (s : Topograph) (k : Fin 3) :
    processCount (newCalls (s.drumLED k) ((step d x s).drumLED k)) = 1 := by
  rw [step_drumLED]
  unfold processCount newCalls Oneshot.process Oneshot.trigger
  split_ifs <;> simp

theorem processCount_resetLed (d : Deps) (x : Sample) (s : Topograph) :
    processCount (newCalls s.resetLed (step d x s).resetLed) = 1 := by
  rw [step_resetLed]
  unfold processCount newCalls Oneshot.process Oneshot.trigger
  split_ifs <;> simp

/-! ## The external clock resolution -/

theorem step_numTicks (d : Deps) (x : Sample) (s : Topograph) :
    (step d x s).numTicks =
      (if x.params TEMPO_PARAM < 1 / 100 then d.ticks_granularity s.extClockResolution
        else d.ticks_granularity 2) ∧
    (step d x s).extClockResolution = s.extClockResolution := by
  simp only [step, stepControl, updateUI_eq, updateOutputs_eq, stepAdvance_eq, stepRunning_eq,
    stepControls_eq, stepClockSelect_eq, stepTempo_eq, stepReset_eq, stepRun_eq, and_self]

theorem onAction_resolution (item : MenuItem) (s : Topograph)
    (h : s.extClockResolution = EXTCLOCK_RES_4_PPQN ∨
      s.extClockResolution = EXTCLOCK_RES_8_PPQN ∨
      s.extClockResolution = EXTCLOCK_RES_24_PPQN) :
    (item.onAction s).extClockResolution = EXTCLOCK_RES_4_PPQN ∨
      (item.onAction s).extClockResolution = EXTCLOCK_RES_8_PPQN ∨
      (item.onAction s).extClockResolution = EXTCLOCK_RES_24_PPQN := by
  cases item
  case res4 => exact Or.inl rfl
  case res8 => exact Or.inr (Or.inl rfl)
  case res24 => exact Or.inr (Or.inr rfl)
  all_goals exact h

theorem reachableInRange_resolution (d : Deps) (s : Topograph) (h : ReachableInRange d s) :
    s.extClockResolution = EXTCLOCK_RES_4_PPQN ∨ s.extClockResolution = EXTCLOCK_RES_8_PPQN ∨
      s.extClockResolution = EXTCLOCK_RES_24_PPQN := by
  induction h with
  | construct sr => exact Or.inr (Or.inr rfl)
  | step x s _ ih => rw [(step_numTicks d x s).2]; exact ih
  | fromJson rootJ s hj _ ih =>
    rw [(fromJson_fields s rootJ).2.2.2.1]
    cases hg : json_object_get rootJ "extClockResolution" with
    | none => exact ih
    | some j =>
      show enumCast (json_integer_value j) = _ ∨ enumCast (json_integer_value j) = _ ∨
        enumCast (json_integer_value j) = _
      rcases hj j hg with h | h | h <;> rw [h]
      · exact Or.inl rfl
      · exact Or.inr (Or.inl rfl)
      · exact Or.inr (Or.inr rfl)
  | onSampleRateChange sr s _ ih => rw [onSampleRateChange_eq]; exact ih
  | onAction item s _ ih => exact onAction_resolution item s ih

theorem resolutionFive_get :
    json_object_get resolutionFiveJson "extClockResolution" = some (Json.integer 5) := by
  simp [resolutionFiveJson, json_object_get_set_new, json_integer]

theorem resolutionFive_resolution : resolutionFiveState.extClockResolution = 5 := by
  unfold resolutionFiveState
  rw [(fromJson_fields _ _).2.2.2.1, resolutionFive_get]
  rfl

/-! ## The run level in momentary run mode -/

theorem truncToInt_spec (q : Rat) :
    (0 ≤ q → ((truncToInt q : Int) : Rat) ≤ q ∧ q < (truncToInt q : Int) + 1) ∧
    (q < 0 → q ≤ ((truncToInt q : Int) : Rat) ∧ ((truncToInt q : Int) : Rat) - 1 < q) := by
  unfold truncToInt
  constructor
  · intro h
    rw [if_pos h]
    exact ⟨Int.floor_le q, Int.lt_floor_add_one q⟩
  · intro h
    rw [if_neg (not_le.mpr h)]
    have h2 := Int.ceil_lt_add_one q
    exact ⟨Int.le_ceil q, by linarith⟩

theorem truncToInt_eq_zero (q : Rat) (h1 : -1 < q) (h2 : q < 1) : truncToInt q = 0 := by
  unfold truncToInt
  split_ifs with h
  · exact Int.floor_eq_zero_iff.mpr ⟨h, h2⟩
  · exact Int.ceil_eq_zero_iff.mpr ⟨h1, le_of_lt (not_le.mp h)⟩

theorem truncToInt_ne_zero (q : Rat) (h : 1 ≤ q ∨ q ≤ -1) : truncToInt q ≠ 0 := by
  unfold truncToInt
  rcases h with h | h
  · rw [if_pos (by linarith)]
    have : (1 : Int) ≤ ⌊q⌋ := Int.le_floor.mpr (by simpa using h)
    omega
  · rw [if_neg (by linarith)]
    have : ⌈q⌉ ≤ (-1 : Int) := Int.ceil_le.mpr (by simpa using h)
    omega

theorem floatToInt_of_range (q : Rat) (h1 : -2147483649 < q) (h2 : q < 2147483648) :
    floatToInt q = truncToInt q := by
  obtain ⟨t1, t2⟩ := truncToInt_spec q
  unfold floatToInt
  rw [if_pos]
  rcases le_or_lt 0 q with h | h
  · obtain ⟨a, b⟩ := t1 h
    have hlt : ((truncToInt q : Int) : Rat) < 2147483648 := lt_of_le_of_lt a h2
    have h0 : (0 : Rat) < (truncToInt q : Int) + 1 := lt_of_le_of_lt h b
    have hlt2 : truncToInt q < 2147483648 := by exact_mod_cast hlt
    have h02 : 0 < truncToInt q + 1 := by exact_mod_cast h0
    omega
  · obtain ⟨a, b⟩ := t2 h
    have hgt : (-2147483649 : Rat) < (truncToInt q : Int) := lt_of_lt_of_le h1 a
    have h0 : ((truncToInt q : Int) : Rat) - 1 < 0 := lt_trans b h
    have hgt2 : -2147483649 < truncToInt q := by exact_mod_cast hgt
    have h02 : truncToInt q - 1 < 0 := by exact_mod_cast h0
    omega

theorem floatToInt_eq_zero (q : Rat) (h1 : -1 < q) (h2 : q < 1) : floatToInt q = 0 := by
  rw [floatToInt_of_range q (by linarith) (by linarith)]
  exact truncToInt_eq_zero q h1 h2

theorem floatToInt_ne_zero (q : Rat) (h : 1 ≤ q ∨ q ≤ -1) : floatToInt q ≠ 0 := by
  unfold floatToInt
  split_ifs
  · exact truncToInt_ne_zero q h
  · decide

theorem floatToInt_eq_zero_iff (q : Rat) : floatToInt q = 0 ↔ -1 < q ∧ q < 1 := by
  constructor
  · intro h0
    by_contra hc
    have : 1 ≤ q ∨ q ≤ -1 := by
      by_contra hn
      push_neg at hn
      exact hc ⟨hn.2, hn.1⟩
    exact floatToInt_ne_zero q this h0
  · rintro ⟨h1, h2⟩
    exact floatToInt_eq_zero q h1 h2

theorem floatAdd_zero_zero : floatAdd 0 0 = 0 := by
  unfold floatAdd
  rw [add_zero, roundFloat_zero]

/-- The largest sum that still rounds below 1: a sum rounds to a `float` below 1
exactly when it is below `1 - 2^-25`, the middle between 1 and the `float` before
it. -/
theorem roundFloat_lt_one_iff (q : Rat) : roundFloat q < 1 ↔ q < 1 - 1 / 33554432 := by
  constructor
  · intro h
    by_contra hc
    have hge : 1 - 1 / 33554432 ≤ q := not_lt.mp hc
    have h1 : roundFloat (1 - 1 / 33554432) = 1 := by
      rw [roundFloat_eval (1 - 1 / 33554432) (-1) 16777216 (by norm_num)
        (by norm_num [abs_of_pos]) (by norm_num [abs_of_pos])
        (Or.inr ⟨by norm_num [abs_of_neg], by decide⟩)]
      norm_num
    have := roundFloat_mono hge
    rw [h1] at this
    linarith
  · intro h
    rcases lt_or_le q (1 / 2) with hq | hq
    · have h1 : roundFloat (1 / 2) = 1 / 2 := by
        simpa using roundFloat_zpow (-1) (by norm_num)
      have := roundFloat_mono hq.le
      rw [h1] at this
      linarith
    · have ha : |q| = q := abs_of_nonneg (by linarith)
      have he : floatExponent q = -1 :=
        floatExponent_eq q (-1) (by norm_num) (by rw [ha]; norm_num; linarith)
          (by rw [ha]; norm_num; linarith)
      unfold roundFloat
      rw [he]
      have hr := roundNearestEven_le (q / 2 ^ ((-1 : Int) - 23))
      have hq2 : q / 2 ^ ((-1 : Int) - 23) + 1 / 2 < 16777216 := by
        norm_num
        linarith
      have hlt : ((roundNearestEven (q / 2 ^ ((-1 : Int) - 23)) : Int) : Rat) < 16777216 :=
        lt_of_le_of_lt hr hq2
      have hlt2 : roundNearestEven (q / 2 ^ ((-1 : Int) - 23)) ≤ 16777215 := by
        have : roundNearestEven (q / 2 ^ ((-1 : Int) - 23)) < 16777216 := by exact_mod_cast hlt
        omega
      have hlt3 : ((roundNearestEven (q / 2 ^ ((-1 : Int) - 23)) : Int) : Rat) ≤ 16777215 := by
        exact_mod_cast hlt2
      have h2 : (2 : Rat) ^ ((-1 : Int) - 23) = 1 / 16777216 := by norm_num
      rw [h2] at hlt3 ⊢
      linarith

theorem neg_one_lt_roundFloat_iff (q : Rat) :
    -1 < roundFloat q ↔ -(1 - 1 / 33554432) < q := by
  have h := roundFloat_lt_one_iff (-q)
  rw [roundFloat_neg] at h
  constructor
  · intro h1
    have := h.mp (by linarith)
    linarith
  · intro h1
    have := h.mpr (by linarith)
    linarith

/-- A sum of at least 1 rounds to a `float` of at least 1. -/
theorem one_le_roundFloat {q : Rat} (h : 1 ≤ q) : 1 ≤ roundFloat q := by
  have := roundFloat_mono h
  rwa [roundFloat_one] at this

theorem step_momentary (d : Deps) (x : Sample) (s : Topograph) (hm : s.runMode = MOMENTARY) :
    (step d x s).running =
      floatToInt (floatAdd (x.params RUN_BUTTON_PARAM) (x.inputs RUN_INPUT)) ∧
    (step d x s).lights RUNNING_LIGHT =
      runningLightValue (floatToInt (floatAdd (x.params RUN_BUTTON_PARAM) (x.inputs RUN_INPUT))) ∧
    (floatToInt (floatAdd (x.params RUN_BUTTON_PARAM) (x.inputs RUN_INPUT)) = 0 →
      (newCalls s.metro (step d x s).metro).head? = some MetronomeCall.reset) := by
  have hnt : ¬ s.runMode = TOGGLE := by rw [hm]; decide
  obtain ⟨h1, h2, -⟩ := step_run_fields d x s
  refine ⟨?_, ?_, ?_⟩
  · rw [h1]; simp [stepRun_eq, hnt]
  · rw [h2]; simp [stepRun_eq, hnt]
  · intro h0
    rw [step_metro, stepControl_metro, newCalls_append]
    simp [hnt, h0]


/-! ## The stopped reference state -/

theorem stoppedState_fields :
    stoppedState.runMode = TOGGLE ∧ stoppedState.running = 0 ∧
    stoppedState.runButtonTrig = [0] ∧ stoppedState.runInputTrig = [0] := by
  obtain ⟨h1, -, h3, h4, h5⟩ := step_run_fields refDeps idleSample (construct refDeps 44100)
  unfold stoppedState
  rw [h1, h3, h4, h5]
  simp [stepRun_eq, construct, runEvent, refDeps, idleSample, SchmittTrigger.fires,
    SchmittTrigger.process, SchmittState.after, TOGGLE]

/-! ## The control sum against the exact sum -/

/-- Rounding a value of [0, 1] to `float` lowers it by at most `2^-25`. -/
theorem sub_le_roundFloat (y : Rat) (h0 : 0 ≤ y) (h1 : y ≤ 1) :
    y - 1 / 33554432 ≤ roundFloat y := by
  rcases eq_or_lt_of_le h1 with h | h
  · rw [h, roundFloat_one]; norm_num
  rcases eq_or_lt_of_le h0 with hz | hpos
  · rw [← hz, roundFloat_zero]; norm_num
  have ha : |y| = y := abs_of_pos hpos
  have he : floatExponent y ≤ -1 := by
    have hl : Int.log 2 |y| < 0 :=
      (Int.lt_zpow_iff_log_lt (b := 2) (by norm_num) (by rw [ha]; exact hpos)).mp
        (by rw [ha]; simpa using h)
    unfold floatExponent
    omega
  have hu0 : (0 : Rat) < 2 ^ (floatExponent y - 23) := zpow_pos (by norm_num) _
  have hu : (2 : Rat) ^ (floatExponent y - 23) ≤ 2 ^ (-24 : Int) :=
    zpow_le_zpow_right₀ (by norm_num) (by omega)
  have hu2 : (2 : Rat) ^ (-24 : Int) = 1 / 16777216 := by norm_num
  rw [hu2] at hu
  have hr := le_roundNearestEven (y / 2 ^ (floatExponent y - 23))
  unfold roundFloat
  have hm := mul_le_mul_of_nonneg_right hr hu0.le
  rw [sub_mul, div_mul_cancel₀ _ (ne_of_gt hu0)] at hm
  linarith

theorem controlByte_of_nonpos (knob cv : Rat) (h : controlSum knob cv ≤ 0) :
    controlByte knob cv = 0 := by
  have hc : clamp (controlSum knob cv) 0 1 = 0 := by
    unfold clamp
    rw [max_eq_right h]
    norm_num
  simp [controlByte, hc]

theorem controlByte_of_one_le (knob cv : Rat) (h : 1 ≤ controlSum knob cv) :
    controlByte knob cv = 255 := by
  have hc : clamp (controlSum knob cv) 0 1 = 1 := by
    unfold clamp
    rw [max_eq_left (by linarith), min_eq_right h]
  simp [controlByte, hc]

/-- For a knob value that is a `float`, an exact sum of at most 0 gives a `float`
sum of at most 0. -/
theorem controlSum_nonpos (knob cv : Rat) (hk : roundFloat knob = knob)
    (h : knob + cv / 10 ≤ 0) : controlSum knob cv ≤ 0 := by
  unfold controlSum floatAdd floatDiv
  have h1 : roundFloat (cv / 10) ≤ roundFloat (-knob) := roundFloat_mono (by linarith)
  rw [roundFloat_neg, hk] at h1
  have h2 := roundFloat_mono (show knob + roundFloat (cv / 10) ≤ 0 by linarith)
  rwa [roundFloat_zero] at h2

/-- For a knob value in [0, 1], an exact sum of at least 1 gives a `float` sum of
at least 1. -/
theorem one_le_controlSum (knob cv : Rat) (h0 : 0 ≤ knob) (h1 : knob ≤ 1)
    (h : 1 ≤ knob + cv / 10) : 1 ≤ controlSum knob cv := by
  unfold controlSum floatAdd floatDiv
  have a1 : roundFloat (1 - knob) ≤ roundFloat (cv / 10) := roundFloat_mono (by linarith)
  have a2 := sub_le_roundFloat (1 - knob) (by linarith) (by linarith)
  by_contra hc
  have := (roundFloat_lt_one_iff _).mp (not_le.mp hc)
  linarith

theorem controlSum_zero : controlSum 0 0 = 0 := by
  unfold controlSum floatAdd floatDiv
  rw [zero_div, roundFloat_zero, add_zero, roundFloat_zero]

theorem controlByte_zero : controlByte 0 0 = 0 :=
  controlByte_of_nonpos 0 0 (by rw [controlSum_zero])

theorem controlByte_half_minus_three : controlByte (1 / 2) (-3) = 50 := by
  unfold controlByte
  rw [controlSum_half_minus_three]
  have hc : clamp (3355443 / 16777216 : Rat) 0 1 = 3355443 / 16777216 := by
    unfold clamp
    rw [max_eq_left (by norm_num), min_eq_left (by norm_num)]
  rw [hc]
  have hf : ⌊(255 : Rat) * (3355443 / 16777216)⌋ = 50 := by
    rw [Int.floor_eq_iff]
    constructor <;> norm_num
  rw [hf]
  rfl

theorem controlCalls_mapXSample :
    controlCalls mapXSample =
      [PatternGeneratorCall.setMapX 50, PatternGeneratorCall.setMapY 0,
       PatternGeneratorCall.setBDDensity 0, PatternGeneratorCall.setSDDensity 0,
       PatternGeneratorCall.setHHDensity 0, PatternGeneratorCall.setRandomness 0,
       PatternGeneratorCall.setEuclideanLength 0 50,
       PatternGeneratorCall.setEuclideanLength 1 0,
       PatternGeneratorCall.setEuclideanLength 2 0] := by
  simp only [controlCalls, mapXSample, controlByte_zero, controlByte_half_minus_three]

theorem runningExternal_mapXSample :
    resetEvent refDeps mapXSample runningExternalState = false ∧
    runningExternalState.initExtReset = false ∧
    (stepRun refDeps mapXSample runningExternalState).running = 1 ∧
    (stepControl refDeps mapXSample runningExternalState).advStep = false := by
  rw [stepControl_advStep]
  norm_num [runningExternalState, step, stepControl, updateUI_eq, updateOutputs_eq,
    stepAdvance_eq, stepRunning_eq, stepControls_eq, stepClockSelect_eq, stepTempo_eq,
    stepReset_eq, stepRun_eq, resetEvent, runEvent, construct, refDeps, idleSample,
    runPressSample, mapXSample, SchmittTrigger.fires, SchmittTrigger.process,
    SchmittState.after, SchmittState.next, TOGGLE]

theorem onAction_resolution_cases (item : MenuItem) (s : Topograph) :
    (item.onAction s).extClockResolution = s.extClockResolution ∨
    (item.onAction s).extClockResolution = EXTCLOCK_RES_4_PPQN ∨
    (item.onAction s).extClockResolution = EXTCLOCK_RES_8_PPQN ∨
    (item.onAction s).extClockResolution = EXTCLOCK_RES_24_PPQN := by
  cases item
  case res4 => exact Or.inr (Or.inl rfl)
  case res8 => exact Or.inr (Or.inr (Or.inl rfl))
  case res24 => exact Or.inr (Or.inr (Or.inr rfl))
  all_goals exact Or.inl rfl

/-! ## The run level at two concrete samples -/

theorem floatAdd_nearOne : floatAdd (16777215 / 16777216) (1 / 33554432) = 1 := by
  unfold floatAdd
  apply le_antisymm
  · have := roundFloat_mono (show (16777215 / 16777216 + 1 / 33554432 : Rat) ≤ 1 by norm_num)
    rwa [roundFloat_one] at this
  · by_contra hc
    have := (roundFloat_lt_one_iff _).mp (not_le.mp hc)
    norm_num at this

theorem floatAdd_overRange : floatAdd 0 3000000000 = 3000000000 := by
  unfold floatAdd
  rw [roundFloat_eval (0 + 3000000000) 31 11718750 (by norm_num) (by norm_num [abs_of_pos])
    (by norm_num [abs_of_pos]) (Or.inl (by norm_num [abs_lt]))]
  norm_num

theorem truncToInt_natCast (n : Nat) : truncToInt (n : Rat) = n := by
  unfold truncToInt
  rw [if_pos (Nat.cast_nonneg n)]
  exact Int.floor_natCast n

theorem momentaryState_fields :
    momentaryState.runMode = MOMENTARY ∧
    momentaryState.metro = (construct refDeps 44100).metro ∧
    resetEvent refDeps nearOneSample momentaryState = false := by
  refine ⟨rfl, rfl, ?_⟩
  simp [resetEvent, momentaryState, MenuItem.onAction, runModeAction, construct, refDeps,
    SchmittTrigger.fires, SchmittState.after]

theorem momentary_nearOne :
    (-1 < nearOneSample.params RUN_BUTTON_PARAM + nearOneSample.inputs RUN_INPUT ∧
      nearOneSample.params RUN_BUTTON_PARAM + nearOneSample.inputs RUN_INPUT < 1) ∧
    truncToInt (nearOneSample.params RUN_BUTTON_PARAM + nearOneSample.inputs RUN_INPUT) = 0 ∧
    (step refDeps nearOneSample momentaryState).running = 1 ∧
    MetronomeCall.reset ∉
      newCalls momentaryState.metro (step refDeps nearOneSample momentaryState).metro := by
  obtain ⟨hm, -, hr⟩ := momentaryState_fields
  have hnt : ¬ momentaryState.runMode = TOGGLE := by rw [hm]; decide
  have hb : nearOneSample.params RUN_BUTTON_PARAM = 16777215 / 16777216 := rfl
  have hi : nearOneSample.inputs RUN_INPUT = 1 / 33554432 := rfl
  have hone : floatToInt (floatAdd (nearOneSample.params RUN_BUTTON_PARAM)
      (nearOneSample.inputs RUN_INPUT)) = 1 := by
    rw [hb, hi, floatAdd_nearOne, floatToInt_of_range 1 (by norm_num) (by norm_num)]
    simpa using truncToInt_natCast 1
  have hs : (-1 : Rat) < 16777215 / 16777216 + 1 / 33554432 ∧
      (16777215 / 16777216 + 1 / 33554432 : Rat) < 1 := by
    constructor <;> norm_num
  refine ⟨by rw [hb, hi]; exact hs, ?_, ?_, ?_⟩
  · rw [hb, hi]; exact truncToInt_eq_zero _ hs.1 hs.2
  · rw [(step_momentary refDeps nearOneSample momentaryState hm).1, hone]
  · rw [step_metro, stepControl_metro, newCalls_append, hone, hr]
    simp [hnt]

theorem momentary_overRange :
    truncToInt (overRangeSample.params RUN_BUTTON_PARAM + overRangeSample.inputs RUN_INPUT) =
      3000000000 ∧
    (step refDeps overRangeSample momentaryState).running = -2147483648 := by
  have hb : overRangeSample.params RUN_BUTTON_PARAM = 0 := rfl
  have hi : overRangeSample.inputs RUN_INPUT = 3000000000 := rfl
  have ht : truncToInt (3000000000 : Rat) = 3000000000 := by
    simpa using truncToInt_natCast 3000000000
  refine ⟨by rw [hb, hi, zero_add, ht], ?_⟩
  rw [(step_momentary refDeps overRangeSample momentaryState rfl).1, hb, hi, floatAdd_overRange]
  unfold floatToInt
  rw [ht]
  decide

/-- An exact sum from -2147483648 to 2147483520 (the largest `float` below
`2^31`) has its `float` sum within the `int` range. -/
theorem floatAdd_int_range (a b : Rat) :
    -2147483648 ≤ a + b ∧ a + b ≤ 2147483520 →
      -2147483649 < floatAdd a b ∧ floatAdd a b < 2147483648 := by
  rintro ⟨h1, h2⟩
  have e1 : roundFloat 2147483520 = 2147483520 := by
    rw [roundFloat_eval 2147483520 30 16777215 (by norm_num) (by norm_num [abs_of_pos])
      (by norm_num [abs_of_pos]) (Or.inl (by norm_num [abs_lt]))]
    norm_num
  have e2 : roundFloat (-2147483648) = -2147483648 := by
    have := roundFloat_zpow 31 (by norm_num)
    rw [roundFloat_neg]
    norm_num at this ⊢
    exact this
  have u := roundFloat_mono h2
  have l := roundFloat_mono h1
  rw [e1] at u
  rw [e2] at l
  unfold floatAdd
  constructor <;> linarith
/-! ## The claims -/

/-- C1 (amended).  In a sample whose reset condition holds (reset button trigger
or reset input trigger fires), whatever the run state and the clock source:
reset handling sets `seqStep` to 0; the reset LED one-shot gets `trigger()` in
that sample (followed by the `process()` of `updateUI`); on return `seqStep` is 1
if a step advance takes place in the same sample and 0 otherwise; for a state
entered with `advStep` false the advance takes place exactly when the sequencer
is running after run handling and the selected clock steps, so a stopped
sequencer returns with `seqStep` 0. -/
theorem C1_reset_then_optional_advance (d : Deps) (x : Sample) (s : Topograph)
    (h : resetEvent d x s = true) :
    (stepReset d x (stepRun d x s)).seqStep = 0 ∧
    (step d x s).resetLed = s.resetLed ++ [OneshotCall.trigger, OneshotCall.process] ∧
    (step d x s).seqStep = (if (stepControl d x s).advStep = true then 1 else 0) ∧
    (s.advStep = false →
      ((stepControl d x s).advStep = true ↔
        (stepRun d x s).running ≠ 0 ∧
          if x.params TEMPO_PARAM < 1 / 100 then
            SchmittTrigger.fires d s.clockTrig (x.inputs CLOCK_INPUT) = true
          else d.hasTicked (stepControl d x s).metro = true)) ∧
    (s.advStep = false → (stepRun d x s).running = 0 → (step d x s).seqStep = 0) := by
  have hseq : (stepControl d x s).seqStep = 0 := by
    rw [stepControl_seqStep, if_pos h]
  refine ⟨?_, ?_, ?_, ?_, ?_⟩
  · have h2 : resetEvent d x (stepRun d x s) = true := by
      rw [← h]; simp only [resetEvent, stepRun_eq]
    simp only [stepReset_eq, h2, if_true]
  · rw [step_resetLed, if_pos h]
    simp [Oneshot.trigger, Oneshot.process]
  · rw [step_seqStep, hseq]
    split_ifs <;> simp_all
  · intro ha
    rw [stepControl_advStep, ha]
    split_ifs <;> simp_all
  · intro ha hr
    rw [step_seqStep, hseq, stepControl_advStep, ha]
    simp [hr]

/-- C1 (as stated) fails: from a constructed module, after an idle sample and a
run-button press, a sample with the reset input and the clock input both high
has the reset trigger firing, and `step()` returns with `seqStep` equal to 1. -/
theorem C1_counterexample :
    resetEvent refDeps resetAndClockSample runningExternalState = true ∧
    (step refDeps resetAndClockSample runningExternalState).seqStep = 1 := by
  refine ⟨runningExternal_resetEvent, ?_⟩
  rw [step_seqStep, stepControl_seqStep, if_pos runningExternal_resetEvent,
    if_pos runningExternal_advStep]
  norm_num

/-- Witness for C1 (amended): the sample with reset and clock inputs high, on the
running external-clock state. -/
theorem C1_witness :
    resetEvent refDeps resetAndClockSample runningExternalState = true ∧
    (step refDeps resetAndClockSample runningExternalState).resetLed =
      runningExternalState.resetLed ++ [OneshotCall.trigger, OneshotCall.process] :=
  ⟨runningExternal_resetEvent,
    (C1_reset_then_optional_advance refDeps resetAndClockSample runningExternalState
      runningExternal_resetEvent).2.1⟩

/-- C2.  From every reachable state, over every finite run of samples in which the
tempo knob is 0 and the clock-input trigger never fires, no step advance occurs,
whatever the run state: in every sample the pattern generator gets no `tick`, no
drum-trigger and no drum-LED one-shot is armed, and `seqStep` is left as it was
unless a reset event zeroes it. -/
theorem C2_no_advance_without_clock (d : Deps) (s : Topograph) (xs : List Sample)
    (hr : Reachable d s) (hq : QuietExternal d s xs) : NoAdvance d s xs := by
  have key : ∀ (xs : List Sample) (s : Topograph), s.advStep = false →
      QuietExternal d s xs → NoAdvance d s xs := by
    intro xs
    induction xs with
    | nil => intro s _ _; trivial
    | cons x xs ih =>
      intro s ha hq
      obtain ⟨ht, hc, hrest⟩ := hq
      have hA : (stepControl d x s).advStep = false := by
        rw [stepControl_advStep, ha, ht]
        by_cases hrun : (stepRun d x s).running = 0
        · simp [hrun]
        · simp [hrun, hc hrun]
      refine ⟨?_, ?_, ?_, ?_, ih _ (step_advStep d x s) hrest⟩
      · rw [step_grids, hA]
        simpa using stepControl_tickCount d x s
      · intro i
        rw [step_drumTriggers, hA]
        simp only [Bool.false_eq_true, false_and, if_false]
        split_ifs <;> simp only [triggerCount_process]
      · intro k
        rw [step_drumLED, hA]
        simp only [Bool.false_eq_true, false_and, if_false, triggerCount_process]
      · rw [step_seqStep, hA, stepControl_seqStep]
        simp
  exact key xs s (reachable_advStep d s hr) hq

/-- Witness for C2: two idle samples (tempo knob 0, nothing on the clock input)
on a module constructed at 44100 Hz. -/
theorem C2_witness :
    NoAdvance refDeps (construct refDeps 44100) [idleSample, idleSample] :=
  C2_no_advance_without_clock refDeps (construct refDeps 44100) [idleSample, idleSample]
    (Reachable.construct 44100)
    (by
      refine ⟨rfl, ?_, rfl, ?_, trivial⟩
      · intro _; simp [SchmittTrigger.fires, refDeps, idleSample]
      · intro _; simp [SchmittTrigger.fires, refDeps, idleSample])

/-- C3.  In every call of `step()` the fields `tempo` and `swing` are
`rescale(tempoKnob, 0.01, 1, 40, 240)` and `clamp(swingKnob + swingCV/10, 0, 0.9)`,
and exactly one `setTempo` call is made on the metronome: with `tempo/(1+swing)`
when the elapsed-tick counter read after reset handling is in 0..5, and with
`tempo/(1-swing)` when it is in 6..11.  For `swingKnob + swingCV/10 = 0.5` the
divisors are 1.5 and 0.5, and `1 - swing` is never below 0.1. -/
theorem C3_swing_tempo (d : Deps) (x : Sample) (s : Topograph) :
    (step d x s).tempo = rescale (x.params TEMPO_PARAM) (1 / 100) 1 40 240 ∧
    (step d x s).swing = clamp (x.params SWING_PARAM + x.inputs SWING_CV / 10) 0 (9 / 10) ∧
    (0 ≤ (stepReset d x (stepRun d x s)).elapsedTicks ∧
      (stepReset d x (stepRun d x s)).elapsedTicks ≤ 5 →
      setTempoArgs (newCalls s.metro (step d x s).metro) =
        [(step d x s).tempo / (1 + (step d x s).swing)]) ∧
    (6 ≤ (stepReset d x (stepRun d x s)).elapsedTicks ∧
      (stepReset d x (stepRun d x s)).elapsedTicks ≤ 11 →
      setTempoArgs (newCalls s.metro (step d x s).metro) =
        [(step d x s).tempo / (1 - (step d x s).swing)]) ∧
    (x.params SWING_PARAM + x.inputs SWING_CV / 10 = 1 / 2 →
      1 + (step d x s).swing = 3 / 2 ∧ 1 - (step d x s).swing = 1 / 2) ∧
    (0 ≤ (step d x s).swing ∧ (step d x s).swing ≤ 9 / 10 ∧
      1 / 10 ≤ 1 - (step d x s).swing) := by
  obtain ⟨ht, hs⟩ := step_tempo_swing d x s
  have hargs : ∀ t : Rat,
      setTempoArgs
        ((if ¬ s.runMode = TOGGLE ∧
              floatToInt (floatAdd (x.params RUN_BUTTON_PARAM) (x.inputs RUN_INPUT)) = 0 then
            [MetronomeCall.reset] else []) ++
          (if resetEvent d x s = true then [MetronomeCall.reset] else []) ++
          [MetronomeCall.setTempo t] ++
          (if x.params TEMPO_PARAM < 1 / 100 then [] else [MetronomeCall.process])) = [t] := by
    intro t
    split_ifs <;> simp [setTempoArgs]
  refine ⟨ht, hs, ?_, ?_, ?_, ?_⟩
  · rintro ⟨-, h5⟩
    rw [step_metro, stepControl_metro, newCalls_append, hargs, ht, hs,
      if_pos (by omega)]
  · rintro ⟨h6, -⟩
    rw [step_metro, stepControl_metro, newCalls_append, hargs, ht, hs,
      if_neg (by omega)]
  · intro h
    rw [hs, h]
    norm_num [clamp]
  · rw [hs]
    unfold clamp
    refine ⟨?_, ?_, ?_⟩
    · exact le_min (le_max_right _ _) (by norm_num)
    · exact min_le_right _ _
    · have : min (max (x.params SWING_PARAM + x.inputs SWING_CV / 10) 0) (9 / 10) ≤ 9 / 10 :=
        min_le_right _ _
      linarith

/-- Witness for C3: an idle sample on a constructed module (elapsed-tick counter 0). -/
theorem C3_witness :
    setTempoArgs (newCalls (construct refDeps 44100).metro
        (step refDeps idleSample (construct refDeps 44100)).metro) =
      [(step refDeps idleSample (construct refDeps 44100)).tempo /
        (1 + (step refDeps idleSample (construct refDeps 44100)).swing)] :=
  (C3_swing_tempo refDeps idleSample (construct refDeps 44100)).2.2.1
    (by
      rw [stepControl_elapsed_after_reset]
      simp [construct, resetEvent, SchmittTrigger.fires, refDeps, SchmittState.after])

/-- C4.  In toggle run mode one call of `step()` flips the running flag (0 becomes
1, non-zero becomes 0) when the run-button trigger fires on the run-button value
or the run-input trigger fires on the run-input voltage, once even if both would
fire, and then sets the running light to 1 when running and 0 when stopped; when
neither trigger fires the flag and the light are left as they were.  In every
reachable state the light therefore shows the flag after the call. -/
theorem C4_toggle_run (d : Deps) (x : Sample) (s : Topograph) (hm : s.runMode = TOGGLE) :
    (SchmittTrigger.fires d s.runButtonTrig (x.params RUN_BUTTON_PARAM) = true ∨
        SchmittTrigger.fires d s.runInputTrig (x.inputs RUN_INPUT) = true →
      (step d x s).running = (if s.running = 0 then 1 else 0) ∧
      ((step d x s).running ≠ 0 ↔ s.running = 0) ∧
      (step d x s).lights RUNNING_LIGHT = (if (step d x s).running ≠ 0 then 1 else 0)) ∧
    (SchmittTrigger.fires d s.runButtonTrig (x.params RUN_BUTTON_PARAM) = false ∧
        SchmittTrigger.fires d s.runInputTrig (x.inputs RUN_INPUT) = false →
      (step d x s).running = s.running ∧
      (step d x s).lights RUNNING_LIGHT = s.lights RUNNING_LIGHT) ∧
    (Reachable d s →
      (step d x s).lights RUNNING_LIGHT = (if (step d x s).running ≠ 0 then 1 else 0)) := by
  obtain ⟨h1, h2, -⟩ := step_run_fields d x s
  refine ⟨?_, ?_, ?_⟩
  · intro hf
    have hev : runEvent d x s = true := by
      unfold runEvent
      rcases hf with h | h <;> simp [h]
    rw [h1, h2]
    simp only [stepRun_eq, hm, hev, if_true, Function.update_same, runningLightValue]
    refine ⟨trivial, ?_, trivial⟩
    split_ifs with h0 <;> simp [h0]
  · rintro ⟨hb, hi⟩
    have hev : runEvent d x s = false := by
      unfold runEvent
      simp [hb, hi]
    rw [h1, h2]
    simp [stepRun_eq, hm, hev]
  · intro hr
    rw [h1, h2]
    exact stepRun_light d x s (reachable_runningLight d s hr)

/-- Witness for C4, on a stopped module in toggle mode whose triggers are low:
a sample with only the run input high (the run-input trigger fires, the
run-button trigger does not) starts the sequencer and lights the running light;
so does a sample with only the run button pressed; an idle sample (neither
fires) leaves it stopped. -/
theorem C4_witness :
    (SchmittTrigger.fires refDeps stoppedState.runButtonTrig
        (runGateSample.params RUN_BUTTON_PARAM) = false ∧
      SchmittTrigger.fires refDeps stoppedState.runInputTrig
        (runGateSample.inputs RUN_INPUT) = true) ∧
    stoppedState.running = 0 ∧
    (step refDeps runGateSample stoppedState).running = 1 ∧
    (step refDeps runGateSample stoppedState).lights RUNNING_LIGHT = 1 ∧
    (step refDeps runPressSample stoppedState).running = 1 ∧
    (step refDeps idleSample stoppedState).running = 0 := by
  obtain ⟨hm, h0, hb, hi⟩ := stoppedState_fields
  have fb : SchmittTrigger.fires refDeps stoppedState.runButtonTrig
      (runGateSample.params RUN_BUTTON_PARAM) = false := by
    rw [hb]; simp [SchmittTrigger.fires, refDeps, runGateSample]
  have fi : SchmittTrigger.fires refDeps stoppedState.runInputTrig
      (runGateSample.inputs RUN_INPUT) = true := by
    rw [hi]; simp [SchmittTrigger.fires, refDeps, runGateSample, SchmittState.after,
      SchmittState.next]
  have pb : SchmittTrigger.fires refDeps stoppedState.runButtonTrig
      (runPressSample.params RUN_BUTTON_PARAM) = true := by
    rw [hb]; simp [SchmittTrigger.fires, refDeps, runPressSample, SchmittState.after,
      SchmittState.next]
  have nb : SchmittTrigger.fires refDeps stoppedState.runButtonTrig
      (idleSample.params RUN_BUTTON_PARAM) = false := by
    rw [hb]; simp [SchmittTrigger.fires, refDeps, idleSample]
  have ni : SchmittTrigger.fires refDeps stoppedState.runInputTrig
      (idleSample.inputs RUN_INPUT) = false := by
    rw [hi]; simp [SchmittTrigger.fires, refDeps, idleSample]
  have g := (C4_toggle_run refDeps runGateSample stoppedState hm).1 (Or.inr fi)
  have p := (C4_toggle_run refDeps runPressSample stoppedState hm).1 (Or.inl pb)
  have n := (C4_toggle_run refDeps idleSample stoppedState hm).2.1 ⟨nb, ni⟩
  rw [h0] at g p n
  have g1 : (step refDeps runGateSample stoppedState).running = 1 := by simpa using g.1
  refine ⟨⟨fb, fi⟩, h0, g1, ?_, by simpa using p.1, n.1⟩
  rw [g.2.2, g1]
  simp

/-- C5.  In momentary run mode the running flag after `step()` is the `float` sum
of the current run-button value and run-input level, converted to `int`: it is a
function of these two values alone, does not depend on the previous flag, and the
two run edge detectors are not even processed.  The sequencer is running only
while the button or the gate is non-zero; the running light is 1 when running and
0 when stopped; and whenever the flag is 0 (in particular when button and gate
are both 0) the first call made on the metronome in that sample is `reset()`. -/
theorem C5_momentary_run (d : Deps) (x : Sample) (s : Topograph) (hm : s.runMode = MOMENTARY) :
    (step d x s).running =
      floatToInt (floatAdd (x.params RUN_BUTTON_PARAM) (x.inputs RUN_INPUT)) ∧
    (∀ (d2 : Deps) (s2 : Topograph), s2.runMode = MOMENTARY →
      (step d2 x s2).running = (step d x s).running) ∧
    ((step d x s).runButtonTrig = s.runButtonTrig ∧ (step d x s).runInputTrig = s.runInputTrig) ∧
    (step d x s).lights RUNNING_LIGHT = (if (step d x s).running ≠ 0 then 1 else 0) ∧
    ((step d x s).running ≠ 0 → x.params RUN_BUTTON_PARAM ≠ 0 ∨ x.inputs RUN_INPUT ≠ 0) ∧
    ((step d x s).running = 0 →
      (newCalls s.metro (step d x s).metro).head? = some MetronomeCall.reset) ∧
    (x.params RUN_BUTTON_PARAM = 0 ∧ x.inputs RUN_INPUT = 0 →
      (step d x s).running = 0 ∧ (step d x s).lights RUNNING_LIGHT = 0 ∧
      (newCalls s.metro (step d x s).metro).head? = some MetronomeCall.reset) := by
  have hnt : ∀ t : Topograph, t.runMode = MOMENTARY → ¬ t.runMode = TOGGLE := by
    intro t ht; rw [ht]; decide
  have hrun : ∀ (d2 : Deps) (s2 : Topograph), s2.runMode = MOMENTARY →
      (step d2 x s2).running =
        floatToInt (floatAdd (x.params RUN_BUTTON_PARAM) (x.inputs RUN_INPUT)) := by
    intro d2 s2 h2
    rw [(step_run_fields d2 x s2).1]
    simp [stepRun_eq, hnt s2 h2]
  have hlight :
      (step d x s).lights RUNNING_LIGHT = (if (step d x s).running ≠ 0 then 1 else 0) := by
    rw [hrun d s hm, (step_run_fields d x s).2.1]
    simp [stepRun_eq, hnt s hm, runningLightValue]
  have hreset : (step d x s).running = 0 →
      (newCalls s.metro (step d x s).metro).head? = some MetronomeCall.reset := by
    intro h0
    rw [hrun d s hm] at h0
    rw [step_metro, stepControl_metro, newCalls_append]
    simp [hnt s hm, h0]
  have hzero : x.params RUN_BUTTON_PARAM = 0 ∧ x.inputs RUN_INPUT = 0 →
      (step d x s).running = 0 := by
    rintro ⟨hb, hi⟩
    rw [hrun d s hm, hb, hi, floatAdd_zero_zero]
    exact floatToInt_eq_zero 0 (by norm_num) (by norm_num)
  refine ⟨hrun d s hm, ?_, ?_, hlight, ?_, hreset, ?_⟩
  · intro d2 s2 h2
    rw [hrun d2 s2 h2, hrun d s hm]
  · obtain ⟨-, -, h3, h4, -⟩ := step_run_fields d x s
    rw [h3, h4]
    simp [stepRun_eq, hnt s hm]
  · intro hne
    by_contra hcon
    push_neg at hcon
    exact hne (hzero hcon)
  · intro hz
    have h0 := hzero hz
    refine ⟨h0, ?_, hreset h0⟩
    rw [hlight, h0]
    simp

/-- Witness for C5: an idle sample on a constructed module switched to momentary
mode by the context menu: stopped, and the metronome is reset. -/
theorem C5_witness :
    (step refDeps idleSample
      (MenuItem.momentary.onAction (construct refDeps 44100))).running = 0 ∧
    (newCalls (MenuItem.momentary.onAction (construct refDeps 44100)).metro
      (step refDeps idleSample
        (MenuItem.momentary.onAction (construct refDeps 44100))).metro).head? =
      some MetronomeCall.reset :=
  ⟨((C5_momentary_run refDeps idleSample (MenuItem.momentary.onAction (construct refDeps 44100))
      rfl).2.2.2.2.2.2 ⟨rfl, rfl⟩).1,
    ((C5_momentary_run refDeps idleSample (MenuItem.momentary.onAction (construct refDeps 44100))
      rfl).2.2.2.2.2.2 ⟨rfl, rfl⟩).2.2⟩

/-- C6.  In GATE trigger-output mode, for each voice `i`, after `updateOutputs()`
output `i` is 10 exactly when `gateState[i]` was set on entry and the metronome's
elapsed-tick fraction is below 0.5 (and then the gate stays set); otherwise output
`i` is 0 and `gateState[i]` is cleared.  Hence with an elapsed fraction of 0.5 or
more all six gates are closed, and a gate closed on entry stays closed: over a
whole `step()` it can only be set again by the arming loop of an advance in which
voice `i` is hit. -/
theorem C6_gate_outputs (d : Deps) (s : Topograph) (i : Fin 6)
    (hm : s.triggerOutputMode = GATE) :
    ((updateOutputs d s).outputs (outIDs i) = 10 ↔
      s.gateState i = true ∧ d.getElapsedTickTime s.metro < 1 / 2) ∧
    (s.gateState i = true ∧ d.getElapsedTickTime s.metro < 1 / 2 →
      (updateOutputs d s).gateState i = true) ∧
    (¬ (s.gateState i = true ∧ d.getElapsedTickTime s.metro < 1 / 2) →
      (updateOutputs d s).outputs (outIDs i) = 0 ∧ (updateOutputs d s).gateState i = false) ∧
    (1 / 2 ≤ d.getElapsedTickTime s.metro →
      ∀ j, (updateOutputs d s).outputs (outIDs j) = 0 ∧ (updateOutputs d s).gateState j = false) ∧
    (s.gateState i = false →
      (updateOutputs d s).outputs (outIDs i) = 0 ∧ (updateOutputs d s).gateState i = false) ∧
    (∀ x : Sample, s.gateState i = false →
      ¬ ((stepControl d x s).advStep = true ∧ d.getDrumState (step d x s).grids i.val = true) →
      (step d x s).gateState i = false) := by
  have hne : ¬ s.triggerOutputMode = PULSE := by rw [hm]; decide
  have hvoice : ∀ j : Fin 6, outVoice (outIDs j) = j := by
    intro j; fin_cases j <;> rfl
  have hout : ∀ j : Fin 6, (updateOutputs d s).outputs (outIDs j) =
      if d.getElapsedTickTime s.metro < 1 / 2 ∧ s.gateState j = true then 10 else 0 := by
    intro j
    simp only [updateOutputs_eq, hne, if_false, hvoice]
  have hgate : ∀ j : Fin 6, (updateOutputs d s).gateState j =
      if d.getElapsedTickTime s.metro < 1 / 2 ∧ s.gateState j = true then s.gateState j
      else false := by
    intro j
    simp only [updateOutputs_eq, hne, if_false]
  refine ⟨?_, ?_, ?_, ?_, ?_, ?_⟩
  · rw [hout]
    constructor
    · intro h
      by_contra hc
      rw [if_neg (fun hh => hc ⟨hh.2, hh.1⟩)] at h
      norm_num at h
    · rintro ⟨h1, h2⟩
      rw [if_pos ⟨h2, h1⟩]
  · rintro ⟨h1, h2⟩
    rw [hgate, if_pos ⟨h2, h1⟩, h1]
  · intro hc
    rw [hout, hgate, if_neg (fun hh => hc ⟨hh.2, hh.1⟩), if_neg (fun hh => hc ⟨hh.2, hh.1⟩)]
    exact ⟨rfl, rfl⟩
  · intro h j
    have hn : ¬ (d.getElapsedTickTime s.metro < 1 / 2 ∧ s.gateState j = true) :=
      fun hh => absurd hh.1 (not_lt.mpr h)
    rw [hout, hgate, if_neg hn, if_neg hn]
    exact ⟨rfl, rfl⟩
  · intro h
    have hn : ¬ (d.getElapsedTickTime s.metro < 1 / 2 ∧ s.gateState i = true) := by
      rw [h]; simp
    rw [hout, hgate, if_neg hn, if_neg hn]
    exact ⟨rfl, rfl⟩
  · intro x h0 hna
    obtain ⟨h1, h2⟩ := step_gateState d x s i
    rw [if_neg hna, h0] at h2
    rw [h1]
    simp only [updateOutputs_eq, h2]
    split_ifs <;> simp_all

/-- Witness for C6: a constructed module switched to GATE mode by the context menu;
no gate is set, so output 0 is low. -/
theorem C6_witness :
    (updateOutputs refDeps (MenuItem.gate.onAction (construct refDeps 44100))).outputs
        (outIDs 0) = 0 ∧
      (updateOutputs refDeps (MenuItem.gate.onAction (construct refDeps 44100))).gateState 0 =
        false :=
  (C6_gate_outputs refDeps (MenuItem.gate.onAction (construct refDeps 44100)) 0 rfl).2.2.2.2.1 rfl

/-- C7.  Settings round trip: when the seven persisted settings of `m` hold valid
values, `m2.fromJson(m.toJson())` leaves `m2` with all seven settings equal to
those of `m`, for every module `m2`. -/
theorem C7_settings_round_trip (m m2 : Topograph) (hv : ValidSettings m) :
    (fromJson m2 (toJson m)).sequencerMode = m.sequencerMode ∧
    (fromJson m2 (toJson m)).triggerOutputMode = m.triggerOutputMode ∧
    (fromJson m2 (toJson m)).accOutputMode = m.accOutputMode ∧
    (fromJson m2 (toJson m)).extClockResolution = m.extClockResolution ∧
    (fromJson m2 (toJson m)).chaosKnobMode = m.chaosKnobMode ∧
    (fromJson m2 (toJson m)).runMode = m.runMode ∧
    (fromJson m2 (toJson m)).panelStyle = m.panelStyle := by
  obtain ⟨f1, f2, f3, f4, f5, f6, f7⟩ := fromJson_fields m2 (toJson m)
  obtain ⟨g1, g2, g3, g4, g5, g6, g7⟩ := toJson_get m
  obtain ⟨v1, v2, v3, v4, v5, v6, v7⟩ := hv
  rw [f1, f2, f3, f4, f5, f6, f7, g1, g2, g3, g4, g5, g6, g7]
  simp only [json_integer_value]
  refine ⟨?_, ?_, ?_, ?_, ?_, ?_, intCast_of_range _ v7.1 v7.2⟩
  · rcases v1 with h | h | h <;> rw [h] <;> rfl
  · rcases v2 with h | h <;> rw [h] <;> rfl
  · rcases v3 with h | h <;> rw [h] <;> rfl
  · rcases v4 with h | h | h <;> rw [h] <;> rfl
  · rcases v5 with h | h <;> rw [h] <;> rfl
  · rcases v6 with h | h <;> rw [h] <;> rfl

/-- Witness for C7: the settings of a constructed module, loaded into a module
whose settings were all changed by the context menu. -/
theorem C7_witness :
    ValidSettings (construct refDeps 44100) ∧
    (fromJson (MenuItem.euclidean.onAction (MenuItem.momentary.onAction (construct refDeps 48000)))
      (toJson (construct refDeps 44100))).sequencerMode = (construct refDeps 44100).sequencerMode :=
  ⟨by simp [ValidSettings, construct, HENRI, PULSE, INDIVIDUAL_ACCENTS, EXTCLOCK_RES_24_PPQN,
      CHAOS, TOGGLE],
    (C7_settings_round_trip (construct refDeps 44100)
      (MenuItem.euclidean.onAction (MenuItem.momentary.onAction (construct refDeps 48000)))
      (by simp [ValidSettings, construct, HENRI, PULSE, INDIVIDUAL_ACCENTS, EXTCLOCK_RES_24_PPQN,
        CHAOS, TOGGLE])).1⟩

/-- C8.  For every settings object and each of the seven keys: when the key is
absent, `fromJson` leaves the corresponding setting as it was.  A freshly
constructed module has the settings Henri, Pulse, individual accents, 24 PPQN,
Chaos and Toggle.  Loading the empty object returns the module unchanged in every
field: no setting changes and the pattern generator receives no call. -/
theorem C8_absent_keys_keep_settings (d : Deps) (sr : Rat) (s : Topograph)
    (rootJ : JsonObject) :
    (json_object_get rootJ "sequencerMode" = none →
      (fromJson s rootJ).sequencerMode = s.sequencerMode) ∧
    (json_object_get rootJ "triggerOutputMode" = none →
      (fromJson s rootJ).triggerOutputMode = s.triggerOutputMode) ∧
    (json_object_get rootJ "accOutputMode" = none →
      (fromJson s rootJ).accOutputMode = s.accOutputMode) ∧
    (json_object_get rootJ "extClockResolution" = none →
      (fromJson s rootJ).extClockResolution = s.extClockResolution) ∧
    (json_object_get rootJ "chaosKnobMode" = none →
      (fromJson s rootJ).chaosKnobMode = s.chaosKnobMode) ∧
    (json_object_get rootJ "runMode" = none → (fromJson s rootJ).runMode = s.runMode) ∧
    (json_object_get rootJ "panelStyle" = none →
      (fromJson s rootJ).panelStyle = s.panelStyle) ∧
    ((construct d sr).sequencerMode = HENRI ∧ (construct d sr).triggerOutputMode = PULSE ∧
      (construct d sr).accOutputMode = INDIVIDUAL_ACCENTS ∧
      (construct d sr).extClockResolution = EXTCLOCK_RES_24_PPQN ∧
      (construct d sr).chaosKnobMode = CHAOS ∧ (construct d sr).runMode = TOGGLE) ∧
    (fromJson s json_object = s ∧ (fromJson s json_object).grids = s.grids) := by
  obtain ⟨f1, f2, f3, f4, f5, f6, f7⟩ := fromJson_fields s rootJ
  refine ⟨?_, ?_, ?_, ?_, ?_, ?_, ?_, ⟨rfl, rfl, rfl, rfl, rfl, rfl⟩, rfl, rfl⟩
  · intro h; rw [f1, h]
  · intro h; rw [f2, h]
  · intro h; rw [f3, h]
  · intro h; rw [f4, h]
  · intro h; rw [f5, h]
  · intro h; rw [f6, h]
  · intro h; rw [f7, h]

/-- Witness for C8: an object that carries only "runMode", loaded into a
constructed module: the sequencer mode keeps its default. -/
theorem C8_witness :
    (fromJson (construct refDeps 44100)
        (json_object_set_new json_object "runMode" (json_integer 1))).sequencerMode =
      (construct refDeps 44100).sequencerMode :=
  (C8_absent_keys_keep_settings refDeps 44100 (construct refDeps 44100)
    (json_object_set_new json_object "runMode" (json_integer 1))).1
    (by rw [json_object_get_set_new, if_neg (by decide)]; rfl)

/-- C9 (amended).  For every persisted integer `v` in the range of the 32-bit
underlying type, member of the enumeration or not, after `fromJson` the
corresponding setting (sequencerMode, triggerOutputMode, accOutputMode,
extClockResolution, chaosKnobMode, runMode) holds `v` itself: `fromJson` has no
fallback to the default variant. -/
theorem C9_unknown_values_are_stored (s : Topograph) (rootJ : JsonObject) (v : Int)
    (h0 : 0 ≤ v) (h1 : v < 4294967296) :
    (json_object_get rootJ "sequencerMode" = some (Json.integer v) →
      (fromJson s rootJ).sequencerMode = v) ∧
    (json_object_get rootJ "triggerOutputMode" = some (Json.integer v) →
      (fromJson s rootJ).triggerOutputMode = v) ∧
    (json_object_get rootJ "accOutputMode" = some (Json.integer v) →
      (fromJson s rootJ).accOutputMode = v) ∧
    (json_object_get rootJ "extClockResolution" = some (Json.integer v) →
      (fromJson s rootJ).extClockResolution = v) ∧
    (json_object_get rootJ "chaosKnobMode" = some (Json.integer v) →
      (fromJson s rootJ).chaosKnobMode = v) ∧
    (json_object_get rootJ "runMode" = some (Json.integer v) →
      (fromJson s rootJ).runMode = v) := by
  obtain ⟨f1, f2, f3, f4, f5, f6, -⟩ := fromJson_fields s rootJ
  have hc : enumCast (json_integer_value (Json.integer v)) = v :=
    enumCast_of_range v h0 h1
  refine ⟨?_, ?_, ?_, ?_, ?_, ?_⟩
  · intro h; rw [f1, h]; exact hc
  · intro h; rw [f2, h]; exact hc
  · intro h; rw [f3, h]; exact hc
  · intro h; rw [f4, h]; exact hc
  · intro h; rw [f5, h]; exact hc
  · intro h; rw [f6, h]; exact hc

/-- C9 (as stated) fails: after loading a settings object with sequencerMode 7 and
extClockResolution 5 into a constructed module, the two settings hold 7 and 5,
not their defaults `HENRI` and `EXTCLOCK_RES_24_PPQN`. -/
theorem C9_counterexample :
    (fromJson (construct refDeps 44100)
        (json_object_set_new
          (json_object_set_new json_object "sequencerMode" (json_integer 7))
          "extClockResolution" (json_integer 5))).sequencerMode = 7 ∧
    (fromJson (construct refDeps 44100)
        (json_object_set_new
          (json_object_set_new json_object "sequencerMode" (json_integer 7))
          "extClockResolution" (json_integer 5))).extClockResolution = 5 ∧
    (7 : Int) ≠ HENRI ∧ (5 : Int) ≠ EXTCLOCK_RES_24_PPQN := by
  refine ⟨?_, ?_, by decide, by decide⟩
  · rw [(fromJson_fields _ _).1]
    simp [json_object_get_set_new, json_integer, json_integer_value, enumCast]
  · rw [(fromJson_fields _ _).2.2.2.1]
    simp [json_object_get_set_new, json_integer, json_integer_value, enumCast]

/-- Witness for C9 (amended): the object with sequencerMode 7. -/
theorem C9_witness :
    (fromJson (construct refDeps 44100)
        (json_object_set_new json_object "sequencerMode" (json_integer 7))).sequencerMode = 7 :=
  (C9_unknown_values_are_stored (construct refDeps 44100)
    (json_object_set_new json_object "sequencerMode" (json_integer 7)) 7
    (by decide) (by decide)).1
    (by simp [json_object_get_set_new, json_integer])

/-- C10 (amended).  `onSampleRateChange()` applies the new sample rate to the
metronome and to the ten one-shot timers that `step()` uses (drumTriggers[0..5],
drumLED[0..2], resetLed), each of which then has the new rate; the four timers
that no code path triggers or processes (BDLed, SNLed, HHLed, runningLed) are
left untouched. -/
theorem C10_sample_rate_change (sr : Rat) (s : Topograph) :
    (onSampleRateChange sr s).metro = s.metro.setSampleRate sr ∧
    metronomeRate (onSampleRateChange sr s).metro = some sr ∧
    (∀ j, (onSampleRateChange sr s).drumTriggers j = (s.drumTriggers j).setSampleRate sr ∧
      oneshotRate ((onSampleRateChange sr s).drumTriggers j) = some sr) ∧
    (∀ k, (onSampleRateChange sr s).drumLED k = (s.drumLED k).setSampleRate sr ∧
      oneshotRate ((onSampleRateChange sr s).drumLED k) = some sr) ∧
    ((onSampleRateChange sr s).resetLed = s.resetLed.setSampleRate sr ∧
      oneshotRate (onSampleRateChange sr s).resetLed = some sr) ∧
    ((onSampleRateChange sr s).BDLed = s.BDLed ∧ (onSampleRateChange sr s).SNLed = s.SNLed ∧
      (onSampleRateChange sr s).HHLed = s.HHLed ∧
      (onSampleRateChange sr s).runningLed = s.runningLed) := by
  have hr : ∀ o : Oneshot, oneshotRate (o.setSampleRate sr) = some sr := by
    intro o; simp [oneshotRate, Oneshot.setSampleRate, List.foldl_append]
  rw [onSampleRateChange_eq]
  refine ⟨rfl, ?_, fun j => ⟨rfl, hr _⟩, fun k => ⟨rfl, hr _⟩, ⟨rfl, hr _⟩, rfl, rfl, rfl, rfl⟩
  simp [metronomeRate, Metronome.setSampleRate, List.foldl_append]

/-- C10 (as stated) fails: on a module constructed at 44100 Hz, after
`onSampleRateChange()` with 48000 Hz the timer `BDLed` still has the rate 44100
(and `runningLed` was never given a rate), while `resetLed` has 48000. -/
theorem C10_counterexample :
    oneshotRate (onSampleRateChange 48000 (construct refDeps 44100)).BDLed = some 44100 ∧
    oneshotRate (onSampleRateChange 48000 (construct refDeps 44100)).runningLed = none ∧
    oneshotRate (onSampleRateChange 48000 (construct refDeps 44100)).resetLed = some 48000 ∧
    (44100 : Rat) ≠ 48000 := by
  rw [onSampleRateChange_eq]
  refine ⟨?_, ?_, ?_, by norm_num⟩
  · simp [oneshotRate, construct, Oneshot.create]
  · simp [oneshotRate, construct]
  · simp [oneshotRate, construct, Oneshot.create, Oneshot.setSampleRate]

/-- C11 (amended).  The byte that `step()` pushes to the pattern generator for
mapX, mapY, chaos and each of the three densities is
`floor(255 * clamp(s, 0, 1))`, where `s` is the sum `knob + cv/10` as the code
computes it in single precision: the quotient rounded to `float`, then the sum
rounded to `float`.  The calls `step()` makes on the pattern generator in a sample
are: the resets, then (exactly when the sequencer is running after run handling)
the nine setters for mapX, mapY, the three densities, chaos and the three
Euclidean lengths carrying these bytes, then the tick of an advance.  The byte
lies in 0..255, is 0 whenever `s <= 0` (in particular whenever the knob value is
a `float` and `knob + cv/10 <= 0`), is 255 whenever `s >= 1` (in particular
whenever the knob value lies in [0, 1] and `knob + cv/10 >= 1`), and is monotone
non-decreasing in `s`, in the knob value and in the CV voltage. -/
theorem C11_control_bytes (d : Deps) (x : Sample) (s : Topograph) (knob cv : Rat) :
    controlSum knob cv = roundFloat (knob + roundFloat (cv / 10)) ∧
    toUInt8 (clamp (controlSum knob cv) 0 1 * 255) = controlByte knob cv ∧
    controlByte knob cv = ⌊255 * clamp (controlSum knob cv) 0 1⌋.toNat ∧
    newCalls s.grids (step d x s).grids =
      (if resetEvent d x s = true then [PatternGeneratorCall.reset] else []) ++
        (if x.params TEMPO_PARAM < 1 / 100 ∧ s.initExtReset = true then
          [PatternGeneratorCall.reset] else []) ++
        (if (stepRun d x s).running ≠ 0 then controlCalls x else []) ++
        (if (stepControl d x s).advStep = true then
          [PatternGeneratorCall.tick (stepControl d x s).numTicks] else []) ∧
    controlByte knob cv ≤ 255 ∧
    (controlSum knob cv ≤ 0 → controlByte knob cv = 0) ∧
    (roundFloat knob = knob → knob + cv / 10 ≤ 0 → controlByte knob cv = 0) ∧
    (1 ≤ controlSum knob cv → controlByte knob cv = 255) ∧
    (0 ≤ knob ∧ knob ≤ 1 → 1 ≤ knob + cv / 10 → controlByte knob cv = 255) ∧
    (∀ knob2 cv2 : Rat, controlSum knob cv ≤ controlSum knob2 cv2 →
      controlByte knob cv ≤ controlByte knob2 cv2) ∧
    (∀ knob2 cv2 : Rat, knob ≤ knob2 → cv ≤ cv2 →
      controlByte knob cv ≤ controlByte knob2 cv2) :=
  ⟨rfl, toUInt8_clamp knob cv, rfl, step_grids_calls d x s, controlByte_le knob cv,
    controlByte_of_nonpos knob cv,
    fun hk h => controlByte_of_nonpos knob cv (controlSum_nonpos knob cv hk h),
    controlByte_of_one_le knob cv,
    fun hk h => controlByte_of_one_le knob cv (one_le_controlSum knob cv hk.1 hk.2 h),
    fun k2 c2 h => controlByte_mono knob cv k2 c2 h,
    fun k2 c2 hk hc => controlByte_mono knob cv k2 c2 (controlSum_mono hk hc)⟩

/-- C11 (as stated) fails: with the map X knob at 0.5 and the map X CV at -3 V on a
running module, the exact sum is 0.2 and `floor(255 * 0.2)` is 51, but the byte
`step()` pushes for mapX (and for the first Euclidean length) is 50: in single
precision -3/10 rounds to `-5033165 / 2^24`, and the sum with 0.5 is
`3355443 / 2^24`, below 0.2. -/
theorem C11_counterexample :
    mapXSample.params MAPX_PARAM + mapXSample.inputs MAPX_CV / 10 = 1 / 5 ∧
    ⌊(255 : Rat) *
      clamp (mapXSample.params MAPX_PARAM + mapXSample.inputs MAPX_CV / 10) 0 1⌋.toNat = 51 ∧
    newCalls runningExternalState.grids (step refDeps mapXSample runningExternalState).grids =
      [PatternGeneratorCall.setMapX 50, PatternGeneratorCall.setMapY 0,
       PatternGeneratorCall.setBDDensity 0, PatternGeneratorCall.setSDDensity 0,
       PatternGeneratorCall.setHHDensity 0, PatternGeneratorCall.setRandomness 0,
       PatternGeneratorCall.setEuclideanLength 0 50,
       PatternGeneratorCall.setEuclideanLength 1 0,
       PatternGeneratorCall.setEuclideanLength 2 0] := by
  have hsum : mapXSample.params MAPX_PARAM + mapXSample.inputs MAPX_CV / 10 = 1 / 5 := by
    norm_num [mapXSample]
  obtain ⟨h1, h2, h3, h4⟩ := runningExternal_mapXSample
  refine ⟨hsum, ?_, ?_⟩
  · rw [hsum]
    have hc : clamp (1 / 5 : Rat) 0 1 = 1 / 5 := by
      unfold clamp
      rw [max_eq_left (by norm_num), min_eq_left (by norm_num)]
    rw [hc]
    have hf : ⌊(255 : Rat) * (1 / 5)⌋ = 51 := by norm_num
    rw [hf]
    rfl
  · rw [step_grids_calls, h1, h2, h3, h4, controlCalls_mapXSample]
    simp

/-- Witness for C11 (amended): knob 1/2 (a value of [0, 1]) and CV 10 give
`knob + cv/10 = 3/2`, hence byte 255. -/
theorem C11_witness : controlByte (1 / 2) 10 = 255 :=
  (C11_control_bytes refDeps idleSample (construct refDeps 44100) (1 / 2) 10).2.2.2.2.2.2.2.2.1
    ⟨by norm_num, by norm_num⟩ (by norm_num)

/-- C12.  When the pattern generator reports Euclidean mode (at the point where
`step()` asks, after the resets of the sample), the three texts are "1 Len: ",
"2 Len: " and "3 Len: " followed by the decimal `(floor(255*v) >> 3) + 1` for the
clamped control value `v` of mapX, mapY and chaos respectively; this length lies in
1..32 for every `v` in [0,1], is 1 at `v = 0` and 32 at `v = 1`.  In the other two
modes the three texts are exactly "Map X", "Map Y" and "Chaos". -/
theorem C12_euclidean_lengths (d : Deps) (x : Sample) (s : Topograph) (v : Rat) :
    (d.getPatternMode (stepClockSelect d (stepTempo d x (stepReset d x (stepRun d x s)))).grids =
        PATTERN_EUCLIDEAN →
      (step d x s).mapXText = "1 Len: " ++ toString (euclideanLength (step d x s).mapX) ∧
      (step d x s).mapYText = "2 Len: " ++ toString (euclideanLength (step d x s).mapY) ∧
      (step d x s).chaosText = "3 Len: " ++ toString (euclideanLength (step d x s).chaos)) ∧
    (d.getPatternMode (stepClockSelect d (stepTempo d x (stepReset d x (stepRun d x s)))).grids ≠
        PATTERN_EUCLIDEAN →
      (step d x s).mapXText = "Map X" ∧ (step d x s).mapYText = "Map Y" ∧
      (step d x s).chaosText = "Chaos") ∧
    ((step d x s).mapX = clamp (controlSum (x.params MAPX_PARAM) (x.inputs MAPX_CV)) 0 1 ∧
      (step d x s).mapY = clamp (controlSum (x.params MAPY_PARAM) (x.inputs MAPY_CV)) 0 1 ∧
      (step d x s).chaos = clamp (controlSum (x.params CHAOS_PARAM) (x.inputs CHAOS_CV)) 0 1) ∧
    (0 ≤ v ∧ v ≤ 1 → 1 ≤ euclideanLength v ∧ euclideanLength v ≤ 32) ∧
    euclideanLength 0 = 1 ∧ euclideanLength 1 = 32 := by
  obtain ⟨h1, h2, h3, h4, h5, h6⟩ := step_texts d x s
  refine ⟨?_, ?_, ⟨h4, h5, h6⟩, fun h => euclideanLength_range v h.2, ?_, ?_⟩
  · intro he
    rw [h1, h2, h3, h4, h5, h6, if_pos he, if_pos he, if_pos he, lengthText_clamp,
      lengthText_clamp, lengthText_clamp]
    exact ⟨rfl, rfl, rfl⟩
  · intro he
    rw [h1, h2, h3, if_neg he, if_neg he, if_neg he]
    exact ⟨rfl, rfl, rfl⟩
  · simp [euclideanLength]
  · simp [euclideanLength]

/-- Witness for C12: with the reference pattern generator (Henri mode) an idle
sample leaves the three plain texts. -/
theorem C12_witness :
    (step refDeps idleSample (construct refDeps 44100)).mapXText = "Map X" ∧
    (step refDeps idleSample (construct refDeps 44100)).mapYText = "Map Y" ∧
    (step refDeps idleSample (construct refDeps 44100)).chaosText = "Chaos" :=
  (C12_euclidean_lengths refDeps idleSample (construct refDeps 44100) 0).2.1
    (by simp [refDeps])

/-- C13.  Step-advance condition.  In every call of `step()` (on a reachable
state), with `s0` equal to 0 if a reset fired in this sample and to the previous
`seqStep` otherwise: if the sequencer is running after run handling and either
(tempo knob < 0.01 and the clock-input trigger fires) or (tempo knob >= 0.01 and
the metronome reports a tick), the pattern generator is ticked exactly once and
`seqStep` becomes `(s0 + 1) mod 32`; in every other case the generator is not
ticked, no drum-trigger or drum-LED one-shot is armed and `seqStep` equals `s0`.
The metronome is processed exactly once in an internal-clock sample and not at
all in an external-clock sample, and a stopped sequencer never advances. -/
theorem C13_step_advance (d : Deps) (x : Sample) (s : Topograph) (hr : Reachable d s) :
    (AdvanceCondition d x s →
      tickCount (step d x s).grids = tickCount s.grids + 1 ∧
      (step d x s).seqStep = ((if resetEvent d x s = true then 0 else s.seqStep) + 1) % 32) ∧
    (¬ AdvanceCondition d x s →
      tickCount (step d x s).grids = tickCount s.grids ∧
      (∀ i, triggerCount ((step d x s).drumTriggers i) = triggerCount (s.drumTriggers i)) ∧
      (∀ k, triggerCount ((step d x s).drumLED k) = triggerCount (s.drumLED k)) ∧
      (step d x s).seqStep = (if resetEvent d x s = true then 0 else s.seqStep)) ∧
    metroProcessCount (newCalls s.metro (step d x s).metro) =
      (if x.params TEMPO_PARAM < 1 / 100 then 0 else 1) ∧
    ((stepRun d x s).running = 0 → ¬ AdvanceCondition d x s) := by
  have ha := reachable_advStep d s hr
  obtain ⟨⟨hs0, hs1⟩, -⟩ := reachable_counters d s hr
  refine ⟨?_, ?_, metroProcessCount_calls d x s, fun h0 hc => hc.1 h0⟩
  · intro hc
    have hA : (stepControl d x s).advStep = true := (advStep_iff d x s ha).mpr hc
    constructor
    · rw [step_grids, if_pos hA, tickCount_call, stepControl_tickCount]
    · rw [step_seqStep, if_pos hA, stepControl_seqStep]
      split_ifs <;> omega
  · intro hc
    have hA : (stepControl d x s).advStep = false := by
      by_contra hne
      exact hc ((advStep_iff d x s ha).mp (by simpa using hne))
    refine ⟨?_, ?_, ?_, ?_⟩
    · rw [step_grids, hA]
      simpa using stepControl_tickCount d x s
    · intro i
      rw [step_drumTriggers, hA]
      simp only [Bool.false_eq_true, false_and, if_false]
      split_ifs <;> simp only [triggerCount_process]
    · intro k
      rw [step_drumLED, hA]
      simp only [Bool.false_eq_true, false_and, if_false, triggerCount_process]
    · rw [step_seqStep, hA, stepControl_seqStep]
      simp

/-- Witness for C13: an idle sample on a constructed module (stopped): no advance. -/
theorem C13_witness :
    tickCount (step refDeps idleSample (construct refDeps 44100)).grids =
        tickCount (construct refDeps 44100).grids ∧
      (step refDeps idleSample (construct refDeps 44100)).seqStep = 0 :=
  ⟨((C13_step_advance refDeps idleSample (construct refDeps 44100)
      (Reachable.construct 44100)).2.1
      (by
        intro hc
        exact hc.1 (by simp [stepRun_eq, runEvent, SchmittTrigger.fires, refDeps, construct,
          SchmittState.after]))).1,
    ((C13_step_advance refDeps idleSample (construct refDeps 44100)
      (Reachable.construct 44100)).2.1
      (by
        intro hc
        exact hc.1 (by simp [stepRun_eq, runEvent, SchmittTrigger.fires, refDeps, construct,
          SchmittState.after]))).2.2.2.trans
      (by simp [resetEvent, SchmittTrigger.fires, refDeps, construct, SchmittState.after])⟩

/-- C14.  Clock-state invariant: in every state reachable from the constructed
module (by `step()` calls with arbitrary samples, and also by settings loads,
sample-rate changes and context-menu actions), `0 <= seqStep <= 31` and
`0 <= elapsedTicks <= 11`, and the advance flag `advStep` is false, as it is on
return from every call of `step()`. -/
theorem C14_clock_state_invariant (d : Deps) (s : Topograph) (hr : Reachable d s) :
    (0 ≤ s.seqStep ∧ s.seqStep ≤ 31) ∧ (0 ≤ s.elapsedTicks ∧ s.elapsedTicks ≤ 11) ∧
    s.advStep = false ∧ (∀ x : Sample, (step d x s).advStep = false) :=
  ⟨(reachable_counters d s hr).1, (reachable_counters d s hr).2, reachable_advStep d s hr,
    fun x => step_advStep d x s⟩

/-- Witness for C14: the state after an idle sample, a run-button press and a
sample with reset and clock high. -/
theorem C14_witness :
    (0 ≤ (step refDeps resetAndClockSample runningExternalState).seqStep ∧
      (step refDeps resetAndClockSample runningExternalState).seqStep ≤ 31) ∧
    (step refDeps resetAndClockSample runningExternalState).advStep = false :=
  ⟨(C14_clock_state_invariant refDeps (step refDeps resetAndClockSample runningExternalState)
      (Reachable.step _ _ (Reachable.step _ _ (Reachable.step _ _ (Reachable.construct 44100))))).1,
    (C14_clock_state_invariant refDeps (step refDeps resetAndClockSample runningExternalState)
      (Reachable.step _ _ (Reachable.step _ _ (Reachable.step _ _
        (Reachable.construct 44100))))).2.2.1⟩

/-- C15.  On every advancing sample (the `if(advStep)` block is entered) and for
every hit vector reported by the pattern generator after its tick: for each voice
`i` in 0..5 the drum-trigger one-shot `i` gets one `trigger()` in that sample if
hit `i` is reported and none otherwise, and the arming loop sets `gateState[i]`
if hit `i` is reported and leaves it (and the one-shot) untouched otherwise; for
each `k` in 0..2 the drum-LED one-shot `k` gets one `trigger()` if hit `k` is
reported and none otherwise; the loop body for an accent voice (3, 4, 5) never
touches a drum LED. -/
theorem C15_arming_loop (d : Deps) (x : Sample) (s : Topograph)
    (hA : (stepControl d x s).advStep = true) :
    (∀ i : Fin 6,
      triggerCount ((step d x s).drumTriggers i) =
        triggerCount (s.drumTriggers i) +
          (if d.getDrumState (step d x s).grids i.val = true then 1 else 0) ∧
      (stepAdvance d (stepControl d x s)).gateState i =
        (if d.getDrumState (step d x s).grids i.val = true then true else s.gateState i) ∧
      (d.getDrumState (step d x s).grids i.val = false →
        (stepAdvance d (stepControl d x s)).drumTriggers i = s.drumTriggers i ∧
        (stepAdvance d (stepControl d x s)).gateState i = s.gateState i)) ∧
    (∀ k : Fin 3,
      triggerCount ((step d x s).drumLED k) =
        triggerCount (s.drumLED k) +
          (if d.getDrumState (step d x s).grids k.val = true then 1 else 0)) ∧
    (∀ (t : Topograph) (i : Fin 6), 3 ≤ i.val → (armVoice d t i).drumLED = t.drumLED) := by
  refine ⟨?_, ?_, fun t i h => armVoice_accent d t i h⟩
  · intro i
    have hg := (step_gateState d x s i).2
    have ht := stepAdvance_drumTriggers d x s i
    rw [hA] at hg ht
    simp only [true_and] at hg ht
    refine ⟨?_, hg, ?_⟩
    · rw [step_drumTriggers, hA]
      simp only [true_and]
      split_ifs <;> simp [triggerCount_process, triggerCount_trigger]
    · intro hn
      rw [hg, ht, hn]
      simp
  · intro k
    rw [step_drumLED, hA]
    simp only [true_and]
    split_ifs <;> simp [triggerCount_process, triggerCount_trigger]

/-- Witness for C15: the advancing sample with reset and clock inputs high on the
running external-clock state; the reference generator reports no hit. -/
theorem C15_witness :
    triggerCount ((step refDeps resetAndClockSample runningExternalState).drumLED 0) =
      triggerCount (runningExternalState.drumLED 0) +
        (if refDeps.getDrumState (step refDeps resetAndClockSample runningExternalState).grids
            (0 : Fin 3).val = true then 1 else 0) :=
  (C15_arming_loop refDeps resetAndClockSample runningExternalState
    runningExternal_advStep).2.1 0

/-- C16.  Across every sequence of samples from the constructed module, the
pattern-generator resets made by `step()` in a sample are one for a reset event
(button or input) plus one implicit reset in exactly those samples where the tempo
knob is below 0.01 and either it is the first sample or the tempo knob was at
least 0.01 in the previous sample: once on each entry into external-clock mode,
never on later consecutive external-clock samples, never on a return to the
internal clock. -/
theorem C16_implicit_reset_on_entry (d : Deps) (sr : Rat) (xs : List Sample) :
    ImplicitResetOnEntry d none (construct d sr) xs :=
  implicitReset_run d xs none (construct d sr) rfl

/-- C17 (amended).  In every call of `step()`, in both trigger-output modes,
`process()` is called exactly once on each of the three drum-LED one-shots and on
the reset-LED one-shot; on each of the six drum-trigger one-shots it is called
exactly once in PULSE mode and not at all in any other mode (GATE), where
`updateOutputs()` derives the outputs from `gateState` and the metronome. -/
theorem C17_process_calls (d : Deps) (x : Sample) (s : Topograph) :
    (∀ k : Fin 3, processCount (newCalls (s.drumLED k) ((step d x s).drumLED k)) = 1) ∧
    processCount (newCalls s.resetLed (step d x s).resetLed) = 1 ∧
    (∀ i : Fin 6, processCount (newCalls (s.drumTriggers i) ((step d x s).drumTriggers i)) =
      if s.triggerOutputMode = PULSE then 1 else 0) :=
  ⟨fun k => processCount_drumLED d x s k, processCount_resetLed d x s,
    fun i => processCount_drumTriggers d x s i⟩

/-- C17 (as stated) fails: on a constructed module switched to GATE mode, a call
of `step()` makes no `process()` call on drum-trigger one-shot 0, whose history is
left as it was. -/
theorem C17_counterexample :
    gateModeState.triggerOutputMode = GATE ∧
    processCount (newCalls (gateModeState.drumTriggers 0)
      ((step refDeps idleSample gateModeState).drumTriggers 0)) = 0 ∧
    (step refDeps idleSample gateModeState).drumTriggers 0 = gateModeState.drumTriggers 0 := by
  have hm : gateModeState.triggerOutputMode = GATE := rfl
  have hne : ¬ gateModeState.triggerOutputMode = PULSE := by rw [hm]; decide
  refine ⟨hm, ?_, ?_⟩
  · rw [processCount_drumTriggers, if_neg hne]
  · rw [step_drumTriggers, if_neg hne]
    simp [refDeps]

/-- C18.  The lookup can leave the table: a constructed module that has loaded a
settings object with "extClockResolution" 5 is reachable, holds 5 in
`extClockResolution`, which is none of the three enumerated resolutions, and its
next external-clock sample reads `ticks_granularity[5]`, outside the three-entry
table.  `fromJson` stores the persisted integer unchecked, while the context
menu, the other writer of the setting, stores 0, 1 or 2 only. -/
theorem C18_lookup_out_of_range :
    Reachable refDeps resolutionFiveState ∧
    resolutionFiveState.extClockResolution = 5 ∧
    idleSample.params TEMPO_PARAM < 1 / 100 ∧
    (step refDeps idleSample resolutionFiveState).numTicks = refDeps.ticks_granularity 5 ∧
    ¬ ((5 : Int) = EXTCLOCK_RES_4_PPQN ∨ (5 : Int) = EXTCLOCK_RES_8_PPQN ∨
      (5 : Int) = EXTCLOCK_RES_24_PPQN) ∧
    (∀ (item : MenuItem) (s : Topograph),
      (item.onAction s).extClockResolution = s.extClockResolution ∨
      (item.onAction s).extClockResolution = EXTCLOCK_RES_4_PPQN ∨
      (item.onAction s).extClockResolution = EXTCLOCK_RES_8_PPQN ∨
      (item.onAction s).extClockResolution = EXTCLOCK_RES_24_PPQN) := by
  have hx : idleSample.params TEMPO_PARAM < 1 / 100 := by norm_num [idleSample]
  refine ⟨Reachable.fromJson _ _ (Reachable.construct 44100), resolutionFive_resolution, hx,
    ?_, by decide, ?_⟩
  · rw [(step_numTicks refDeps idleSample resolutionFiveState).1, if_pos hx,
      resolutionFive_resolution]
  · exact onAction_resolution_cases

/-- C19 (amended).  In momentary run mode the running flag after `step()` is the
`float` sum of the run-button value and the run-input voltage, converted to `int`;
whenever that sum lies within the `int` range (as it does for every exact sum
from -2147483648 to 2147483520) this is the sum truncated toward zero: the
integer between 0 and the sum that is less than 1 away from it.  For every `float`
sum strictly between -1 and 1 the sequencer is stopped and the first metronome
call of the sample is `reset()`; for every other `float` sum within the `int`
range the sequencer is running with the running light at 1.  The `float` sum is
below 1 exactly when the exact sum is below `1 - 2^-25`, and above -1 exactly
when the exact sum is above `-(1 - 2^-25)`; every exact sum from 1 to 2147483520
or from -2147483648 to -1 runs. -/
theorem C19_momentary_truncation (d : Deps) (x : Sample) (s : Topograph)
    (hm : s.runMode = MOMENTARY) :
    (step d x s).running =
      floatToInt (floatAdd (x.params RUN_BUTTON_PARAM) (x.inputs RUN_INPUT)) ∧
    (-2147483649 < floatAdd (x.params RUN_BUTTON_PARAM) (x.inputs RUN_INPUT) ∧
        floatAdd (x.params RUN_BUTTON_PARAM) (x.inputs RUN_INPUT) < 2147483648 →
      (step d x s).running =
        truncToInt (floatAdd (x.params RUN_BUTTON_PARAM) (x.inputs RUN_INPUT)) ∧
      (0 ≤ floatAdd (x.params RUN_BUTTON_PARAM) (x.inputs RUN_INPUT) →
        (0 ≤ (step d x s).running ∧
          (((step d x s).running : Int) : Rat) ≤
            floatAdd (x.params RUN_BUTTON_PARAM) (x.inputs RUN_INPUT) ∧
          floatAdd (x.params RUN_BUTTON_PARAM) (x.inputs RUN_INPUT) <
            (step d x s).running + 1)) ∧
      (floatAdd (x.params RUN_BUTTON_PARAM) (x.inputs RUN_INPUT) < 0 →
        ((step d x s).running ≤ 0 ∧
          floatAdd (x.params RUN_BUTTON_PARAM) (x.inputs RUN_INPUT) ≤
            (((step d x s).running : Int) : Rat) ∧
          (((step d x s).running : Int) : Rat) - 1 <
            floatAdd (x.params RUN_BUTTON_PARAM) (x.inputs RUN_INPUT)))) ∧
    (-2147483648 ≤ x.params RUN_BUTTON_PARAM + x.inputs RUN_INPUT ∧
        x.params RUN_BUTTON_PARAM + x.inputs RUN_INPUT ≤ 2147483520 →
      -2147483649 < floatAdd (x.params RUN_BUTTON_PARAM) (x.inputs RUN_INPUT) ∧
      floatAdd (x.params RUN_BUTTON_PARAM) (x.inputs RUN_INPUT) < 2147483648) ∧
    (-1 < floatAdd (x.params RUN_BUTTON_PARAM) (x.inputs RUN_INPUT) ∧
        floatAdd (x.params RUN_BUTTON_PARAM) (x.inputs RUN_INPUT) < 1 →
      (step d x s).running = 0 ∧ (step d x s).lights RUNNING_LIGHT = 0 ∧
      (newCalls s.metro (step d x s).metro).head? = some MetronomeCall.reset) ∧
    ((1 ≤ floatAdd (x.params RUN_BUTTON_PARAM) (x.inputs RUN_INPUT) ∧
          floatAdd (x.params RUN_BUTTON_PARAM) (x.inputs RUN_INPUT) < 2147483648) ∨
        (-2147483649 < floatAdd (x.params RUN_BUTTON_PARAM) (x.inputs RUN_INPUT) ∧
          floatAdd (x.params RUN_BUTTON_PARAM) (x.inputs RUN_INPUT) ≤ -1) →
      (step d x s).running ≠ 0 ∧ (step d x s).lights RUNNING_LIGHT = 1) ∧
    (floatAdd (x.params RUN_BUTTON_PARAM) (x.inputs RUN_INPUT) < 1 ↔
      x.params RUN_BUTTON_PARAM + x.inputs RUN_INPUT < 1 - 1 / 33554432) ∧
    (-1 < floatAdd (x.params RUN_BUTTON_PARAM) (x.inputs RUN_INPUT) ↔
      -(1 - 1 / 33554432) < x.params RUN_BUTTON_PARAM + x.inputs RUN_INPUT) ∧
    ((1 ≤ x.params RUN_BUTTON_PARAM + x.inputs RUN_INPUT ∧
          x.params RUN_BUTTON_PARAM + x.inputs RUN_INPUT ≤ 2147483520) ∨
        (-2147483648 ≤ x.params RUN_BUTTON_PARAM + x.inputs RUN_INPUT ∧
          x.params RUN_BUTTON_PARAM + x.inputs RUN_INPUT ≤ -1) →
      (step d x s).running ≠ 0 ∧ (step d x s).lights RUNNING_LIGHT = 1) := by
  obtain ⟨h1, h2, h3⟩ := step_momentary d x s hm
  have hrun : ∀ q : Rat, (1 ≤ q ∨ q ≤ -1) →
      floatToInt q ≠ 0 ∧ runningLightValue (floatToInt q) = 1 := by
    intro q h
    have hne := floatToInt_ne_zero q h
    exact ⟨hne, by simp [runningLightValue, hne]⟩
  rw [h1, h2]
  refine ⟨rfl, ?_, floatAdd_int_range _ _, ?_, ?_, roundFloat_lt_one_iff _,
    neg_one_lt_roundFloat_iff _, ?_⟩
  · rintro ⟨ha, hb⟩
    obtain ⟨t1, t2⟩ :=
      truncToInt_spec (floatAdd (x.params RUN_BUTTON_PARAM) (x.inputs RUN_INPUT))
    rw [floatToInt_of_range _ ha hb]
    refine ⟨rfl, ?_, ?_⟩
    · intro h
      refine ⟨?_, (t1 h).1, (t1 h).2⟩
      unfold truncToInt
      rw [if_pos h]
      exact Int.floor_nonneg.mpr h
    · intro h
      refine ⟨?_, (t2 h).1, (t2 h).2⟩
      unfold truncToInt
      rw [if_neg (not_le.mpr h)]
      exact Int.ceil_le.mpr (by simpa using le_of_lt h)
  · rintro ⟨ha, hb⟩
    have h0 := floatToInt_eq_zero _ ha hb
    refine ⟨h0, ?_, h3 h0⟩
    rw [h0]
    simp [runningLightValue]
  · intro h
    apply hrun
    rcases h with h | h
    · exact Or.inl h.1
    · exact Or.inr h.2
  · intro h
    apply hrun
    rcases h with h | h
    · exact Or.inl (one_le_roundFloat h.1)
    · right
      have := one_le_roundFloat (q := -(x.params RUN_BUTTON_PARAM + x.inputs RUN_INPUT))
        (by linarith [h.2])
      rw [roundFloat_neg] at this
      unfold floatAdd
      linarith

/-- C19 (as stated) fails.  With the run button at `1 - 2^-24` and the run input
at `2^-25` the sum is `1 - 2^-25`, strictly between -1 and 1, and its truncation
is 0; the `float` sum rounds to 1, so the sequencer is running and the metronome
is not reset.  With the run input at 3000000000 V the truncated sum is
3000000000, which is no `int`, and the flag is not that number. -/
theorem C19_counterexample :
    (-1 < nearOneSample.params RUN_BUTTON_PARAM + nearOneSample.inputs RUN_INPUT ∧
      nearOneSample.params RUN_BUTTON_PARAM + nearOneSample.inputs RUN_INPUT < 1) ∧
    truncToInt (nearOneSample.params RUN_BUTTON_PARAM + nearOneSample.inputs RUN_INPUT) = 0 ∧
    (step refDeps nearOneSample momentaryState).running = 1 ∧
    MetronomeCall.reset ∉
      newCalls momentaryState.metro (step refDeps nearOneSample momentaryState).metro ∧
    truncToInt (overRangeSample.params RUN_BUTTON_PARAM + overRangeSample.inputs RUN_INPUT) =
      3000000000 ∧
    (step refDeps overRangeSample momentaryState).running = -2147483648 := by
  obtain ⟨h1, h2, h3, h4⟩ := momentary_nearOne
  obtain ⟨h5, h6⟩ := momentary_overRange
  exact ⟨h1, h2, h3, h4, h5, h6⟩

/-- Witness for C19 (amended): the run button held (sum 1) on a constructed module
switched to momentary mode: running, with the light at 1. -/
theorem C19_witness :
    (step refDeps runPressSample (MenuItem.momentary.onAction (construct refDeps 44100))).running
        ≠ 0 ∧
    (step refDeps runPressSample
      (MenuItem.momentary.onAction (construct refDeps 44100))).lights RUNNING_LIGHT = 1 :=
  (C19_momentary_truncation refDeps runPressSample
    (MenuItem.momentary.onAction (construct refDeps 44100)) rfl).2.2.2.2.2.2.2
    (Or.inl (by norm_num [runPressSample]))

end Topograph

/-! ## StrangeAttractors: the frame of each block -/

namespace StrangeAttractors

open ParamIds InputIds OutputIds

theorem setOutputValue_fields (m : StrangeAttractors) (o : OutputIds) (v : Rat) :
    (setOutputValue m o v).lorenz = m.lorenz ∧ (setOutputValue m o v).rossler = m.rossler ∧
    (setOutputValue m o v).params = m.params ∧ (setOutputValue m o v).inputs = m.inputs ∧
    (∀ o2, o2 ≠ o → (setOutputValue m o v).outputs o2 = m.outputs o2) ∧
    ((setOutputValue m o v).outputs o).active = (m.outputs o).active ∧
    ((setOutputValue m o v).outputs o).value = v := by
  unfold setOutputValue
  refine ⟨rfl, rfl, rfl, rfl, ?_, ?_, ?_⟩
  · intro o2 h; simp [Function.update, h]
  · simp
  · simp

theorem stepLorenz_frame (sr : Rat) (m : StrangeAttractors) :
    (stepLorenz sr m).rossler = m.rossler ∧
    (stepLorenz sr m).params = m.params ∧ (stepLorenz sr m).inputs = m.inputs ∧
    (stepLorenz sr m).outputs ROSSLER_X_OUTPUT = m.outputs ROSSLER_X_OUTPUT ∧
    (stepLorenz sr m).outputs ROSSLER_Y_OUTPUT = m.outputs ROSSLER_Y_OUTPUT ∧
    (∀ o, ((stepLorenz sr m).outputs o).active = (m.outputs o).active) := by
  unfold stepLorenz
  split_ifs
  · refine ⟨by simp [setOutputValue], by simp [setOutputValue], by simp [setOutputValue],
      by simp [setOutputValue, Function.update], by simp [setOutputValue, Function.update], ?_⟩
    intro o
    cases o <;> simp [setOutputValue, Function.update]
  · exact ⟨rfl, rfl, rfl, rfl, rfl, fun _ => rfl⟩

theorem stepRossler_frame (sr : Rat) (m : StrangeAttractors) :
    (stepRossler sr m).lorenz = m.lorenz ∧
    (stepRossler sr m).params = m.params ∧ (stepRossler sr m).inputs = m.inputs ∧
    (stepRossler sr m).outputs LORENZ_X_OUTPUT = m.outputs LORENZ_X_OUTPUT ∧
    (stepRossler sr m).outputs LORENZ_Y_OUTPUT = m.outputs LORENZ_Y_OUTPUT ∧
    (∀ o, ((stepRossler sr m).outputs o).active = (m.outputs o).active) := by
  unfold stepRossler
  split_ifs
  · refine ⟨by simp [setOutputValue], by simp [setOutputValue], by simp [setOutputValue],
      by simp [setOutputValue, Function.update], by simp [setOutputValue, Function.update], ?_⟩
    intro o
    cases o <;> simp [setOutputValue, Function.update]
  · exact ⟨rfl, rfl, rfl, rfl, rfl, fun _ => rfl⟩

theorem stepLorenz_inactive (sr : Rat) (m : StrangeAttractors)
    (h : (m.outputs LORENZ_X_OUTPUT).active = false ∧
      (m.outputs LORENZ_Y_OUTPUT).active = false) :
    stepLorenz sr m = m := by
  unfold stepLorenz
  rw [h.1, h.2]
  rfl

theorem stepRossler_inactive (sr : Rat) (m : StrangeAttractors)
    (h : (m.outputs ROSSLER_X_OUTPUT).active = false ∧
      (m.outputs ROSSLER_Y_OUTPUT).active = false) :
    stepRossler sr m = m := by
  unfold stepRossler
  rw [h.1, h.2]
  rfl

/-- C20.  In `StrangeAttractors::step()`, if neither Lorenz output is active then
every Lorenz field (sigma, beta, rho, pitch, x, y, z) and both Lorenz outputs
(value and activity) are unchanged by the call, whatever the Rossler params,
inputs and output activity are; symmetrically, if neither Rossler output is
active then every Rossler field and both Rossler outputs are unchanged. -/
theorem C20_attractor_frame (sr : Rat) (m : StrangeAttractors) :
    ((m.outputs LORENZ_X_OUTPUT).active = false ∧ (m.outputs LORENZ_Y_OUTPUT).active = false →
      (step sr m).lorenz = m.lorenz ∧
      (step sr m).outputs LORENZ_X_OUTPUT = m.outputs LORENZ_X_OUTPUT ∧
      (step sr m).outputs LORENZ_Y_OUTPUT = m.outputs LORENZ_Y_OUTPUT) ∧
    ((m.outputs ROSSLER_X_OUTPUT).active = false ∧ (m.outputs ROSSLER_Y_OUTPUT).active = false →
      (step sr m).rossler = m.rossler ∧
      (step sr m).outputs ROSSLER_X_OUTPUT = m.outputs ROSSLER_X_OUTPUT ∧
      (step sr m).outputs ROSSLER_Y_OUTPUT = m.outputs ROSSLER_Y_OUTPUT) := by
  constructor
  · intro h
    obtain ⟨h1, -, -, h4, h5, -⟩ := stepRossler_frame sr (stepLorenz sr m)
    unfold step
    rw [h1, h4, h5, stepLorenz_inactive sr m h]
    exact ⟨rfl, rfl, rfl⟩
  · intro h
    obtain ⟨h1, -, -, h4, h5, h6⟩ := stepLorenz_frame sr m
    have h' : ((stepLorenz sr m).outputs ROSSLER_X_OUTPUT).active = false ∧
        ((stepLorenz sr m).outputs ROSSLER_Y_OUTPUT).active = false := by
      rw [h6, h6]; exact h
    unfold step
    rw [stepRossler_inactive sr (stepLorenz sr m) h', h1, h4, h5]
    exact ⟨rfl, rfl, rfl⟩

/-- Witness for C20: a module with only the Rossler outputs plugged in; a call of
`step()` at 44100 Hz moves the Rossler state and leaves the Lorenz state. -/
theorem C20_witness :
    (step 44100 rosslerOnly).lorenz = rosslerOnly.lorenz ∧
    (step 44100 rosslerOnly).outputs LORENZ_X_OUTPUT = rosslerOnly.outputs LORENZ_X_OUTPUT ∧
    (step 44100 rosslerOnly).outputs LORENZ_Y_OUTPUT = rosslerOnly.outputs LORENZ_Y_OUTPUT :=
  (C20_attractor_frame 44100 rosslerOnly).1 ⟨rfl, rfl⟩

end StrangeAttractors
